import Mathlib

/-!
# BaseHashLib: the hash router of SecurityPkg/Library/BaseHashLib

A shallow embedding of `BaseHashLibDxe.c` (registry in module globals) and
`BaseHashLibPei.c` (registry in GUID HOBs, one per consuming module), followed
by theorems about registration and dispatch.

Conventions of the embedding

* An `EFI_GUID` is identified with its 128-bit value; `CompareGuid` is equality.
* `UINT32` masks and `UINTN` counters are natural numbers.  The only arithmetic
  on them is `|`, `&`, comparison and `++` on a counter bounded by the capacity
  test, so no operation wraps.
* Function pointers are addresses (`0` is `NULL`).  What the code behind an
  address does is given by a `HASH_CODE` environment.
* `BaseHashLibCommon.h`, `BaseHashLib.h`, `Tpm20.h` and the PCD database are not
  part of the two files.  The declarations taken from them (`HASH_ALGO_COUNT`,
  `HASH_COUNT`, `mHashMask`, `HASH_ALG_DEFAULT`, `PcdSystemHashPolicy`) are the
  fields of `Build`, over which every definition is parameterised.
-/

namespace BaseHashLib

/-! ## Data model -/

/-- An `EFI_GUID`, identified with its 128-bit value. -/
abbrev EFI_GUID := Nat

/-- The all-zero GUID `gZeroGuid`. -/
def gZeroGuid : EFI_GUID := 0

/-- `CompareGuid` returns `TRUE` exactly when the two GUIDs are equal. -/
def CompareGuid (Guid1 Guid2 : EFI_GUID) : Bool := decide (Guid1 = Guid2)

/-- The status codes the two files return. -/
inductive EFI_STATUS where
  | EFI_SUCCESS
  | EFI_UNSUPPORTED
  | EFI_OUT_OF_RESOURCES
  | EFI_ALREADY_STARTED
  deriving DecidableEq, Repr

open EFI_STATUS

/-- One row of the table `mHashMask`: an algorithm GUID and its mask. -/
structure HASH_MASK where
  Guid : EFI_GUID
  Mask : Nat
  deriving DecidableEq, Repr

/-- The descriptor `HASH_INTERFACE_UNIFIED_API`: the algorithm GUID and the three
function pointers of the backend. -/
structure HASH_INTERFACE_UNIFIED_API where
  HashGuid : EFI_GUID
  HashInit : Nat
  HashUpdate : Nat
  HashFinal : Nat
  deriving DecidableEq, Repr

/-- The initialiser `{{0}, NULL, NULL, NULL}`, also what `ZeroMem` leaves in a slot. -/
def ZeroInterface : HASH_INTERFACE_UNIFIED_API :=
  { HashGuid := 0, HashInit := 0, HashUpdate := 0, HashFinal := 0 }

/-- The declarations the two files take from headers and from the PCD database. -/
structure Build where
  HASH_ALGO_COUNT : Nat
  HASH_COUNT : Nat
  mHashMask : List HASH_MASK
  HASH_ALG_DEFAULT : Nat
  PcdSystemHashPolicy : Nat
  deriving Repr

/-- What the code behind a backend function pointer does: `Init p` is the context
`HASH_INIT` at address `p` stores through its argument, `Update p` is the context
after `HASH_UPDATE` at `p` has consumed a buffer, `Final p` is the digest
`HASH_FINAL` at `p` writes. -/
structure HASH_CODE (Ctx Digest : Type) where
  Init : Nat → Ctx
  Update : Nat → Ctx → List Nat → Ctx
  Final : Nat → Ctx → Digest

/-- Outcome of one of `HashApiInit`, `HashApiUpdate`, `HashApiFinal`: the status
returned, the index of the registry entry whose operation was called (`none`
when no backend ran) and what that operation produced. -/
structure HASH_API_RESULT (α : Type) where
  Status : EFI_STATUS
  Invoked : Option Nat
  Out : Option α

/-! ## Code shared by the two files -/

/-- The loop of `GetApiHashMaskFromAlgo` over the rows of `mHashMask` that are
still to be visited. -/
def GetApiHashMaskFromAlgoLoop : List HASH_MASK → EFI_GUID → Nat
  | [], _ => 0
  | Row :: Rest, HashGuid =>
      if CompareGuid HashGuid Row.Guid then Row.Mask
      else GetApiHashMaskFromAlgoLoop Rest HashGuid

/-- `GetApiHashMaskFromAlgo` (BaseHashLibDxe.c 26-40, BaseHashLibPei.c 44-58). -/
def GetApiHashMaskFromAlgo (B : Build) (HashGuid : EFI_GUID) : Nat :=
  GetApiHashMaskFromAlgoLoop B.mHashMask HashGuid

/-- The dispatch loop shared by the six `HashApi*` functions:
`for (Index = ...; Index < Count; Index++)` with `Fuel = Count - Index` iterations
left.  Returns the `Index` at which the loop breaks, `none` when it runs to the
end.  A read past the end of the array yields `ZeroInterface`. -/
def DispatchLoop (B : Build) (Ops : List HASH_INTERFACE_UNIFIED_API) (HashPolicy : Nat) :
    Nat → Nat → Option Nat
  | 0, _ => none
  | Fuel + 1, Index =>
      if GetApiHashMaskFromAlgo B (Ops.getD Index ZeroInterface).HashGuid &&& HashPolicy ≠ 0 then
        some Index
      else DispatchLoop B Ops HashPolicy Fuel (Index + 1)

/-- The duplicate check of `RegisterHashApiLib`:
`for (Index = ...; Index < Count; Index++) if (CompareGuid (...)) return EFI_ALREADY_STARTED`,
with `Fuel = Count - Index` iterations left.  `true` when the loop returns. -/
def DuplicateLoop (Ops : List HASH_INTERFACE_UNIFIED_API) (HashGuid : EFI_GUID) :
    Nat → Nat → Bool
  | 0, _ => false
  | Fuel + 1, Index =>
      if CompareGuid (Ops.getD Index ZeroInterface).HashGuid HashGuid then true
      else DuplicateLoop Ops HashGuid Fuel (Index + 1)

/-! ## BaseHashLibDxe.c -/

namespace Dxe

/-- The module globals `mHashOps`, `mBaseHashInterfaceCount`, `mCurrentHashMask`. -/
structure State where
  mHashOps : List HASH_INTERFACE_UNIFIED_API
  mBaseHashInterfaceCount : Nat
  mCurrentHashMask : Nat
  deriving DecidableEq, Repr

/-- The globals as the image is loaded (BaseHashLibDxe.c 21-24). -/
def Load (B : Build) : State :=
  { mHashOps := List.replicate B.HASH_ALGO_COUNT ZeroInterface
    mBaseHashInterfaceCount := 0
    mCurrentHashMask := 0 }

/-- `HashApiInit` (BaseHashLibDxe.c 50-88). -/
def HashApiInit {Ctx Digest : Type} (B : Build) (Code : HASH_CODE Ctx Digest) (S : State)
    (HashType : Nat) : HASH_API_RESULT Ctx :=
  let HashPolicy := if HashType ≠ B.HASH_ALG_DEFAULT then HashType else B.PcdSystemHashPolicy
  if S.mBaseHashInterfaceCount = 0 ∨ S.mCurrentHashMask &&& HashPolicy = 0 then
    { Status := EFI_UNSUPPORTED, Invoked := none, Out := none }
  else
    match DispatchLoop B S.mHashOps HashPolicy S.mBaseHashInterfaceCount 0 with
    | some Index =>
        { Status := EFI_SUCCESS, Invoked := some Index,
          Out := some (Code.Init (S.mHashOps.getD Index ZeroInterface).HashInit) }
    | none => { Status := EFI_SUCCESS, Invoked := none, Out := none }

/-- `HashApiUpdate` (BaseHashLibDxe.c 100-135). -/
def HashApiUpdate {Ctx Digest : Type} (B : Build) (Code : HASH_CODE Ctx Digest) (S : State)
    (HashHandle : Ctx) (HashType : Nat) (DataToHash : List Nat) : HASH_API_RESULT Ctx :=
  let HashPolicy := if HashType ≠ B.HASH_ALG_DEFAULT then HashType else B.PcdSystemHashPolicy
  if S.mBaseHashInterfaceCount = 0 ∨ S.mCurrentHashMask &&& HashPolicy = 0 then
    { Status := EFI_UNSUPPORTED, Invoked := none, Out := none }
  else
    match DispatchLoop B S.mHashOps HashPolicy S.mBaseHashInterfaceCount 0 with
    | some Index =>
        { Status := EFI_SUCCESS, Invoked := some Index,
          Out := some (Code.Update (S.mHashOps.getD Index ZeroInterface).HashUpdate
                        HashHandle DataToHash) }
    | none => { Status := EFI_SUCCESS, Invoked := none, Out := none }

/-- `HashApiFinal` (BaseHashLibDxe.c 145-179). -/
def HashApiFinal {Ctx Digest : Type} (B : Build) (Code : HASH_CODE Ctx Digest) (S : State)
    (HashHandle : Ctx) (HashType : Nat) : HASH_API_RESULT Digest :=
  let HashPolicy := if HashType ≠ B.HASH_ALG_DEFAULT then HashType else B.PcdSystemHashPolicy
  if S.mBaseHashInterfaceCount = 0 ∨ S.mCurrentHashMask &&& HashPolicy = 0 then
    { Status := EFI_UNSUPPORTED, Invoked := none, Out := none }
  else
    match DispatchLoop B S.mHashOps HashPolicy S.mBaseHashInterfaceCount 0 with
    | some Index =>
        { Status := EFI_SUCCESS, Invoked := some Index,
          Out := some (Code.Final (S.mHashOps.getD Index ZeroInterface).HashFinal HashHandle) }
    | none => { Status := EFI_SUCCESS, Invoked := none, Out := none }

/-- `RegisterHashApiLib` (BaseHashLibDxe.c 190-230).  The capacity test compares
with `sizeof(mHashOps)/sizeof(mHashOps[0])`, the length of the array. -/
def RegisterHashApiLib (B : Build) (S : State) (HashInterface : HASH_INTERFACE_UNIFIED_API) :
    State × EFI_STATUS :=
  let HashMask := GetApiHashMaskFromAlgo B HashInterface.HashGuid
  if S.mBaseHashInterfaceCount ≥ S.mHashOps.length then (S, EFI_OUT_OF_RESOURCES)
  else if DuplicateLoop S.mHashOps HashInterface.HashGuid S.mBaseHashInterfaceCount 0 then
    (S, EFI_ALREADY_STARTED)
  else
    ({ mHashOps := S.mHashOps.set S.mBaseHashInterfaceCount HashInterface
       mBaseHashInterfaceCount := S.mBaseHashInterfaceCount + 1
       mCurrentHashMask := S.mCurrentHashMask ||| HashMask }, EFI_SUCCESS)

/-- `BaseHashLibApiDxeConstructor` (BaseHashLibDxe.c 242-253). -/
def BaseHashLibApiDxeConstructor (S : State) : State × EFI_STATUS :=
  ({ S with mBaseHashInterfaceCount := 0, mCurrentHashMask := 0 }, EFI_SUCCESS)

/-- One call into the library by the module it is linked to. -/
inductive Call where
  | Constructor
  | Register (HashInterface : HASH_INTERFACE_UNIFIED_API)
  deriving DecidableEq, Repr

/-- The effect of one call on the globals, with the status it returns. -/
def Step (B : Build) (S : State) : Call → State × EFI_STATUS
  | Call.Constructor => BaseHashLibApiDxeConstructor S
  | Call.Register HashInterface => RegisterHashApiLib B S HashInterface

/-- A sequence of calls, first call first: the globals afterwards and the
statuses returned, in call order. -/
def Run (B : Build) : State → List Call → State × List EFI_STATUS
  | S, [] => (S, [])
  | S, C :: Rest =>
      ((Run B (Step B S C).1 Rest).1, (Step B S C).2 :: (Run B (Step B S C).1 Rest).2)

end Dxe

/-! ## BaseHashLibPei.c -/

namespace Pei

/-- The record `HASH_INTERFACE_HOB` (BaseHashLibPei.c 29-41). -/
structure HASH_INTERFACE_HOB where
  Identifier : EFI_GUID
  HashInterfaceCount : Nat
  HashInterface : List HASH_INTERFACE_UNIFIED_API
  SupportedHashMask : Nat
  deriving DecidableEq, Repr

/-- The GUID HOBs tagged `mBaseHashLibPeiRouterGuid`, in HOB-list order.  A pointer
to one of them is its position in this list. -/
abbrev HobList := List HASH_INTERFACE_HOB

/-- What a pointer that is not the address of a record reads as. -/
def NoHob : HASH_INTERFACE_HOB :=
  { Identifier := 0, HashInterfaceCount := 0, HashInterface := [], SupportedHashMask := 0 }

/-- `InternalGetBaseHashInterfaceHob` (BaseHashLibPei.c 67-89): the first record
whose `Identifier` matches, `none` for `NULL`. -/
def InternalGetBaseHashInterfaceHob : HobList → EFI_GUID → Option Nat
  | [], _ => none
  | Hob :: Rest, Identifier =>
      if CompareGuid Hob.Identifier Identifier then some 0
      else (InternalGetBaseHashInterfaceHob Rest Identifier).map (fun P => P + 1)

/-- `LocalHashInterfaceHob` of `InternalCreateBaseHashInterfaceHob` after `ZeroMem`
and `CopyGuid`: a zeroed record carrying the identifier. -/
def LocalHashInterfaceHob (B : Build) (Identifier : EFI_GUID) : HASH_INTERFACE_HOB :=
  { Identifier := Identifier
    HashInterfaceCount := 0
    HashInterface := List.replicate B.HASH_ALGO_COUNT ZeroInterface
    SupportedHashMask := 0 }

/-- `InternalCreateBaseHashInterfaceHob` (BaseHashLibPei.c 98-108).  `BuildGuidDataHob`
belongs to HobLib: it appends a copy of the record at the end of the HOB list, or
returns `NULL` when the HOB list has no room, which is the input `HobRoom`. -/
def InternalCreateBaseHashInterfaceHob (B : Build) (Hobs : HobList) (Identifier : EFI_GUID)
    (HobRoom : Bool) : HobList × Option Nat :=
  if HobRoom then (Hobs ++ [LocalHashInterfaceHob B Identifier], some Hobs.length)
  else (Hobs, none)

/-- `HashApiInit` (BaseHashLibPei.c 119-170), called by the module whose
`gEfiCallerIdGuid` is given. -/
def HashApiInit {Ctx Digest : Type} (B : Build) (Code : HASH_CODE Ctx Digest)
    (gEfiCallerIdGuid : EFI_GUID) (Hobs : HobList) (HashType : Nat) : HASH_API_RESULT Ctx :=
  match InternalGetBaseHashInterfaceHob Hobs gEfiCallerIdGuid with
  | none => { Status := EFI_UNSUPPORTED, Invoked := none, Out := none }
  | some P =>
      let HashInterfaceHob := Hobs.getD P NoHob
      let HashPolicy := if HashType ≠ B.HASH_ALG_DEFAULT then HashType else B.PcdSystemHashPolicy
      if HashInterfaceHob.HashInterfaceCount = 0 ∨
          HashInterfaceHob.SupportedHashMask &&& HashPolicy = 0 then
        { Status := EFI_UNSUPPORTED, Invoked := none, Out := none }
      else
        match DispatchLoop B HashInterfaceHob.HashInterface HashPolicy
            HashInterfaceHob.HashInterfaceCount 0 with
        | some Index =>
            { Status := EFI_SUCCESS, Invoked := some Index,
              Out := some (Code.Init
                (HashInterfaceHob.HashInterface.getD Index ZeroInterface).HashInit) }
        | none => { Status := EFI_UNSUPPORTED, Invoked := none, Out := none }

/-- `HashApiUpdate` (BaseHashLibPei.c 183-230). -/
def HashApiUpdate {Ctx Digest : Type} (B : Build) (Code : HASH_CODE Ctx Digest)
    (gEfiCallerIdGuid : EFI_GUID) (Hobs : HobList) (HashHandle : Ctx) (HashType : Nat)
    (DataToHash : List Nat) : HASH_API_RESULT Ctx :=
  match InternalGetBaseHashInterfaceHob Hobs gEfiCallerIdGuid with
  | none => { Status := EFI_UNSUPPORTED, Invoked := none, Out := none }
  | some P =>
      let HashInterfaceHob := Hobs.getD P NoHob
      let HashPolicy := if HashType ≠ B.HASH_ALG_DEFAULT then HashType else B.PcdSystemHashPolicy
      if HashInterfaceHob.HashInterfaceCount = 0 ∨
          HashInterfaceHob.SupportedHashMask &&& HashPolicy = 0 then
        { Status := EFI_UNSUPPORTED, Invoked := none, Out := none }
      else
        match DispatchLoop B HashInterfaceHob.HashInterface HashPolicy
            HashInterfaceHob.HashInterfaceCount 0 with
        | some Index =>
            { Status := EFI_SUCCESS, Invoked := some Index,
              Out := some (Code.Update
                (HashInterfaceHob.HashInterface.getD Index ZeroInterface).HashUpdate
                HashHandle DataToHash) }
        | none => { Status := EFI_UNSUPPORTED, Invoked := none, Out := none }

/-- `HashApiFinal` (BaseHashLibPei.c 241-287). -/
def HashApiFinal {Ctx Digest : Type} (B : Build) (Code : HASH_CODE Ctx Digest)
    (gEfiCallerIdGuid : EFI_GUID) (Hobs : HobList) (HashHandle : Ctx) (HashType : Nat) :
    HASH_API_RESULT Digest :=
  match InternalGetBaseHashInterfaceHob Hobs gEfiCallerIdGuid with
  | none => { Status := EFI_UNSUPPORTED, Invoked := none, Out := none }
  | some P =>
      let HashInterfaceHob := Hobs.getD P NoHob
      let HashPolicy := if HashType ≠ B.HASH_ALG_DEFAULT then HashType else B.PcdSystemHashPolicy
      if HashInterfaceHob.HashInterfaceCount = 0 ∨
          HashInterfaceHob.SupportedHashMask &&& HashPolicy = 0 then
        { Status := EFI_UNSUPPORTED, Invoked := none, Out := none }
      else
        match DispatchLoop B HashInterfaceHob.HashInterface HashPolicy
            HashInterfaceHob.HashInterfaceCount 0 with
        | some Index =>
            { Status := EFI_SUCCESS, Invoked := some Index,
              Out := some (Code.Final
                (HashInterfaceHob.HashInterface.getD Index ZeroInterface).HashFinal
                HashHandle) }
        | none => { Status := EFI_UNSUPPORTED, Invoked := none, Out := none }

/-- Lines 325-349 of `RegisterHashApiLib`, on the record `HashInterfaceHob` points
to: the capacity test against `HASH_COUNT`, the duplicate check, the append.  The
store to `HashInterface[HashInterfaceCount]` is `List.set`; a store past the end
of the array, which C does not define, leaves the list as it is. -/
def RegisterInHob (B : Build) (HashInterfaceHob : HASH_INTERFACE_HOB)
    (HashInterface : HASH_INTERFACE_UNIFIED_API) : HASH_INTERFACE_HOB × EFI_STATUS :=
  let HashMask := GetApiHashMaskFromAlgo B HashInterface.HashGuid
  if HashInterfaceHob.HashInterfaceCount ≥ B.HASH_COUNT then
    (HashInterfaceHob, EFI_OUT_OF_RESOURCES)
  else if DuplicateLoop HashInterfaceHob.HashInterface HashInterface.HashGuid
      HashInterfaceHob.HashInterfaceCount 0 then
    (HashInterfaceHob, EFI_ALREADY_STARTED)
  else
    ({ Identifier := HashInterfaceHob.Identifier
       HashInterfaceCount := HashInterfaceHob.HashInterfaceCount + 1
       HashInterface :=
         HashInterfaceHob.HashInterface.set HashInterfaceHob.HashInterfaceCount HashInterface
       SupportedHashMask := HashInterfaceHob.SupportedHashMask ||| HashMask }, EFI_SUCCESS)

/-- `RegisterHashApiLib` (BaseHashLibPei.c 298-350), called by the module whose
`gEfiCallerIdGuid` is given; `HobRoom` is whether `BuildGuidDataHob` can deliver a
record should the call ask for one. -/
def RegisterHashApiLib (B : Build) (gEfiCallerIdGuid : EFI_GUID) (HobRoom : Bool)
    (Hobs : HobList) (HashInterface : HASH_INTERFACE_UNIFIED_API) : HobList × EFI_STATUS :=
  match InternalGetBaseHashInterfaceHob Hobs gEfiCallerIdGuid with
  | some P =>
      let R := RegisterInHob B (Hobs.getD P NoHob) HashInterface
      (Hobs.set P R.1, R.2)
  | none =>
      match InternalCreateBaseHashInterfaceHob B Hobs gEfiCallerIdGuid HobRoom with
      | (_, none) => (Hobs, EFI_OUT_OF_RESOURCES)
      | (Hobs1, some P) =>
          let Hobs2 := Hobs1.set P { Hobs1.getD P NoHob with SupportedHashMask := 0 }
          let R := RegisterInHob B (Hobs2.getD P NoHob) HashInterface
          (Hobs2.set P R.1, R.2)

/-- Lines 396-398 of `BaseHashLibApiPeiConstructor` on the record `HashInterfaceHob`
points to: `ZeroMem` over the whole array, then count and mask set to zero. -/
def ClearHob (HashInterfaceHob : HASH_INTERFACE_HOB) : HASH_INTERFACE_HOB :=
  { Identifier := HashInterfaceHob.Identifier
    HashInterfaceCount := 0
    HashInterface := List.replicate HashInterfaceHob.HashInterface.length ZeroInterface
    SupportedHashMask := 0 }

/-- `BaseHashLibApiPeiConstructor` (BaseHashLibPei.c 362-402). -/
def BaseHashLibApiPeiConstructor (B : Build) (gEfiCallerIdGuid : EFI_GUID) (HobRoom : Bool)
    (Hobs : HobList) : HobList × EFI_STATUS :=
  let Created :=
    match InternalGetBaseHashInterfaceHob Hobs gZeroGuid with
    | some P => (Hobs, some P)
    | none => InternalCreateBaseHashInterfaceHob B Hobs gZeroGuid HobRoom
  match Created with
  | (_, none) => (Hobs, EFI_OUT_OF_RESOURCES)
  | (Hobs1, some _) =>
      match InternalGetBaseHashInterfaceHob Hobs1 gEfiCallerIdGuid with
      | some P => (Hobs1.set P (ClearHob (Hobs1.getD P NoHob)), EFI_SUCCESS)
      | none => (Hobs1, EFI_SUCCESS)

/-- One call into the library: the calling module, whether the HOB list has room
for one more record, and for a registration the descriptor. -/
inductive Call where
  | Constructor (gEfiCallerIdGuid : EFI_GUID) (HobRoom : Bool)
  | Register (gEfiCallerIdGuid : EFI_GUID) (HobRoom : Bool)
      (HashInterface : HASH_INTERFACE_UNIFIED_API)
  deriving DecidableEq, Repr

/-- The effect of one call on the HOB list, with the status it returns. -/
def Step (B : Build) (Hobs : HobList) : Call → HobList × EFI_STATUS
  | Call.Constructor Caller HobRoom => BaseHashLibApiPeiConstructor B Caller HobRoom Hobs
  | Call.Register Caller HobRoom HashInterface =>
      RegisterHashApiLib B Caller HobRoom Hobs HashInterface

/-- A sequence of calls, first call first: the HOB list afterwards and the
statuses returned, in call order. -/
def Run (B : Build) : HobList → List Call → HobList × List EFI_STATUS
  | Hobs, [] => (Hobs, [])
  | Hobs, C :: Rest =>
      ((Run B (Step B Hobs C).1 Rest).1,
        (Step B Hobs C).2 :: (Run B (Step B Hobs C).1 Rest).2)

end Pei

/-! ## Vocabulary of the statements -/

/-- The record a module finds under an identifier: what the pointer returned by
`InternalGetBaseHashInterfaceHob` points to, `none` when it is `NULL`. -/
def Pei.Lookup (Hobs : Pei.HobList) (Identifier : EFI_GUID) : Option Pei.HASH_INTERFACE_HOB :=
  (Pei.InternalGetBaseHashInterfaceHob Hobs Identifier).map (fun P => Hobs.getD P Pei.NoHob)

/-- The bitwise OR of `GetApiHashMaskFromAlgo` over the GUIDs of a list of entries. -/
def UnionMask (B : Build) : List HASH_INTERFACE_UNIFIED_API → Nat
  | [] => 0
  | E :: Rest => GetApiHashMaskFromAlgo B E.HashGuid ||| UnionMask B Rest

/-- The record a registration of the module works on: the one found, or the
zeroed one `InternalCreateBaseHashInterfaceHob` builds when none is found. -/
def Pei.RecordOr (B : Build) (Hobs : Pei.HobList) (Identifier : EFI_GUID) :
    Pei.HASH_INTERFACE_HOB :=
  (Pei.Lookup Hobs Identifier).getD (Pei.LocalHashInterfaceHob B Identifier)

/-- The three pieces of a registry, whichever file holds it: the array, the count
and the union mask. -/
structure Registry where
  Ops : List HASH_INTERFACE_UNIFIED_API
  Count : Nat
  Mask : Nat

/-- The registry in the globals of BaseHashLibDxe.c. -/
def Dxe.State.Registry (S : Dxe.State) : Registry :=
  { Ops := S.mHashOps, Count := S.mBaseHashInterfaceCount, Mask := S.mCurrentHashMask }

/-- The registry in a record of BaseHashLibPei.c. -/
def Pei.HASH_INTERFACE_HOB.Registry (Hob : Pei.HASH_INTERFACE_HOB) : Registry :=
  { Ops := Hob.HashInterface, Count := Hob.HashInterfaceCount, Mask := Hob.SupportedHashMask }

/-- The entries of a registry: the first `Count` slots of the array. -/
def Registry.Entries (R : Registry) : List HASH_INTERFACE_UNIFIED_API := R.Ops.take R.Count

/-- The count is within the array, the mask is the union of the entries' masks,
and no two entries have the same GUID. -/
def Registry.Inv (B : Build) (R : Registry) : Prop :=
  R.Count ≤ R.Ops.length ∧ R.Mask = UnionMask B R.Entries ∧
    (R.Entries.map (fun E => E.HashGuid)).Nodup

/-- The capacity test, duplicate check and append that both `RegisterHashApiLib`
perform, with the bound `Cap` of the capacity test left open. -/
def Registry.Register (B : Build) (Cap : Nat) (R : Registry)
    (HashInterface : HASH_INTERFACE_UNIFIED_API) : Registry × EFI_STATUS :=
  if R.Count ≥ Cap then (R, EFI_OUT_OF_RESOURCES)
  else if DuplicateLoop R.Ops HashInterface.HashGuid R.Count 0 then (R, EFI_ALREADY_STARTED)
  else
    ({ Ops := R.Ops.set R.Count HashInterface
       Count := R.Count + 1
       Mask := R.Mask ||| GetApiHashMaskFromAlgo B HashInterface.HashGuid }, EFI_SUCCESS)

/-- The effective policy of a request: the configured default when the request is
the sentinel `HASH_ALG_DEFAULT`, the request itself otherwise. -/
def EffectivePolicy (B : Build) (HashType : Nat) : Nat :=
  if HashType = B.HASH_ALG_DEFAULT then B.PcdSystemHashPolicy else HashType

/-- Index `i` is the smallest registration index of a registry whose entry has a
mask that meets the policy `p`. -/
def Registry.FirstMatch (B : Build) (R : Registry) (p : Nat) (i : Nat) : Prop :=
  i < R.Count ∧
    GetApiHashMaskFromAlgo B (R.Ops.getD i ZeroInterface).HashGuid &&& p ≠ 0 ∧
    ∀ j, j < i → GetApiHashMaskFromAlgo B (R.Ops.getD j ZeroInterface).HashGuid &&& p = 0

/-- The policy test and dispatch loop that the six `HashApi*` functions perform on
a registry, with the status `NoMatch` returned after a loop that ran to the end
and the backend operation `Op` left open. -/
def Registry.Dispatch {α : Type} (B : Build) (R : Registry) (p : Nat) (NoMatch : EFI_STATUS)
    (Op : HASH_INTERFACE_UNIFIED_API → α) : HASH_API_RESULT α :=
  if R.Count = 0 ∨ R.Mask &&& p = 0 then
    { Status := EFI_UNSUPPORTED, Invoked := none, Out := none }
  else
    match DispatchLoop B R.Ops p R.Count 0 with
    | some Index =>
        { Status := EFI_SUCCESS, Invoked := some Index,
          Out := some (Op (R.Ops.getD Index ZeroInterface)) }
    | none => { Status := NoMatch, Invoked := none, Out := none }

/-- In the history `Calls`, starting from a HOB list without router records, module
`Id` has registered the descriptor `d` with success. -/
def Pei.Registered (B : Build) (Calls : List Pei.Call) (Id : EFI_GUID)
    (d : HASH_INTERFACE_UNIFIED_API) : Prop :=
  ∃ Pre HobRoom Post, Calls = Pre ++ Pei.Call.Register Id HobRoom d :: Post ∧
    (Pei.RegisterHashApiLib B Id HobRoom (Pei.Run B [] Pre).1 d).2 = EFI_SUCCESS

/-- The module that makes a call. -/
def Pei.Call.Caller : Pei.Call → EFI_GUID
  | Pei.Call.Constructor gEfiCallerIdGuid _ => gEfiCallerIdGuid
  | Pei.Call.Register gEfiCallerIdGuid _ _ => gEfiCallerIdGuid

/-- Registry `R1` continues registry `R`: it counts at least as many entries, the
entries `R` counts stand at the same indices, and every policy the mask of `R`
meets is met by the mask of `R1`. -/
def Registry.Extends (R R1 : Registry) : Prop :=
  R.Count ≤ R1.Count ∧
    (∀ j, j < R.Count → R1.Ops.getD j ZeroInterface = R.Ops.getD j ZeroInterface) ∧
    ∀ p, R.Mask &&& p ≠ 0 → R1.Mask &&& p ≠ 0

/-- What holds of every record the library has written: the array has its
`HASH_ALGO_COUNT` slots, the count is within the bound of the admission test, and
the registry invariant holds. -/
def Pei.HobInv (B : Build) (Hob : Pei.HASH_INTERFACE_HOB) : Prop :=
  Hob.HashInterface.length = B.HASH_ALGO_COUNT ∧ Hob.HashInterfaceCount ≤ B.HASH_COUNT ∧
    Hob.Registry.Inv B

/-- What holds of the globals in every state the library reaches. -/
def Dxe.StateInv (B : Build) (S : Dxe.State) : Prop :=
  S.mHashOps.length = B.HASH_ALGO_COUNT ∧ S.Registry.Inv B

/-- A call of one of the four public operations by a module. -/
inductive ApiCall (Ctx : Type) where
  | Register (HashInterface : HASH_INTERFACE_UNIFIED_API)
  | Init (HashType : Nat)
  | Update (HashHandle : Ctx) (HashType : Nat) (DataToHash : List Nat)
  | Final (HashHandle : Ctx) (HashType : Nat)

/-- What a call of a public operation returns: the status of a registration, or
the status, the entry whose operation ran and what that operation produced. -/
inductive ApiOutcome (Ctx Digest : Type) where
  | Register (Status : EFI_STATUS)
  | Init (Result : HASH_API_RESULT Ctx)
  | Update (Result : HASH_API_RESULT Ctx)
  | Final (Result : HASH_API_RESULT Digest)

/-- One public call on the static variant: the globals afterwards and the outcome. -/
def Dxe.Api {Ctx Digest : Type} (B : Build) (Code : HASH_CODE Ctx Digest) (S : Dxe.State) :
    ApiCall Ctx → Dxe.State × ApiOutcome Ctx Digest
  | ApiCall.Register HashInterface =>
      ((Dxe.RegisterHashApiLib B S HashInterface).1,
        ApiOutcome.Register (Dxe.RegisterHashApiLib B S HashInterface).2)
  | ApiCall.Init HashType => (S, ApiOutcome.Init (Dxe.HashApiInit B Code S HashType))
  | ApiCall.Update HashHandle HashType DataToHash =>
      (S, ApiOutcome.Update (Dxe.HashApiUpdate B Code S HashHandle HashType DataToHash))
  | ApiCall.Final HashHandle HashType =>
      (S, ApiOutcome.Final (Dxe.HashApiFinal B Code S HashHandle HashType))

/-- The outcomes of a sequence of public calls on the static variant, in call order. -/
def Dxe.Trace {Ctx Digest : Type} (B : Build) (Code : HASH_CODE Ctx Digest) :
    Dxe.State → List (ApiCall Ctx) → List (ApiOutcome Ctx Digest)
  | _, [] => []
  | S, C :: Rest => (Dxe.Api B Code S C).2 :: Dxe.Trace B Code (Dxe.Api B Code S C).1 Rest

/-- One public call by the module `gEfiCallerIdGuid` on the persisted variant: the
HOB list afterwards and the outcome. -/
def Pei.Api {Ctx Digest : Type} (B : Build) (Code : HASH_CODE Ctx Digest)
    (gEfiCallerIdGuid : EFI_GUID) (HobRoom : Bool) (Hobs : Pei.HobList) :
    ApiCall Ctx → Pei.HobList × ApiOutcome Ctx Digest
  | ApiCall.Register HashInterface =>
      ((Pei.RegisterHashApiLib B gEfiCallerIdGuid HobRoom Hobs HashInterface).1,
        ApiOutcome.Register
          (Pei.RegisterHashApiLib B gEfiCallerIdGuid HobRoom Hobs HashInterface).2)
  | ApiCall.Init HashType =>
      (Hobs, ApiOutcome.Init (Pei.HashApiInit B Code gEfiCallerIdGuid Hobs HashType))
  | ApiCall.Update HashHandle HashType DataToHash =>
      (Hobs, ApiOutcome.Update
        (Pei.HashApiUpdate B Code gEfiCallerIdGuid Hobs HashHandle HashType DataToHash))
  | ApiCall.Final HashHandle HashType =>
      (Hobs, ApiOutcome.Final
        (Pei.HashApiFinal B Code gEfiCallerIdGuid Hobs HashHandle HashType))

/-- The outcomes of a sequence of public calls by one module on the persisted
variant, in call order. -/
def Pei.Trace {Ctx Digest : Type} (B : Build) (Code : HASH_CODE Ctx Digest)
    (gEfiCallerIdGuid : EFI_GUID) (HobRoom : Bool) :
    Pei.HobList → List (ApiCall Ctx) → List (ApiOutcome Ctx Digest)
  | _, [] => []
  | Hobs, C :: Rest =>
      (Pei.Api B Code gEfiCallerIdGuid HobRoom Hobs C).2 ::
        Pei.Trace B Code gEfiCallerIdGuid HobRoom
          (Pei.Api B Code gEfiCallerIdGuid HobRoom Hobs C).1 Rest

/-- The globals of the static variant and the record of a module in the persisted
variant hold the same registry: same entries, count and mask, with the
invariants of the reachable states on both sides. -/
def SameRegistry (B : Build) (Caller : EFI_GUID) (S : Dxe.State) (Hobs : Pei.HobList) : Prop :=
  S.mHashOps.length = B.HASH_ALGO_COUNT ∧ S.Registry.Inv B ∧
    Pei.HobInv B (Pei.RecordOr B Hobs Caller) ∧
    S.Registry.Entries = (Pei.RecordOr B Hobs Caller).Registry.Entries ∧
    S.mBaseHashInterfaceCount = (Pei.RecordOr B Hobs Caller).HashInterfaceCount ∧
    S.mCurrentHashMask = (Pei.RecordOr B Hobs Caller).SupportedHashMask

/-! Sample data for the closed instances: a build with five slots, the five masks
`1, 2, 4, 8, 16` and the sentinel `0`, descriptors and backends. -/

/-- A build in which both capacity constants are five. -/
def Sample.Build5 : Build :=
  { HASH_ALGO_COUNT := 5
    HASH_COUNT := 5
    mHashMask := [⟨101, 1⟩, ⟨102, 2⟩, ⟨103, 4⟩, ⟨104, 8⟩, ⟨105, 16⟩]
    HASH_ALG_DEFAULT := 0
    PcdSystemHashPolicy := 2 }

/-- A build in which the bound `HASH_COUNT` of the admission test of
BaseHashLibPei.c is two while the arrays have `HASH_ALGO_COUNT = 1` slot. -/
def Sample.BuildOver : Build :=
  { HASH_ALGO_COUNT := 1
    HASH_COUNT := 2
    mHashMask := [⟨101, 1⟩, ⟨102, 2⟩, ⟨103, 4⟩, ⟨104, 8⟩, ⟨105, 16⟩]
    HASH_ALG_DEFAULT := 0
    PcdSystemHashPolicy := 2 }

/-- A descriptor for the GUID with mask `1`. -/
def Sample.Sha1 : HASH_INTERFACE_UNIFIED_API :=
  { HashGuid := 101, HashInit := 1000, HashUpdate := 1001, HashFinal := 1002 }

/-- A descriptor for the GUID with mask `2`. -/
def Sample.Sha256 : HASH_INTERFACE_UNIFIED_API :=
  { HashGuid := 102, HashInit := 2000, HashUpdate := 2001, HashFinal := 2002 }

/-- A descriptor for a GUID that is not in the table. -/
def Sample.Other : HASH_INTERFACE_UNIFIED_API :=
  { HashGuid := 999, HashInit := 9000, HashUpdate := 9001, HashFinal := 9002 }

/-- Backends for the closed instances: a context is the list of the words seen so
far, headed by the address of the `HASH_INIT` that made it; a digest is the sum
of the context and of the address of the `HASH_FINAL` that closes it. -/
def Sample.Code : HASH_CODE (List Nat) Nat :=
  { Init := fun P => [P]
    Update := fun P Ctx Data => Ctx ++ P :: Data
    Final := fun P Ctx => P + Ctx.sum }

/-- Five descriptors, one for each GUID of the sample table. -/
def Sample.Five : List HASH_INTERFACE_UNIFIED_API :=
  [Sample.Sha1, Sample.Sha256,
    { HashGuid := 103, HashInit := 3000, HashUpdate := 3001, HashFinal := 3002 },
    { HashGuid := 104, HashInit := 4000, HashUpdate := 4001, HashFinal := 4002 },
    { HashGuid := 105, HashInit := 5000, HashUpdate := 5001, HashFinal := 5002 }]

/-! ## Bit masks -/

theorem lor_land_eq_zero (a b p : Nat) :
    (a ||| b) &&& p = 0 ↔ a &&& p = 0 ∧ b &&& p = 0 := by
  constructor
  · intro h
    have key : ∀ i, ((a ||| b) &&& p).testBit i = false := by
      intro i; rw [h]; exact Nat.zero_testBit i
    constructor
    · apply Nat.eq_of_testBit_eq
      intro i
      have hi := key i
      rw [Nat.testBit_and, Nat.testBit_or] at hi
      rw [Nat.testBit_and, Nat.zero_testBit]
      cases ha : a.testBit i <;> cases hp : p.testBit i <;> simp_all
    · apply Nat.eq_of_testBit_eq
      intro i
      have hi := key i
      rw [Nat.testBit_and, Nat.testBit_or] at hi
      rw [Nat.testBit_and, Nat.zero_testBit]
      cases hb : b.testBit i <;> cases hp : p.testBit i <;> simp_all
  · rintro ⟨ha, hb⟩
    apply Nat.eq_of_testBit_eq
    intro i
    have h1 : (a &&& p).testBit i = false := by rw [ha]; exact Nat.zero_testBit i
    have h2 : (b &&& p).testBit i = false := by rw [hb]; exact Nat.zero_testBit i
    rw [Nat.testBit_and] at h1 h2
    rw [Nat.testBit_and, Nat.testBit_or, Nat.zero_testBit]
    cases ha' : a.testBit i <;> cases hb' : b.testBit i <;> cases hp : p.testBit i <;> simp_all

theorem UnionMask_append (B : Build) (l₁ l₂ : List HASH_INTERFACE_UNIFIED_API) :
    UnionMask B (l₁ ++ l₂) = UnionMask B l₁ ||| UnionMask B l₂ := by
  induction l₁ with
  | nil => simp [UnionMask]
  | cons E Rest ih => simp [UnionMask, ih, Nat.or_assoc]

theorem UnionMask_land_eq_zero (B : Build) (p : Nat) (l : List HASH_INTERFACE_UNIFIED_API) :
    UnionMask B l &&& p = 0 ↔ ∀ E ∈ l, GetApiHashMaskFromAlgo B E.HashGuid &&& p = 0 := by
  induction l with
  | nil => simp [UnionMask]
  | cons E Rest ih => simp [UnionMask, lor_land_eq_zero, ih]

/-! ## The two loops -/

theorem DuplicateLoop_iff (Ops : List HASH_INTERFACE_UNIFIED_API) (g : EFI_GUID) :
    ∀ Fuel Index, DuplicateLoop Ops g Fuel Index = true ↔
      ∃ j, Index ≤ j ∧ j < Index + Fuel ∧ (Ops.getD j ZeroInterface).HashGuid = g := by
  intro Fuel
  induction Fuel with
  | zero => intro Index; simp [DuplicateLoop]; intro j h1 h2; omega
  | succ n ih =>
      intro Index
      unfold DuplicateLoop
      by_cases h : (Ops.getD Index ZeroInterface).HashGuid = g
      · simp only [CompareGuid, h, decide_True, if_true, true_iff]
        exact ⟨Index, Nat.le_refl _, by omega, h⟩
      · simp only [CompareGuid, h, decide_False, Bool.false_eq_true, if_false]
        rw [ih]
        constructor
        · rintro ⟨j, h1, h2, h3⟩
          exact ⟨j, by omega, by omega, h3⟩
        · rintro ⟨j, h1, h2, h3⟩
          have hne : j ≠ Index := by rintro rfl; exact h h3
          exact ⟨j, by omega, by omega, h3⟩

theorem getD_mem_take {α : Type} (l : List α) (d : α) {j n : Nat} (hj : j < n)
    (hn : n ≤ l.length) : l.getD j d ∈ l.take n := by
  have hjl : j < l.length := by omega
  rw [List.getD_eq_getElem l d hjl]
  have : j < (l.take n).length := by simp; omega
  have h := List.getElem_mem this
  simpa using h

theorem mem_take_getD {α : Type} (l : List α) (d : α) {n : Nat} {x : α}
    (hx : x ∈ l.take n) : ∃ j, j < n ∧ j < l.length ∧ l.getD j d = x := by
  obtain ⟨j, hj, rfl⟩ := List.getElem_of_mem hx
  have hj' : j < min n l.length := by simpa using hj
  refine ⟨j, by omega, by omega, ?_⟩
  rw [List.getD_eq_getElem l d (by omega)]
  simp

theorem DuplicateLoop_take (Ops : List HASH_INTERFACE_UNIFIED_API) (g : EFI_GUID) (n : Nat)
    (hn : n ≤ Ops.length) :
    DuplicateLoop Ops g n 0 = true ↔ g ∈ (Ops.take n).map (fun E => E.HashGuid) := by
  rw [DuplicateLoop_iff]
  constructor
  · rintro ⟨j, _, h2, h3⟩
    exact List.mem_map.mpr ⟨_, getD_mem_take Ops ZeroInterface (by omega) hn, h3⟩
  · intro h
    obtain ⟨E, hE, rfl⟩ := List.mem_map.mp h
    obtain ⟨j, h1, _, h3⟩ := mem_take_getD Ops ZeroInterface hE
    exact ⟨j, Nat.zero_le _, by omega, by rw [h3]⟩

theorem take_set_succ {α : Type} (l : List α) (n : Nat) (a : α) (hn : n < l.length) :
    (l.set n a).take (n + 1) = l.take n ++ [a] := by
  induction l generalizing n with
  | nil => simp at hn
  | cons x xs ih =>
      cases n with
      | zero => simp
      | succ m =>
          simp only [List.set_cons_succ, List.take_succ_cons, List.cons_append, List.cons.injEq,
            true_and]
          exact ih m (by simpa using hn)

theorem DispatchLoop_some (B : Build) (Ops : List HASH_INTERFACE_UNIFIED_API) (p : Nat) :
    ∀ Fuel Index i, DispatchLoop B Ops p Fuel Index = some i ↔
      Index ≤ i ∧ i < Index + Fuel ∧
      GetApiHashMaskFromAlgo B (Ops.getD i ZeroInterface).HashGuid &&& p ≠ 0 ∧
      ∀ j, Index ≤ j → j < i →
        GetApiHashMaskFromAlgo B (Ops.getD j ZeroInterface).HashGuid &&& p = 0 := by
  intro Fuel
  induction Fuel with
  | zero => intro Index i; simp [DispatchLoop]; intro h1 h2; omega
  | succ n ih =>
      intro Index i
      unfold DispatchLoop
      by_cases h : GetApiHashMaskFromAlgo B (Ops.getD Index ZeroInterface).HashGuid &&& p = 0
      · rw [if_neg (by simpa using h), ih]
        constructor
        · rintro ⟨h1, h2, h3, h4⟩
          refine ⟨by omega, by omega, h3, ?_⟩
          intro j hj1 hj2
          by_cases hji : j = Index
          · rw [hji]; exact h
          · exact h4 j (by omega) hj2
        · rintro ⟨h1, h2, h3, h4⟩
          have hne : i ≠ Index := by rintro rfl; exact h3 h
          exact ⟨by omega, by omega, h3, fun j hj1 hj2 => h4 j (by omega) hj2⟩
      · rw [if_pos h]
        constructor
        · intro he
          have he' : Index = i := by simpa using he
          subst he'
          exact ⟨Nat.le_refl _, by omega, h, fun j hj1 hj2 => by omega⟩
        · rintro ⟨h1, h2, h3, h4⟩
          by_cases hii : Index = i
          · rw [hii]
          · exact absurd (h4 Index (Nat.le_refl _) (by omega)) h

theorem DispatchLoop_none (B : Build) (Ops : List HASH_INTERFACE_UNIFIED_API) (p : Nat) :
    ∀ Fuel Index, DispatchLoop B Ops p Fuel Index = none ↔
      ∀ j, Index ≤ j → j < Index + Fuel →
        GetApiHashMaskFromAlgo B (Ops.getD j ZeroInterface).HashGuid &&& p = 0 := by
  intro Fuel
  induction Fuel with
  | zero => intro Index; simp [DispatchLoop]; intro j h1 h2; omega
  | succ n ih =>
      intro Index
      unfold DispatchLoop
      by_cases h : GetApiHashMaskFromAlgo B (Ops.getD Index ZeroInterface).HashGuid &&& p = 0
      · rw [if_neg (by simpa using h), ih]
        constructor
        · intro h4 j hj1 hj2
          by_cases hji : j = Index
          · rw [hji]; exact h
          · exact h4 j (by omega) (by omega)
        · intro h4 j hj1 hj2
          exact h4 j (by omega) (by omega)
      · rw [if_pos h]
        simp only [reduceCtorEq, false_iff]
        intro h4
        exact h (h4 Index (Nat.le_refl _) (by omega))

/-! ## The registry -/

theorem Dxe.RegisterHashApiLib_eq (B : Build) (S : Dxe.State) (d : HASH_INTERFACE_UNIFIED_API) :
    ((Dxe.RegisterHashApiLib B S d).1.Registry, (Dxe.RegisterHashApiLib B S d).2) =
      Registry.Register B S.mHashOps.length S.Registry d := by
  unfold Dxe.RegisterHashApiLib Registry.Register Dxe.State.Registry
  by_cases h1 : S.mBaseHashInterfaceCount ≥ S.mHashOps.length
  · simp [h1]
  · by_cases h2 : DuplicateLoop S.mHashOps d.HashGuid S.mBaseHashInterfaceCount 0 = true
    · simp [h1, h2]
    · simp [h1, h2]

theorem Pei.RegisterInHob_eq (B : Build) (Hob : Pei.HASH_INTERFACE_HOB)
    (d : HASH_INTERFACE_UNIFIED_API) :
    ((Pei.RegisterInHob B Hob d).1.Registry, (Pei.RegisterInHob B Hob d).2) =
      Registry.Register B B.HASH_COUNT Hob.Registry d := by
  unfold Pei.RegisterInHob Registry.Register Pei.HASH_INTERFACE_HOB.Registry
  by_cases h1 : Hob.HashInterfaceCount ≥ B.HASH_COUNT
  · simp [h1]
  · by_cases h2 : DuplicateLoop Hob.HashInterface d.HashGuid Hob.HashInterfaceCount 0 = true
    · simp [h1, h2]
    · simp [h1, h2]

theorem Pei.RegisterInHob_Identifier (B : Build) (Hob : Pei.HASH_INTERFACE_HOB)
    (d : HASH_INTERFACE_UNIFIED_API) :
    (Pei.RegisterInHob B Hob d).1.Identifier = Hob.Identifier := by
  unfold Pei.RegisterInHob
  by_cases h1 : Hob.HashInterfaceCount ≥ B.HASH_COUNT
  · simp [h1]
  · by_cases h2 : DuplicateLoop Hob.HashInterface d.HashGuid Hob.HashInterfaceCount 0 = true
    · simp [h1, h2]
    · simp [h1, h2]

namespace Registry

theorem Register_full (B : Build) (Cap : Nat) (R : Registry) (d : HASH_INTERFACE_UNIFIED_API)
    (h : Cap ≤ R.Count) : Register B Cap R d = (R, EFI_OUT_OF_RESOURCES) := by
  unfold Register; rw [if_pos h]

theorem Register_duplicate (B : Build) (Cap : Nat) (R : Registry)
    (d : HASH_INTERFACE_UNIFIED_API) (h : R.Count < Cap) (hn : R.Count ≤ R.Ops.length)
    (hd : d.HashGuid ∈ R.Entries.map (fun E => E.HashGuid)) :
    Register B Cap R d = (R, EFI_ALREADY_STARTED) := by
  unfold Register
  rw [if_neg (by omega), if_pos ((DuplicateLoop_take R.Ops d.HashGuid R.Count hn).mpr hd)]

theorem Register_fresh (B : Build) (Cap : Nat) (R : Registry)
    (d : HASH_INTERFACE_UNIFIED_API) (h : R.Count < Cap) (hn : R.Count ≤ R.Ops.length)
    (hd : d.HashGuid ∉ R.Entries.map (fun E => E.HashGuid)) :
    Register B Cap R d =
      ({ Ops := R.Ops.set R.Count d, Count := R.Count + 1,
         Mask := R.Mask ||| GetApiHashMaskFromAlgo B d.HashGuid }, EFI_SUCCESS) := by
  unfold Register
  have hdl : ¬ DuplicateLoop R.Ops d.HashGuid R.Count 0 = true :=
    fun hc => hd ((DuplicateLoop_take R.Ops d.HashGuid R.Count hn).mp hc)
  rw [if_neg (by omega), if_neg hdl]

theorem Entries_after (R : Registry) (d : HASH_INTERFACE_UNIFIED_API)
    (h : R.Count < R.Ops.length) :
    Entries { Ops := R.Ops.set R.Count d, Count := R.Count + 1, Mask := m } =
      R.Entries ++ [d] := by
  unfold Entries
  exact take_set_succ R.Ops R.Count d h

theorem Register_length (B : Build) (Cap : Nat) (R : Registry)
    (d : HASH_INTERFACE_UNIFIED_API) : (Register B Cap R d).1.Ops.length = R.Ops.length := by
  unfold Register
  split
  · rfl
  · split
    · rfl
    · simp

theorem Register_keeps_Inv (B : Build) (Cap : Nat) (R : Registry) (d : HASH_INTERFACE_UNIFIED_API)
    (hCap : Cap ≤ R.Ops.length) (hR : R.Inv B) : (Register B Cap R d).1.Inv B := by
  obtain ⟨h1, h2, h3⟩ := hR
  by_cases hfull : Cap ≤ R.Count
  · rw [Register_full B Cap R d hfull]; exact ⟨h1, h2, h3⟩
  · by_cases hd : d.HashGuid ∈ R.Entries.map (fun E => E.HashGuid)
    · rw [Register_duplicate B Cap R d (by omega) h1 hd]; exact ⟨h1, h2, h3⟩
    · rw [Register_fresh B Cap R d (by omega) h1 hd]
      have hlt : R.Count < R.Ops.length := by omega
      refine ⟨by simp; omega, ?_, ?_⟩
      · rw [Entries_after R d hlt, UnionMask_append, ← h2]
        simp [UnionMask]
      · rw [Entries_after R d hlt, List.map_append, List.nodup_append]
        refine ⟨h3, by simp, ?_⟩
        intro a ha hb
        have : a = d.HashGuid := by simpa using hb
        subst this
        exact hd ha

end Registry

/-! ## The HOB list -/

namespace Pei

theorem InternalGet_some (Hobs : HobList) (Id : EFI_GUID) :
    ∀ P, InternalGetBaseHashInterfaceHob Hobs Id = some P →
      P < Hobs.length ∧ (Hobs.getD P NoHob).Identifier = Id := by
  induction Hobs with
  | nil => intro P h; simp [InternalGetBaseHashInterfaceHob] at h
  | cons Hob Rest ih =>
      intro P h
      unfold InternalGetBaseHashInterfaceHob at h
      by_cases hc : Hob.Identifier = Id
      · simp only [CompareGuid, hc, decide_True, if_true, Option.some.injEq] at h
        subst h
        exact ⟨by simp, by simpa using hc⟩
      · simp only [CompareGuid, hc, decide_False, Bool.false_eq_true, if_false,
          Option.map_eq_some'] at h
        obtain ⟨Q, hQ, rfl⟩ := h
        obtain ⟨h1, h2⟩ := ih Q hQ
        exact ⟨by simp; omega, by simpa using h2⟩

theorem InternalGet_none (Hobs : HobList) (Id : EFI_GUID) :
    InternalGetBaseHashInterfaceHob Hobs Id = none ↔ ∀ Hob ∈ Hobs, Hob.Identifier ≠ Id := by
  induction Hobs with
  | nil => simp [InternalGetBaseHashInterfaceHob]
  | cons Hob Rest ih =>
      unfold InternalGetBaseHashInterfaceHob
      by_cases hc : Hob.Identifier = Id
      · simp [CompareGuid, hc]
      · simp [CompareGuid, hc, ih]

theorem InternalGet_congr :
    ∀ (Hobs Hobs1 : HobList) (Id : EFI_GUID),
      Hobs.map (fun H => H.Identifier) = Hobs1.map (fun H => H.Identifier) →
      InternalGetBaseHashInterfaceHob Hobs Id = InternalGetBaseHashInterfaceHob Hobs1 Id := by
  intro Hobs
  induction Hobs with
  | nil =>
      intro Hobs1 Id h
      cases Hobs1 with
      | nil => rfl
      | cons a l => simp at h
  | cons Hob Rest ih =>
      intro Hobs1 Id h
      cases Hobs1 with
      | nil => simp at h
      | cons a l =>
          simp only [List.map_cons, List.cons.injEq] at h
          unfold InternalGetBaseHashInterfaceHob
          rw [h.1, ih l Id h.2]

theorem map_Identifier_set (Hobs : HobList) (P : Nat) (Hob : HASH_INTERFACE_HOB)
    (h : Hob.Identifier = (Hobs.getD P NoHob).Identifier) (hP : P < Hobs.length) :
    (Hobs.set P Hob).map (fun H => H.Identifier) = Hobs.map (fun H => H.Identifier) := by
  induction Hobs generalizing P with
  | nil => simp at hP
  | cons a l ih =>
      cases P with
      | zero => simp at h; simp [h]
      | succ Q =>
          simp only [List.set_cons_succ, List.map_cons, List.cons.injEq, true_and]
          exact ih Q (by simpa using h) (by simpa using hP)

theorem InternalGet_set (Hobs : HobList) (P : Nat) (Hob : HASH_INTERFACE_HOB) (Id : EFI_GUID)
    (h : Hob.Identifier = (Hobs.getD P NoHob).Identifier) (hP : P < Hobs.length) :
    InternalGetBaseHashInterfaceHob (Hobs.set P Hob) Id =
      InternalGetBaseHashInterfaceHob Hobs Id :=
  InternalGet_congr _ _ Id (map_Identifier_set Hobs P Hob h hP)

theorem InternalGet_append_of_some (Hobs More : HobList) (Id : EFI_GUID) (P : Nat)
    (h : InternalGetBaseHashInterfaceHob Hobs Id = some P) :
    InternalGetBaseHashInterfaceHob (Hobs ++ More) Id = some P := by
  induction Hobs generalizing P with
  | nil => simp [InternalGetBaseHashInterfaceHob] at h
  | cons Hob Rest ih =>
      rw [List.cons_append]
      unfold InternalGetBaseHashInterfaceHob at h ⊢
      by_cases hc : Hob.Identifier = Id
      · simpa [CompareGuid, hc] using h
      · simp only [CompareGuid, hc, decide_False, Bool.false_eq_true, if_false,
          Option.map_eq_some'] at h ⊢
        obtain ⟨Q, hQ, rfl⟩ := h
        exact ⟨Q, ih Q hQ, rfl⟩

theorem InternalGet_append_of_none (Hobs : HobList) (Hob : HASH_INTERFACE_HOB) (Id : EFI_GUID)
    (h : InternalGetBaseHashInterfaceHob Hobs Id = none) :
    InternalGetBaseHashInterfaceHob (Hobs ++ [Hob]) Id =
      if Hob.Identifier = Id then some Hobs.length else none := by
  induction Hobs with
  | nil =>
      simp only [List.nil_append, InternalGetBaseHashInterfaceHob, CompareGuid, List.length_nil]
      by_cases hc : Hob.Identifier = Id <;> simp [hc]
  | cons A Rest ih =>
      rw [List.cons_append]
      unfold InternalGetBaseHashInterfaceHob at h ⊢
      by_cases hc : A.Identifier = Id
      · simp [CompareGuid, hc] at h
      · simp only [CompareGuid, hc, decide_False, Bool.false_eq_true, if_false,
          Option.map_eq_none'] at h ⊢
        rw [ih h]
        by_cases hd : Hob.Identifier = Id <;> simp [hd]

theorem Lookup_some_iff (Hobs : HobList) (Id : EFI_GUID) (Hob : HASH_INTERFACE_HOB) :
    Lookup Hobs Id = some Hob ↔
      ∃ P, InternalGetBaseHashInterfaceHob Hobs Id = some P ∧ Hobs.getD P NoHob = Hob := by
  unfold Lookup
  simp [Option.map_eq_some']

theorem Lookup_none_iff (Hobs : HobList) (Id : EFI_GUID) :
    Lookup Hobs Id = none ↔ InternalGetBaseHashInterfaceHob Hobs Id = none := by
  unfold Lookup
  simp

theorem Lookup_Identifier (Hobs : HobList) (Id : EFI_GUID) (Hob : HASH_INTERFACE_HOB)
    (h : Lookup Hobs Id = some Hob) : Hob.Identifier = Id := by
  obtain ⟨P, hP, rfl⟩ := (Lookup_some_iff Hobs Id Hob).mp h
  exact (InternalGet_some Hobs Id P hP).2

theorem Lookup_mem (Hobs : HobList) (Id : EFI_GUID) (Hob : HASH_INTERFACE_HOB)
    (h : Lookup Hobs Id = some Hob) : Hob ∈ Hobs := by
  obtain ⟨P, hP, rfl⟩ := (Lookup_some_iff Hobs Id Hob).mp h
  have hlt := (InternalGet_some Hobs Id P hP).1
  rw [List.getD_eq_getElem Hobs NoHob hlt]
  exact List.getElem_mem hlt

theorem Lookup_set (Hobs : HobList) (P : Nat) (Hob : HASH_INTERFACE_HOB) (Id Id1 : EFI_GUID)
    (hP : InternalGetBaseHashInterfaceHob Hobs Id = some P) (h : Hob.Identifier = Id) :
    Lookup (Hobs.set P Hob) Id1 = if Id1 = Id then some Hob else Lookup Hobs Id1 := by
  obtain ⟨hlt, hid⟩ := InternalGet_some Hobs Id P hP
  unfold Lookup
  rw [InternalGet_set Hobs P Hob Id1 (by rw [h, hid]) hlt]
  by_cases hc : Id1 = Id
  · subst hc
    rw [hP, if_pos rfl]
    simp [List.getElem?_set_self hlt]
  · rw [if_neg hc]
    cases hQ : InternalGetBaseHashInterfaceHob Hobs Id1 with
    | none => rfl
    | some Q =>
        have hne : P ≠ Q := by
          rintro rfl
          exact hc ((InternalGet_some Hobs Id1 P hQ).2.symm.trans hid)
        simp [List.getElem?_set_ne hne]

theorem Lookup_append (Hobs : HobList) (Hob : HASH_INTERFACE_HOB) (Id Id1 : EFI_GUID)
    (hP : InternalGetBaseHashInterfaceHob Hobs Id = none) (h : Hob.Identifier = Id) :
    Lookup (Hobs ++ [Hob]) Id1 = if Id1 = Id then some Hob else Lookup Hobs Id1 := by
  unfold Lookup
  by_cases hc : Id1 = Id
  · subst hc
    rw [InternalGet_append_of_none Hobs Hob Id1 hP, if_pos h, if_pos rfl]
    simp
  · rw [if_neg hc]
    cases hQ : InternalGetBaseHashInterfaceHob Hobs Id1 with
    | none =>
        rw [InternalGet_append_of_none Hobs Hob Id1 hQ, if_neg (by rw [h]; exact Ne.symm hc)]
        rfl
    | some Q =>
        rw [InternalGet_append_of_some Hobs [Hob] Id1 Q hQ]
        have hlt := (InternalGet_some Hobs Id1 Q hQ).1
        simp [List.getElem?_append_left hlt]

theorem Register_of_some (B : Build) (Caller : EFI_GUID) (HobRoom : Bool) (Hobs : HobList)
    (d : HASH_INTERFACE_UNIFIED_API) (P : Nat)
    (hP : InternalGetBaseHashInterfaceHob Hobs Caller = some P) :
    RegisterHashApiLib B Caller HobRoom Hobs d =
      (Hobs.set P (RegisterInHob B (Hobs.getD P NoHob) d).1,
        (RegisterInHob B (Hobs.getD P NoHob) d).2) := by
  unfold RegisterHashApiLib
  rw [hP]

theorem Register_of_none_room (B : Build) (Caller : EFI_GUID) (Hobs : HobList)
    (d : HASH_INTERFACE_UNIFIED_API)
    (hP : InternalGetBaseHashInterfaceHob Hobs Caller = none) :
    RegisterHashApiLib B Caller true Hobs d =
      (Hobs ++ [(RegisterInHob B (LocalHashInterfaceHob B Caller) d).1],
        (RegisterInHob B (LocalHashInterfaceHob B Caller) d).2) := by
  unfold RegisterHashApiLib
  rw [hP]
  simp [InternalCreateBaseHashInterfaceHob, LocalHashInterfaceHob]

theorem Register_of_none_noroom (B : Build) (Caller : EFI_GUID) (Hobs : HobList)
    (d : HASH_INTERFACE_UNIFIED_API)
    (hP : InternalGetBaseHashInterfaceHob Hobs Caller = none) :
    RegisterHashApiLib B Caller false Hobs d = (Hobs, EFI_OUT_OF_RESOURCES) := by
  unfold RegisterHashApiLib
  rw [hP]
  simp [InternalCreateBaseHashInterfaceHob]

theorem Lookup_Register_some (B : Build) (Caller : EFI_GUID) (HobRoom : Bool) (Hobs : HobList)
    (d : HASH_INTERFACE_UNIFIED_API) (Hob : HASH_INTERFACE_HOB)
    (h : Lookup Hobs Caller = some Hob) (Id : EFI_GUID) :
    Lookup (RegisterHashApiLib B Caller HobRoom Hobs d).1 Id =
        (if Id = Caller then some (RegisterInHob B Hob d).1 else Lookup Hobs Id) ∧
      (RegisterHashApiLib B Caller HobRoom Hobs d).2 = (RegisterInHob B Hob d).2 := by
  obtain ⟨P, hP, rfl⟩ := (Lookup_some_iff Hobs Caller Hob).mp h
  rw [Register_of_some B Caller HobRoom Hobs d P hP]
  refine ⟨?_, rfl⟩
  exact Lookup_set Hobs P _ Caller Id hP
    ((RegisterInHob_Identifier B _ d).trans (InternalGet_some Hobs Caller P hP).2)

theorem Lookup_Register_none (B : Build) (Caller : EFI_GUID) (Hobs : HobList)
    (d : HASH_INTERFACE_UNIFIED_API) (h : Lookup Hobs Caller = none) (Id : EFI_GUID) :
    Lookup (RegisterHashApiLib B Caller true Hobs d).1 Id =
        (if Id = Caller then some (RegisterInHob B (LocalHashInterfaceHob B Caller) d).1
         else Lookup Hobs Id) ∧
      (RegisterHashApiLib B Caller true Hobs d).2 =
        (RegisterInHob B (LocalHashInterfaceHob B Caller) d).2 := by
  have hP := (Lookup_none_iff Hobs Caller).mp h
  rw [Register_of_none_room B Caller Hobs d hP]
  refine ⟨?_, rfl⟩
  exact Lookup_append Hobs _ Caller Id hP (RegisterInHob_Identifier B _ d)

end Pei

/-! ## Sequences of registrations -/

theorem Dxe.Run_registers_globals (B : Build) :
    ∀ (ds : List HASH_INTERFACE_UNIFIED_API) (S : Dxe.State),
      S.mBaseHashInterfaceCount + ds.length ≤ S.mHashOps.length →
      ((S.Registry.Entries ++ ds).map (fun E => E.HashGuid)).Nodup →
      (Dxe.Run B S (ds.map Dxe.Call.Register)).2 = ds.map (fun _ => EFI_SUCCESS) ∧
      (Dxe.Run B S (ds.map Dxe.Call.Register)).1.Registry.Entries = S.Registry.Entries ++ ds ∧
      (Dxe.Run B S (ds.map Dxe.Call.Register)).1.mBaseHashInterfaceCount =
        S.mBaseHashInterfaceCount + ds.length ∧
      (Dxe.Run B S (ds.map Dxe.Call.Register)).1.mCurrentHashMask =
        S.mCurrentHashMask ||| UnionMask B ds := by
  intro ds
  induction ds with
  | nil => intro S _ _; simp [Dxe.Run, UnionMask]
  | cons d Rest ih =>
      intro S hlen hnd
      have hlen1 : S.mBaseHashInterfaceCount < S.mHashOps.length := by
        simp at hlen; omega
      have hfresh : d.HashGuid ∉ S.Registry.Entries.map (fun E => E.HashGuid) := by
        intro hmem
        rw [List.map_append, List.nodup_append] at hnd
        exact hnd.2.2 hmem (by simp)
      have hreg := Dxe.RegisterHashApiLib_eq B S d
      rw [Registry.Register_fresh B _ S.Registry d hlen1 (Nat.le_of_lt hlen1) hfresh] at hreg
      have hst : (Dxe.RegisterHashApiLib B S d).2 = EFI_SUCCESS := congrArg Prod.snd hreg
      have hrg := congrArg Prod.fst hreg
      simp only at hrg
      have hE : (Dxe.RegisterHashApiLib B S d).1.Registry.Entries = S.Registry.Entries ++ [d] := by
        rw [hrg]; exact Registry.Entries_after S.Registry d hlen1
      have hC : (Dxe.RegisterHashApiLib B S d).1.mBaseHashInterfaceCount =
          S.mBaseHashInterfaceCount + 1 := congrArg Registry.Count hrg
      have hM : (Dxe.RegisterHashApiLib B S d).1.mCurrentHashMask =
          S.mCurrentHashMask ||| GetApiHashMaskFromAlgo B d.HashGuid := congrArg Registry.Mask hrg
      have hL : (Dxe.RegisterHashApiLib B S d).1.mHashOps.length = S.mHashOps.length := by
        have := congrArg (fun R => R.Ops.length) hrg
        simpa [Dxe.State.Registry] using this
      obtain ⟨i1, i2, i3, i4⟩ := ih (Dxe.RegisterHashApiLib B S d).1
        (by rw [hC, hL]; simp at hlen; omega)
        (by rw [hE]; simpa using hnd)
      simp only [List.map_cons, Dxe.Run, Dxe.Step]
      refine ⟨by rw [hst, i1], by rw [i2, hE]; simp, by rw [i3, hC]; simp; omega, ?_⟩
      rw [i4, hM]
      simp [UnionMask, Nat.or_assoc]

theorem Pei.Lookup_Register_room (B : Build) (Caller : EFI_GUID) (Hobs : Pei.HobList)
    (d : HASH_INTERFACE_UNIFIED_API) (Id : EFI_GUID) :
    Pei.Lookup (Pei.RegisterHashApiLib B Caller true Hobs d).1 Id =
        (if Id = Caller then some (Pei.RegisterInHob B (Pei.RecordOr B Hobs Caller) d).1
         else Pei.Lookup Hobs Id) ∧
      (Pei.RegisterHashApiLib B Caller true Hobs d).2 =
        (Pei.RegisterInHob B (Pei.RecordOr B Hobs Caller) d).2 := by
  unfold Pei.RecordOr
  cases h : Pei.Lookup Hobs Caller with
  | none => exact Pei.Lookup_Register_none B Caller Hobs d h Id
  | some Hob => exact Pei.Lookup_Register_some B Caller true Hobs d Hob h Id

theorem Pei.Run_registers_record (B : Build) (Caller : EFI_GUID) :
    ∀ (ds : List HASH_INTERFACE_UNIFIED_API) (Hobs : Pei.HobList),
      (Pei.RecordOr B Hobs Caller).HashInterfaceCount + ds.length ≤ B.HASH_COUNT →
      (Pei.RecordOr B Hobs Caller).HashInterfaceCount + ds.length ≤
        (Pei.RecordOr B Hobs Caller).HashInterface.length →
      (((Pei.RecordOr B Hobs Caller).Registry.Entries ++ ds).map (fun E => E.HashGuid)).Nodup →
      (Pei.Run B Hobs (ds.map (Pei.Call.Register Caller true))).2 =
          ds.map (fun _ => EFI_SUCCESS) ∧
      (Pei.RecordOr B (Pei.Run B Hobs (ds.map (Pei.Call.Register Caller true))).1
          Caller).Registry.Entries = (Pei.RecordOr B Hobs Caller).Registry.Entries ++ ds ∧
      (Pei.RecordOr B (Pei.Run B Hobs (ds.map (Pei.Call.Register Caller true))).1
          Caller).HashInterfaceCount =
        (Pei.RecordOr B Hobs Caller).HashInterfaceCount + ds.length ∧
      (Pei.RecordOr B (Pei.Run B Hobs (ds.map (Pei.Call.Register Caller true))).1
          Caller).SupportedHashMask =
        (Pei.RecordOr B Hobs Caller).SupportedHashMask ||| UnionMask B ds ∧
      (ds ≠ [] →
        (Pei.Lookup (Pei.Run B Hobs (ds.map (Pei.Call.Register Caller true))).1 Caller).isSome) := by
  intro ds
  induction ds with
  | nil => intro Hobs _ _ _; simp [Pei.Run, UnionMask]
  | cons d Rest ih =>
      intro Hobs hcap hlen hnd
      have hlen1 : (Pei.RecordOr B Hobs Caller).HashInterfaceCount <
          (Pei.RecordOr B Hobs Caller).HashInterface.length := by
        simp at hlen; omega
      have hcap1 : (Pei.RecordOr B Hobs Caller).HashInterfaceCount < B.HASH_COUNT := by
        simp at hcap; omega
      have hfresh : d.HashGuid ∉
          (Pei.RecordOr B Hobs Caller).Registry.Entries.map (fun E => E.HashGuid) := by
        intro hmem
        rw [List.map_append, List.nodup_append] at hnd
        exact hnd.2.2 hmem (by simp)
      obtain ⟨hlk, hst0⟩ := Pei.Lookup_Register_room B Caller Hobs d Caller
      rw [if_pos rfl] at hlk
      have hreg := Pei.RegisterInHob_eq B (Pei.RecordOr B Hobs Caller) d
      rw [Registry.Register_fresh B _ _ d hcap1 (Nat.le_of_lt hlen1) hfresh] at hreg
      have hst : (Pei.RegisterHashApiLib B Caller true Hobs d).2 = EFI_SUCCESS :=
        hst0.trans (congrArg Prod.snd hreg)
      have hrg := congrArg Prod.fst hreg
      simp only at hrg
      have hrec : Pei.RecordOr B (Pei.RegisterHashApiLib B Caller true Hobs d).1 Caller =
          (Pei.RegisterInHob B (Pei.RecordOr B Hobs Caller) d).1 := by
        unfold Pei.RecordOr at hlk ⊢
        rw [hlk]; rfl
      have hE : (Pei.RegisterInHob B (Pei.RecordOr B Hobs Caller) d).1.Registry.Entries =
          (Pei.RecordOr B Hobs Caller).Registry.Entries ++ [d] := by
        rw [hrg]; exact Registry.Entries_after _ d hlen1
      have hC : (Pei.RegisterInHob B (Pei.RecordOr B Hobs Caller) d).1.HashInterfaceCount =
          (Pei.RecordOr B Hobs Caller).HashInterfaceCount + 1 := congrArg Registry.Count hrg
      have hM : (Pei.RegisterInHob B (Pei.RecordOr B Hobs Caller) d).1.SupportedHashMask =
          (Pei.RecordOr B Hobs Caller).SupportedHashMask ||| GetApiHashMaskFromAlgo B d.HashGuid :=
        congrArg Registry.Mask hrg
      have hL : (Pei.RegisterInHob B (Pei.RecordOr B Hobs Caller) d).1.HashInterface.length =
          (Pei.RecordOr B Hobs Caller).HashInterface.length := by
        have := congrArg (fun R => R.Ops.length) hrg
        simpa [Pei.HASH_INTERFACE_HOB.Registry] using this
      obtain ⟨i1, i2, i3, i4, i5⟩ := ih (Pei.RegisterHashApiLib B Caller true Hobs d).1
        (by rw [hrec, hC]; simp at hcap; omega)
        (by rw [hrec, hC, hL]; simp at hlen; omega)
        (by rw [hrec, hE]; simpa using hnd)
      simp only [List.map_cons, Pei.Run, Pei.Step]
      refine ⟨by rw [hst, i1], by rw [i2, hrec, hE]; simp,
        by rw [i3, hrec, hC]; simp; omega, ?_, ?_⟩
      · rw [i4, hrec, hM]
        simp [UnionMask, Nat.or_assoc]
      · intro _
        cases Rest with
        | nil => simp [Pei.Run, hlk]
        | cons e Rest1 => exact i5 (by simp)

/-! ## Invariants of the reachable states -/

theorem Registry.Register_Count_le (B : Build) (Cap : Nat) (R : Registry)
    (d : HASH_INTERFACE_UNIFIED_API) (h : R.Count ≤ Cap) :
    (Registry.Register B Cap R d).1.Count ≤ Cap := by
  unfold Registry.Register
  split
  · exact h
  · split
    · exact h
    · simp only; omega

theorem Registry.Register_status_full (B : Build) (Cap : Nat) (R : Registry)
    (d : HASH_INTERFACE_UNIFIED_API) :
    (Registry.Register B Cap R d).2 = EFI_OUT_OF_RESOURCES ↔ Cap ≤ R.Count := by
  unfold Registry.Register
  by_cases h1 : R.Count ≥ Cap
  · simp [h1]
  · by_cases h2 : DuplicateLoop R.Ops d.HashGuid R.Count 0 = true
    · simp [h1, h2]
    · simp [h1, h2]

theorem Registry.Register_unchanged (B : Build) (Cap : Nat) (R : Registry)
    (d : HASH_INTERFACE_UNIFIED_API) (h : (Registry.Register B Cap R d).2 ≠ EFI_SUCCESS) :
    (Registry.Register B Cap R d).1 = R := by
  unfold Registry.Register at h ⊢
  by_cases h1 : R.Count ≥ Cap
  · simp [h1]
  · by_cases h2 : DuplicateLoop R.Ops d.HashGuid R.Count 0 = true
    · simp [h1, h2]
    · simp [h1, h2] at h

theorem Dxe.Register_Registry (B : Build) (S : Dxe.State) (d : HASH_INTERFACE_UNIFIED_API) :
    (Dxe.RegisterHashApiLib B S d).1.Registry =
      (Registry.Register B S.mHashOps.length S.Registry d).1 :=
  congrArg Prod.fst (Dxe.RegisterHashApiLib_eq B S d)

theorem Dxe.Register_status (B : Build) (S : Dxe.State) (d : HASH_INTERFACE_UNIFIED_API) :
    (Dxe.RegisterHashApiLib B S d).2 =
      (Registry.Register B S.mHashOps.length S.Registry d).2 :=
  congrArg Prod.snd (Dxe.RegisterHashApiLib_eq B S d)

theorem Pei.RegisterInHob_Registry (B : Build) (Hob : Pei.HASH_INTERFACE_HOB)
    (d : HASH_INTERFACE_UNIFIED_API) :
    (Pei.RegisterInHob B Hob d).1.Registry = (Registry.Register B B.HASH_COUNT Hob.Registry d).1 :=
  congrArg Prod.fst (Pei.RegisterInHob_eq B Hob d)

theorem Pei.RegisterInHob_status (B : Build) (Hob : Pei.HASH_INTERFACE_HOB)
    (d : HASH_INTERFACE_UNIFIED_API) :
    (Pei.RegisterInHob B Hob d).2 = (Registry.Register B B.HASH_COUNT Hob.Registry d).2 :=
  congrArg Prod.snd (Pei.RegisterInHob_eq B Hob d)

theorem Dxe.Load_Inv (B : Build) : Dxe.StateInv B (Dxe.Load B) := by
  refine ⟨by simp [Dxe.Load], ?_, ?_, ?_⟩ <;>
    simp [Dxe.Load, Dxe.State.Registry, Registry.Entries, UnionMask]

theorem Dxe.Step_StateInv (B : Build) (S : Dxe.State) (C : Dxe.Call) (h : Dxe.StateInv B S) :
    Dxe.StateInv B (Dxe.Step B S C).1 := by
  obtain ⟨hlen, hinv⟩ := h
  cases C with
  | Constructor =>
      refine ⟨hlen, ?_, ?_, ?_⟩ <;>
        simp [Dxe.Step, Dxe.BaseHashLibApiDxeConstructor, Dxe.State.Registry, Registry.Entries,
          UnionMask]
  | Register d =>
      have hreg := Dxe.Register_Registry B S d
      have hinv1 := Registry.Register_keeps_Inv B S.mHashOps.length S.Registry d (Nat.le_refl _) hinv
      have hlen1 := Registry.Register_length B S.mHashOps.length S.Registry d
      rw [← hreg] at hinv1 hlen1
      exact ⟨hlen1.trans hlen, hinv1⟩

theorem Dxe.Run_StateInv (B : Build) :
    ∀ (Calls : List Dxe.Call) (S : Dxe.State), Dxe.StateInv B S →
      Dxe.StateInv B (Dxe.Run B S Calls).1 := by
  intro Calls
  induction Calls with
  | nil => intro S h; exact h
  | cons C Rest ih => intro S h; exact ih _ (Dxe.Step_StateInv B S C h)

namespace Pei

theorem Local_Inv (B : Build) (Id : EFI_GUID) : HobInv B (LocalHashInterfaceHob B Id) := by
  refine ⟨by simp [LocalHashInterfaceHob], by simp [LocalHashInterfaceHob], ?_, ?_, ?_⟩ <;>
    simp [LocalHashInterfaceHob, HASH_INTERFACE_HOB.Registry, Registry.Entries, UnionMask]

theorem ClearHob_Inv (B : Build) (Hob : HASH_INTERFACE_HOB)
    (h : Hob.HashInterface.length = B.HASH_ALGO_COUNT) : HobInv B (ClearHob Hob) := by
  refine ⟨by simp [ClearHob, h], by simp [ClearHob], ?_, ?_, ?_⟩ <;>
    simp [ClearHob, HASH_INTERFACE_HOB.Registry, Registry.Entries, UnionMask]

theorem RegisterInHob_Inv (B : Build) (hB : B.HASH_COUNT ≤ B.HASH_ALGO_COUNT)
    (Hob : HASH_INTERFACE_HOB) (d : HASH_INTERFACE_UNIFIED_API) (h : HobInv B Hob) :
    HobInv B (RegisterInHob B Hob d).1 := by
  obtain ⟨hlen, hcnt, hinv⟩ := h
  have hreg := RegisterInHob_Registry B Hob d
  have hinv1 := Registry.Register_keeps_Inv B B.HASH_COUNT Hob.Registry d
    (by simp [HASH_INTERFACE_HOB.Registry]; omega) hinv
  have hlen1 := Registry.Register_length B B.HASH_COUNT Hob.Registry d
  have hcnt1 := Registry.Register_Count_le B B.HASH_COUNT Hob.Registry d hcnt
  rw [← hreg] at hinv1 hlen1 hcnt1
  exact ⟨hlen1.trans hlen, hcnt1, hinv1⟩

theorem getD_mem (Hobs : HobList) (P : Nat) (hP : P < Hobs.length) :
    Hobs.getD P NoHob ∈ Hobs := by
  rw [List.getD_eq_getElem Hobs NoHob hP]
  exact List.getElem_mem hP

theorem Register_HobInv (B : Build) (hB : B.HASH_COUNT ≤ B.HASH_ALGO_COUNT) (Caller : EFI_GUID)
    (HobRoom : Bool) (Hobs : HobList) (d : HASH_INTERFACE_UNIFIED_API)
    (h : ∀ Hob ∈ Hobs, HobInv B Hob) :
    ∀ Hob ∈ (RegisterHashApiLib B Caller HobRoom Hobs d).1, HobInv B Hob := by
  cases hP : InternalGetBaseHashInterfaceHob Hobs Caller with
  | some P =>
      rw [Register_of_some B Caller HobRoom Hobs d P hP]
      intro Hob hmem
      rcases List.mem_or_eq_of_mem_set hmem with hm | rfl
      · exact h Hob hm
      · exact RegisterInHob_Inv B hB _ d
          (h _ (getD_mem Hobs P (InternalGet_some Hobs Caller P hP).1))
  | none =>
      cases HobRoom with
      | false => rw [Register_of_none_noroom B Caller Hobs d hP]; exact h
      | true =>
          rw [Register_of_none_room B Caller Hobs d hP]
          intro Hob hmem
          rcases List.mem_append.mp hmem with hm | hm
          · exact h Hob hm
          · have : Hob = (RegisterInHob B (LocalHashInterfaceHob B Caller) d).1 := by
              simpa using hm
            rw [this]
            exact RegisterInHob_Inv B hB _ d (Local_Inv B Caller)

theorem Constructor_cases (B : Build) (Caller : EFI_GUID) (HobRoom : Bool) (Hobs : HobList) :
    BaseHashLibApiPeiConstructor B Caller HobRoom Hobs = (Hobs, EFI_OUT_OF_RESOURCES) ∧
        InternalGetBaseHashInterfaceHob Hobs gZeroGuid = none ∧ HobRoom = false ∨
      ∃ Hobs1, (Hobs1 = Hobs ∧ InternalGetBaseHashInterfaceHob Hobs gZeroGuid ≠ none ∨
          Hobs1 = Hobs ++ [LocalHashInterfaceHob B gZeroGuid] ∧
            InternalGetBaseHashInterfaceHob Hobs gZeroGuid = none ∧ HobRoom = true) ∧
        (InternalGetBaseHashInterfaceHob Hobs1 Caller = none ∧
            BaseHashLibApiPeiConstructor B Caller HobRoom Hobs = (Hobs1, EFI_SUCCESS) ∨
          ∃ P, InternalGetBaseHashInterfaceHob Hobs1 Caller = some P ∧
            BaseHashLibApiPeiConstructor B Caller HobRoom Hobs =
              (Hobs1.set P (ClearHob (Hobs1.getD P NoHob)), EFI_SUCCESS)) := by
  unfold BaseHashLibApiPeiConstructor
  cases hZ : InternalGetBaseHashInterfaceHob Hobs gZeroGuid with
  | some Q =>
      right
      refine ⟨Hobs, Or.inl ⟨rfl, by simp⟩, ?_⟩
      cases hC : InternalGetBaseHashInterfaceHob Hobs Caller with
      | none => left; simp [hC]
      | some P => right; exact ⟨P, rfl, by simp [hC]⟩
  | none =>
      cases HobRoom with
      | false => left; simp [InternalCreateBaseHashInterfaceHob]
      | true =>
          right
          refine ⟨Hobs ++ [LocalHashInterfaceHob B gZeroGuid], Or.inr ⟨rfl, rfl, rfl⟩, ?_⟩
          simp only [InternalCreateBaseHashInterfaceHob, if_true]
          cases hC : InternalGetBaseHashInterfaceHob
              (Hobs ++ [LocalHashInterfaceHob B gZeroGuid]) Caller with
          | none => left; simp [hC]
          | some P => right; exact ⟨P, rfl, by simp [hC]⟩

theorem Constructor_Inv (B : Build) (Caller : EFI_GUID) (HobRoom : Bool) (Hobs : HobList)
    (h : ∀ Hob ∈ Hobs, HobInv B Hob) :
    ∀ Hob ∈ (BaseHashLibApiPeiConstructor B Caller HobRoom Hobs).1, HobInv B Hob := by
  rcases Constructor_cases B Caller HobRoom Hobs with ⟨he, _, _⟩ | ⟨Hobs1, h1, h2⟩
  · rw [he]; exact h
  · have hinv1 : ∀ Hob ∈ Hobs1, HobInv B Hob := by
      rcases h1 with ⟨rfl, _⟩ | ⟨rfl, _, _⟩
      · exact h
      · intro Hob hmem
        rcases List.mem_append.mp hmem with hm | hm
        · exact h Hob hm
        · have : Hob = LocalHashInterfaceHob B gZeroGuid := by simpa using hm
          rw [this]; exact Local_Inv B gZeroGuid
    rcases h2 with ⟨_, he⟩ | ⟨P, hP, he⟩
    · rw [he]; exact hinv1
    · rw [he]
      intro Hob hmem
      rcases List.mem_or_eq_of_mem_set hmem with hm | rfl
      · exact hinv1 Hob hm
      · exact ClearHob_Inv B _
          (hinv1 _ (getD_mem Hobs1 P (InternalGet_some Hobs1 Caller P hP).1)).1

theorem Step_HobInv (B : Build) (hB : B.HASH_COUNT ≤ B.HASH_ALGO_COUNT) (Hobs : HobList) (C : Call)
    (h : ∀ Hob ∈ Hobs, HobInv B Hob) : ∀ Hob ∈ (Step B Hobs C).1, HobInv B Hob := by
  cases C with
  | Constructor Caller HobRoom => exact Constructor_Inv B Caller HobRoom Hobs h
  | Register Caller HobRoom d => exact Register_HobInv B hB Caller HobRoom Hobs d h

theorem Run_HobInv (B : Build) (hB : B.HASH_COUNT ≤ B.HASH_ALGO_COUNT) :
    ∀ (Calls : List Call) (Hobs : HobList), (∀ Hob ∈ Hobs, HobInv B Hob) →
      ∀ Hob ∈ (Run B Hobs Calls).1, HobInv B Hob := by
  intro Calls
  induction Calls with
  | nil => intro Hobs h; exact h
  | cons C Rest ih => intro Hobs h; exact ih _ (Step_HobInv B hB Hobs C h)

theorem Reachable_Inv (B : Build) (hB : B.HASH_COUNT ≤ B.HASH_ALGO_COUNT) (Calls : List Call) :
    ∀ Hob ∈ (Run B [] Calls).1, HobInv B Hob :=
  Run_HobInv B hB Calls [] (by simp)

end Pei

/-! ## What a call does to the record of each module -/

namespace Pei

theorem Lookup_Register_other (B : Build) (Caller : EFI_GUID) (HobRoom : Bool) (Hobs : HobList)
    (d : HASH_INTERFACE_UNIFIED_API) (Id : EFI_GUID) (hId : Id ≠ Caller) :
    Lookup (RegisterHashApiLib B Caller HobRoom Hobs d).1 Id = Lookup Hobs Id := by
  cases hL : Lookup Hobs Caller with
  | some Hob =>
      rw [(Lookup_Register_some B Caller HobRoom Hobs d Hob hL Id).1, if_neg hId]
  | none =>
      cases HobRoom with
      | false =>
          rw [Register_of_none_noroom B Caller Hobs d ((Lookup_none_iff Hobs Caller).mp hL)]
      | true => rw [(Lookup_Register_none B Caller Hobs d hL Id).1, if_neg hId]

theorem RecordOr_Register_self (B : Build) (Caller : EFI_GUID) (HobRoom : Bool) (Hobs : HobList)
    (d : HASH_INTERFACE_UNIFIED_API) :
    (RegisterHashApiLib B Caller HobRoom Hobs d = (Hobs, EFI_OUT_OF_RESOURCES) ∧
        Lookup Hobs Caller = none ∧ HobRoom = false) ∨
      (Lookup (RegisterHashApiLib B Caller HobRoom Hobs d).1 Caller =
          some (RegisterInHob B (RecordOr B Hobs Caller) d).1 ∧
        (RegisterHashApiLib B Caller HobRoom Hobs d).2 =
          (RegisterInHob B (RecordOr B Hobs Caller) d).2) := by
  unfold RecordOr
  cases hL : Lookup Hobs Caller with
  | some Hob =>
      right
      have h := Lookup_Register_some B Caller HobRoom Hobs d Hob hL Caller
      rw [if_pos rfl] at h
      exact h
  | none =>
      cases HobRoom with
      | false =>
          left
          exact ⟨Register_of_none_noroom B Caller Hobs d ((Lookup_none_iff Hobs Caller).mp hL),
            rfl, rfl⟩
      | true =>
          right
          have h := Lookup_Register_none B Caller Hobs d hL Caller
          rw [if_pos rfl] at h
          exact h

theorem set_getD_self (Hobs : HobList) (P : Nat) : Hobs.set P (Hobs.getD P NoHob) = Hobs := by
  induction Hobs generalizing P with
  | nil => simp
  | cons a l ih =>
      cases P with
      | zero => simp
      | succ Q =>
          have := ih Q
          simp only [List.getD_eq_getElem?_getD] at this
          simp [this]

theorem Lookup_Constructor_other (B : Build) (Caller : EFI_GUID) (HobRoom : Bool)
    (Hobs : HobList) (Id : EFI_GUID) (hId : Id ≠ Caller) :
    Lookup (BaseHashLibApiPeiConstructor B Caller HobRoom Hobs).1 Id = Lookup Hobs Id ∨
      (Id = gZeroGuid ∧ Lookup Hobs Id = none ∧
        Lookup (BaseHashLibApiPeiConstructor B Caller HobRoom Hobs).1 Id =
          some (LocalHashInterfaceHob B gZeroGuid)) := by
  rcases Constructor_cases B Caller HobRoom Hobs with ⟨he, _, _⟩ | ⟨Hobs1, h1, h2⟩
  · left; rw [he]
  · have hstep : Lookup (BaseHashLibApiPeiConstructor B Caller HobRoom Hobs).1 Id =
        Lookup Hobs1 Id := by
      rcases h2 with ⟨_, he⟩ | ⟨P, hP, he⟩
      · rw [he]
      · rw [he]
        have := Lookup_set Hobs1 P (ClearHob (Hobs1.getD P NoHob)) Caller Id hP
          (InternalGet_some Hobs1 Caller P hP).2
        rw [this, if_neg hId]
    rw [hstep]
    rcases h1 with ⟨rfl, _⟩ | ⟨rfl, hZ, _⟩
    · left; rfl
    · have := Lookup_append Hobs (LocalHashInterfaceHob B gZeroGuid) gZeroGuid Id hZ rfl
      rw [this]
      by_cases hz : Id = gZeroGuid
      · right
        subst hz
        exact ⟨rfl, (Lookup_none_iff Hobs _).mpr hZ, by simp⟩
      · left; rw [if_neg hz]

theorem RecordOr_Constructor_other (B : Build) (Caller : EFI_GUID) (HobRoom : Bool)
    (Hobs : HobList) (Id : EFI_GUID) (hId : Id ≠ Caller) :
    RecordOr B (BaseHashLibApiPeiConstructor B Caller HobRoom Hobs).1 Id = RecordOr B Hobs Id := by
  unfold RecordOr
  rcases Lookup_Constructor_other B Caller HobRoom Hobs Id hId with h | ⟨rfl, h1, h2⟩
  · rw [h]
  · rw [h1, h2]; rfl

theorem RecordOr_Register_other (B : Build) (Caller : EFI_GUID) (HobRoom : Bool) (Hobs : HobList)
    (d : HASH_INTERFACE_UNIFIED_API) (Id : EFI_GUID) (hId : Id ≠ Caller) :
    RecordOr B (RegisterHashApiLib B Caller HobRoom Hobs d).1 Id = RecordOr B Hobs Id := by
  unfold RecordOr
  rw [Lookup_Register_other B Caller HobRoom Hobs d Id hId]

theorem RecordOr_Inv (B : Build) (Hobs : HobList) (Id : EFI_GUID)
    (h : ∀ Hob ∈ Hobs, HobInv B Hob) : HobInv B (RecordOr B Hobs Id) := by
  unfold RecordOr
  cases hL : Lookup Hobs Id with
  | none => exact Local_Inv B Id
  | some Hob => exact h Hob (Lookup_mem Hobs Id Hob hL)

end Pei

/-! ## C1: registering distinct algorithms -/

/-- C1. Starting from an empty registry, registering at most `MAX_ALGOS` descriptors
with pairwise distinct GUIDs succeeds at every call, leaves exactly these
descriptors in call order (count = length) and makes the union mask the OR of
`GetApiHashMaskFromAlgo` over them.  Static table: the globals with count and
mask zero.  Persisted record: the caller has no record yet and the HOB list has
room for it, or its record has count and mask zero; the sequence fits the bound
`HASH_COUNT` of the admission test and the `HASH_ALGO_COUNT` slots of the array. -/
theorem C1_register_distinct_sequence (B : Build) (S : Dxe.State) (Hobs : Pei.HobList)
    (Caller : EFI_GUID) (ds : List HASH_INTERFACE_UNIFIED_API)
    (hS : S.mHashOps.length = B.HASH_ALGO_COUNT ∧ S.mBaseHashInterfaceCount = 0 ∧
      S.mCurrentHashMask = 0)
    (hH : ∀ Hob, Pei.Lookup Hobs Caller = some Hob →
      Hob.HashInterface.length = B.HASH_ALGO_COUNT ∧ Hob.HashInterfaceCount = 0 ∧
        Hob.SupportedHashMask = 0)
    (hlen : ds.length ≤ B.HASH_ALGO_COUNT) (hcap : ds.length ≤ B.HASH_COUNT)
    (hnd : (ds.map (fun E => E.HashGuid)).Nodup) :
    ((Dxe.Run B S (ds.map Dxe.Call.Register)).2 = ds.map (fun _ => EFI_SUCCESS) ∧
      (Dxe.Run B S (ds.map Dxe.Call.Register)).1.Registry.Entries = ds ∧
      (Dxe.Run B S (ds.map Dxe.Call.Register)).1.mBaseHashInterfaceCount = ds.length ∧
      (Dxe.Run B S (ds.map Dxe.Call.Register)).1.mCurrentHashMask = UnionMask B ds) ∧
    ((Pei.Run B Hobs (ds.map (Pei.Call.Register Caller true))).2 =
        ds.map (fun _ => EFI_SUCCESS) ∧
      match Pei.Lookup (Pei.Run B Hobs (ds.map (Pei.Call.Register Caller true))).1 Caller with
      | some Hob =>
          Hob.Registry.Entries = ds ∧ Hob.HashInterfaceCount = ds.length ∧
            Hob.SupportedHashMask = UnionMask B ds
      | none => ds = []) := by
  constructor
  · obtain ⟨h1, h2, h3⟩ := hS
    have hE : S.Registry.Entries = [] := by
      simp [Registry.Entries, Dxe.State.Registry, h2]
    obtain ⟨r1, r2, r3, r4⟩ := Dxe.Run_registers_globals B ds S (by omega) (by rw [hE]; simpa using hnd)
    refine ⟨r1, by rw [r2, hE]; simp, by rw [r3, h2]; simp, by rw [r4, h3]; simp⟩
  · have hrec : (Pei.RecordOr B Hobs Caller).HashInterface.length = B.HASH_ALGO_COUNT ∧
        (Pei.RecordOr B Hobs Caller).HashInterfaceCount = 0 ∧
        (Pei.RecordOr B Hobs Caller).SupportedHashMask = 0 := by
      unfold Pei.RecordOr
      cases h : Pei.Lookup Hobs Caller with
      | none => simp [Pei.LocalHashInterfaceHob]
      | some Hob => exact hH Hob h
    obtain ⟨h1, h2, h3⟩ := hrec
    have hE : (Pei.RecordOr B Hobs Caller).Registry.Entries = [] := by
      simp [Registry.Entries, Pei.HASH_INTERFACE_HOB.Registry, h2]
    obtain ⟨r1, r2, r3, r4, r5⟩ := Pei.Run_registers_record B Caller ds Hobs (by omega) (by omega)
      (by rw [hE]; simpa using hnd)
    refine ⟨r1, ?_⟩
    rw [hE] at r2
    rw [h2] at r3
    rw [h3] at r4
    unfold Pei.RecordOr at r2 r3 r4
    cases hl : Pei.Lookup (Pei.Run B Hobs (ds.map (Pei.Call.Register Caller true))).1 Caller with
    | some Hob =>
        rw [hl] at r2 r3 r4
        exact ⟨by simpa using r2, by simpa using r3, by simpa using r4⟩
    | none =>
        by_cases hds : ds = []
        · exact hds
        · have := r5 hds
          rw [hl] at this
          simp at this

/-- C1 at a concrete input: two descriptors into the freshly loaded globals and
into a HOB list that holds only the record of the zero GUID. -/
theorem C1_register_distinct_sequence_witness :
    ((Dxe.Run Sample.Build5 (Dxe.Load Sample.Build5)
        ([Sample.Sha1, Sample.Other].map Dxe.Call.Register)).2 =
        [Sample.Sha1, Sample.Other].map (fun _ => EFI_SUCCESS) ∧
      (Dxe.Run Sample.Build5 (Dxe.Load Sample.Build5)
        ([Sample.Sha1, Sample.Other].map Dxe.Call.Register)).1.Registry.Entries =
        [Sample.Sha1, Sample.Other] ∧
      (Dxe.Run Sample.Build5 (Dxe.Load Sample.Build5)
        ([Sample.Sha1, Sample.Other].map Dxe.Call.Register)).1.mBaseHashInterfaceCount =
        [Sample.Sha1, Sample.Other].length ∧
      (Dxe.Run Sample.Build5 (Dxe.Load Sample.Build5)
        ([Sample.Sha1, Sample.Other].map Dxe.Call.Register)).1.mCurrentHashMask =
        UnionMask Sample.Build5 [Sample.Sha1, Sample.Other]) ∧
    ((Pei.Run Sample.Build5 [Pei.LocalHashInterfaceHob Sample.Build5 gZeroGuid]
        ([Sample.Sha1, Sample.Other].map (Pei.Call.Register 7 true))).2 =
        [Sample.Sha1, Sample.Other].map (fun _ => EFI_SUCCESS) ∧
      match Pei.Lookup (Pei.Run Sample.Build5 [Pei.LocalHashInterfaceHob Sample.Build5 gZeroGuid]
        ([Sample.Sha1, Sample.Other].map (Pei.Call.Register 7 true))).1 7 with
      | some Hob =>
          Hob.Registry.Entries = [Sample.Sha1, Sample.Other] ∧
            Hob.HashInterfaceCount = [Sample.Sha1, Sample.Other].length ∧
            Hob.SupportedHashMask = UnionMask Sample.Build5 [Sample.Sha1, Sample.Other]
      | none => [Sample.Sha1, Sample.Other] = []) :=
  C1_register_distinct_sequence Sample.Build5 (Dxe.Load Sample.Build5)
    [Pei.LocalHashInterfaceHob Sample.Build5 gZeroGuid] 7 [Sample.Sha1, Sample.Other]
    (by decide)
    (by
      intro Hob h
      have hn : Pei.Lookup [Pei.LocalHashInterfaceHob Sample.Build5 gZeroGuid] 7 = none := by
        decide
      rw [hn] at h
      cases h)
    (by decide) (by decide) (by decide)

/-! ## C2: the capacity error -/

/-- C2 as stated fails in the persisted-record variant.  After the constructor has
run for module `7` the HOB list holds the record of the zero GUID only; a
registration by that module when `BuildGuidDataHob` has no room returns
`EFI_OUT_OF_RESOURCES`, although the module has no record and no record in the
list holds `HASH_ALGO_COUNT` entries. -/
theorem C2_counterexample :
    (Pei.Run Sample.Build5 [] [Pei.Call.Constructor 7 true]).1 =
        [Pei.LocalHashInterfaceHob Sample.Build5 gZeroGuid] ∧
      (Pei.RegisterHashApiLib Sample.Build5 7 false
        [Pei.LocalHashInterfaceHob Sample.Build5 gZeroGuid] Sample.Sha1).2 =
        EFI_OUT_OF_RESOURCES ∧
      Pei.Lookup [Pei.LocalHashInterfaceHob Sample.Build5 gZeroGuid] 7 = none ∧
      (∀ Hob ∈ [Pei.LocalHashInterfaceHob Sample.Build5 gZeroGuid],
        Hob.HashInterfaceCount ≠ Sample.Build5.HASH_ALGO_COUNT) := by
  decide

/-- C2, amended.  In every reachable state a registration, of a registered GUID or
not, returns `EFI_OUT_OF_RESOURCES` exactly when: static table, the count equals
the capacity `HASH_ALGO_COUNT` of the array; persisted record, in a build whose
`HASH_COUNT` is that capacity, the caller has no record and none can be built, or
the record the call works on holds `HASH_ALGO_COUNT` entries. -/
theorem C2_capacity_error (B : Build) (hB : B.HASH_COUNT = B.HASH_ALGO_COUNT)
    (DxeCalls : List Dxe.Call) (PeiCalls : List Pei.Call) (Caller : EFI_GUID) (HobRoom : Bool)
    (d : HASH_INTERFACE_UNIFIED_API) :
    ((Dxe.RegisterHashApiLib B (Dxe.Run B (Dxe.Load B) DxeCalls).1 d).2 = EFI_OUT_OF_RESOURCES ↔
        (Dxe.Run B (Dxe.Load B) DxeCalls).1.mBaseHashInterfaceCount = B.HASH_ALGO_COUNT) ∧
      ((Pei.RegisterHashApiLib B Caller HobRoom (Pei.Run B [] PeiCalls).1 d).2 =
          EFI_OUT_OF_RESOURCES ↔
        (Pei.Lookup (Pei.Run B [] PeiCalls).1 Caller = none ∧ HobRoom = false) ∨
          (Pei.RecordOr B (Pei.Run B [] PeiCalls).1 Caller).HashInterfaceCount =
            B.HASH_ALGO_COUNT) := by
  constructor
  · obtain ⟨hlen, hcnt, _, _⟩ := Dxe.Run_StateInv B DxeCalls (Dxe.Load B) (Dxe.Load_Inv B)
    rw [Dxe.Register_status, Registry.Register_status_full]
    simp only [Dxe.State.Registry] at hcnt ⊢
    omega
  · have hinv := Pei.Reachable_Inv B (Nat.le_of_eq hB) PeiCalls
    generalize (Pei.Run B [] PeiCalls).1 = Hobs at hinv ⊢
    unfold Pei.RecordOr
    cases hL : Pei.Lookup Hobs Caller with
    | some Hob =>
        obtain ⟨_, hcnt, _⟩ := hinv Hob (Pei.Lookup_mem Hobs Caller Hob hL)
        rw [(Pei.Lookup_Register_some B Caller HobRoom Hobs d Hob hL Caller).2,
          Pei.RegisterInHob_status, Registry.Register_status_full]
        simp only [Pei.HASH_INTERFACE_HOB.Registry, Option.getD_some, reduceCtorEq, false_and,
          false_or]
        omega
    | none =>
        have hP := (Pei.Lookup_none_iff Hobs Caller).mp hL
        cases HobRoom with
        | false => rw [Pei.Register_of_none_noroom B Caller Hobs d hP]; simp
        | true =>
            rw [(Pei.Lookup_Register_none B Caller Hobs d hL Caller).2,
              Pei.RegisterInHob_status, Registry.Register_status_full]
            simp only [Pei.HASH_INTERFACE_HOB.Registry, Pei.LocalHashInterfaceHob,
              Option.getD_none, Bool.true_eq_false, and_false, false_or]
            omega

/-- C2 amended, at a build with five slots: the empty registries of both variants
accept a registration, and after five registrations both variants refuse a sixth
GUID with `EFI_OUT_OF_RESOURCES`. -/
theorem C2_capacity_error_witness :
    Sample.Build5.HASH_COUNT = Sample.Build5.HASH_ALGO_COUNT ∧
      ((Dxe.RegisterHashApiLib Sample.Build5 (Dxe.Run Sample.Build5 (Dxe.Load Sample.Build5) []).1
          Sample.Sha1).2 = EFI_OUT_OF_RESOURCES ↔
        (Dxe.Run Sample.Build5 (Dxe.Load Sample.Build5) []).1.mBaseHashInterfaceCount =
          Sample.Build5.HASH_ALGO_COUNT) ∧
      ((Pei.RegisterHashApiLib Sample.Build5 7 true (Pei.Run Sample.Build5 [] []).1
          Sample.Sha1).2 = EFI_OUT_OF_RESOURCES ↔
        (Pei.Lookup (Pei.Run Sample.Build5 [] []).1 7 = none ∧ true = false) ∨
          (Pei.RecordOr Sample.Build5 (Pei.Run Sample.Build5 [] []).1 7).HashInterfaceCount =
            Sample.Build5.HASH_ALGO_COUNT) ∧
      (Dxe.RegisterHashApiLib Sample.Build5
          (Dxe.Run Sample.Build5 (Dxe.Load Sample.Build5)
            (Dxe.Call.Constructor :: Sample.Five.map Dxe.Call.Register)).1
          Sample.Other).2 = EFI_OUT_OF_RESOURCES ∧
      (Pei.RegisterHashApiLib Sample.Build5 7 true
          (Pei.Run Sample.Build5 []
            (Pei.Call.Constructor 7 true :: Sample.Five.map (Pei.Call.Register 7 true))).1
          Sample.Other).2 = EFI_OUT_OF_RESOURCES :=
  ⟨rfl, (C2_capacity_error Sample.Build5 rfl [] [] 7 true Sample.Sha1).1,
    (C2_capacity_error Sample.Build5 rfl [] [] 7 true Sample.Sha1).2,
    (C2_capacity_error Sample.Build5 rfl
      (Dxe.Call.Constructor :: Sample.Five.map Dxe.Call.Register)
      (Pei.Call.Constructor 7 true :: Sample.Five.map (Pei.Call.Register 7 true)) 7 true
      Sample.Other).1.mpr (by decide),
    (C2_capacity_error Sample.Build5 rfl
      (Dxe.Call.Constructor :: Sample.Five.map Dxe.Call.Register)
      (Pei.Call.Constructor 7 true :: Sample.Five.map (Pei.Call.Register 7 true)) 7 true
      Sample.Other).2.mpr (Or.inr (by decide))⟩

/-! ## C3: registering a GUID again -/

theorem Registry.Register_success_Entries (B : Build) (Cap : Nat) (R : Registry)
    (d : HASH_INTERFACE_UNIFIED_API) (hn : R.Count ≤ R.Ops.length) (hCap : Cap ≤ R.Ops.length)
    (h : (Registry.Register B Cap R d).2 = EFI_SUCCESS) :
    (Registry.Register B Cap R d).1.Entries = R.Entries ++ [d] := by
  by_cases hfull : Cap ≤ R.Count
  · rw [Registry.Register_full B Cap R d hfull] at h; cases h
  · by_cases hd : d.HashGuid ∈ R.Entries.map (fun E => E.HashGuid)
    · rw [Registry.Register_duplicate B Cap R d (by omega) hn hd] at h; cases h
    · rw [Registry.Register_fresh B Cap R d (by omega) hn hd]
      exact Registry.Entries_after R d (by omega)

theorem Registry.Register_Entries_mono (B : Build) (Cap : Nat) (R : Registry)
    (d : HASH_INTERFACE_UNIFIED_API) (hn : R.Count ≤ R.Ops.length) (hCap : Cap ≤ R.Ops.length)
    (g : EFI_GUID) (hg : g ∈ R.Entries.map (fun E => E.HashGuid)) :
    g ∈ (Registry.Register B Cap R d).1.Entries.map (fun E => E.HashGuid) := by
  by_cases hs : (Registry.Register B Cap R d).2 = EFI_SUCCESS
  · rw [Registry.Register_success_Entries B Cap R d hn hCap hs, List.map_append]
    exact List.mem_append_left _ hg
  · rw [Registry.Register_unchanged B Cap R d hs]; exact hg

theorem Registry.Register_of_mem (B : Build) (Cap : Nat) (R : Registry)
    (d : HASH_INTERFACE_UNIFIED_API) (hn : R.Count ≤ R.Ops.length)
    (hd : d.HashGuid ∈ R.Entries.map (fun E => E.HashGuid)) :
    (Registry.Register B Cap R d).2 =
      if Cap ≤ R.Count then EFI_OUT_OF_RESOURCES else EFI_ALREADY_STARTED := by
  by_cases hfull : Cap ≤ R.Count
  · rw [Registry.Register_full B Cap R d hfull, if_pos hfull]
  · rw [Registry.Register_duplicate B Cap R d (by omega) hn hd, if_neg hfull]

theorem Dxe.Register_fail_unchanged (B : Build) (S : Dxe.State) (d : HASH_INTERFACE_UNIFIED_API)
    (h : (Dxe.RegisterHashApiLib B S d).2 ≠ EFI_SUCCESS) : (Dxe.RegisterHashApiLib B S d).1 = S := by
  unfold Dxe.RegisterHashApiLib at h ⊢
  by_cases h1 : S.mBaseHashInterfaceCount ≥ S.mHashOps.length
  · simp [h1]
  · by_cases h2 : DuplicateLoop S.mHashOps d.HashGuid S.mBaseHashInterfaceCount 0 = true
    · simp [h1, h2]
    · simp [h1, h2] at h

theorem Pei.RegisterInHob_fail_unchanged (B : Build) (Hob : Pei.HASH_INTERFACE_HOB)
    (d : HASH_INTERFACE_UNIFIED_API) (h : (Pei.RegisterInHob B Hob d).2 ≠ EFI_SUCCESS) :
    (Pei.RegisterInHob B Hob d).1 = Hob := by
  unfold Pei.RegisterInHob at h ⊢
  by_cases h1 : Hob.HashInterfaceCount ≥ B.HASH_COUNT
  · simp [h1]
  · by_cases h2 : DuplicateLoop Hob.HashInterface d.HashGuid Hob.HashInterfaceCount 0 = true
    · simp [h1, h2]
    · simp [h1, h2] at h

theorem Pei.Register_fail_same_list (B : Build) (Caller : EFI_GUID) (HobRoom : Bool)
    (Hobs : Pei.HobList) (d : HASH_INTERFACE_UNIFIED_API) (Hob : Pei.HASH_INTERFACE_HOB)
    (hL : Pei.Lookup Hobs Caller = some Hob)
    (h : (Pei.RegisterHashApiLib B Caller HobRoom Hobs d).2 ≠ EFI_SUCCESS) :
    (Pei.RegisterHashApiLib B Caller HobRoom Hobs d).1 = Hobs := by
  obtain ⟨P, hP, rfl⟩ := (Pei.Lookup_some_iff Hobs Caller Hob).mp hL
  rw [Pei.Register_of_some B Caller HobRoom Hobs d P hP] at h ⊢
  simp only at h ⊢
  rw [Pei.RegisterInHob_fail_unchanged B _ d h]
  exact Pei.set_getD_self Hobs P

theorem Dxe.Run_keeps_guid (B : Build) (g : EFI_GUID) :
    ∀ (Later : List HASH_INTERFACE_UNIFIED_API) (S : Dxe.State), Dxe.StateInv B S →
      g ∈ S.Registry.Entries.map (fun E => E.HashGuid) →
      g ∈ (Dxe.Run B S (Later.map Dxe.Call.Register)).1.Registry.Entries.map
        (fun E => E.HashGuid) := by
  intro Later
  induction Later with
  | nil => intro S _ hg; exact hg
  | cons d Rest ih =>
      intro S hinv hg
      simp only [List.map_cons, Dxe.Run]
      apply ih _ (Dxe.Step_StateInv B S (Dxe.Call.Register d) hinv)
      simp only [Dxe.Step]
      rw [Dxe.Register_Registry]
      exact Registry.Register_Entries_mono B _ S.Registry d hinv.2.1 (Nat.le_refl _) g hg

theorem Pei.Step_keeps_guid (B : Build) (hB : B.HASH_COUNT ≤ B.HASH_ALGO_COUNT)
    (Hobs : Pei.HobList) (C : Pei.Call) (Caller : EFI_GUID) (g : EFI_GUID)
    (hinv : ∀ Hob ∈ Hobs, Pei.HobInv B Hob)
    (hC : ∀ HobRoom, C ≠ Pei.Call.Constructor Caller HobRoom)
    (hg : g ∈ (Pei.RecordOr B Hobs Caller).Registry.Entries.map (fun E => E.HashGuid)) :
    g ∈ (Pei.RecordOr B (Pei.Step B Hobs C).1 Caller).Registry.Entries.map
      (fun E => E.HashGuid) := by
  cases C with
  | Constructor c HobRoom =>
      have hne : Caller ≠ c := by
        rintro rfl
        exact hC HobRoom rfl
      simp only [Pei.Step]
      rw [Pei.RecordOr_Constructor_other B c HobRoom Hobs Caller hne]
      exact hg
  | Register c HobRoom d =>
      simp only [Pei.Step]
      by_cases hne : Caller = c
      · subst hne
        rcases Pei.RecordOr_Register_self B Caller HobRoom Hobs d with ⟨he, _, _⟩ | ⟨hl, _⟩
        · rw [he]; exact hg
        · have hrec : Pei.RecordOr B (Pei.RegisterHashApiLib B Caller HobRoom Hobs d).1 Caller =
              (Pei.RegisterInHob B (Pei.RecordOr B Hobs Caller) d).1 := by
            unfold Pei.RecordOr at hl ⊢
            rw [hl]; rfl
          rw [hrec, Pei.RegisterInHob_Registry]
          obtain ⟨i1, _, i3, _⟩ := Pei.RecordOr_Inv B Hobs Caller hinv
          exact Registry.Register_Entries_mono B _ _ d i3
            (by simp only [Pei.HASH_INTERFACE_HOB.Registry]; omega) g hg
      · rw [Pei.RecordOr_Register_other B c HobRoom Hobs d Caller hne]
        exact hg

theorem Pei.Run_keeps_record_guid (B : Build) (hB : B.HASH_COUNT ≤ B.HASH_ALGO_COUNT)
    (Caller : EFI_GUID) (g : EFI_GUID) :
    ∀ (Later : List Pei.Call) (Hobs : Pei.HobList), (∀ Hob ∈ Hobs, Pei.HobInv B Hob) →
      (∀ HobRoom, Pei.Call.Constructor Caller HobRoom ∉ Later) →
      g ∈ (Pei.RecordOr B Hobs Caller).Registry.Entries.map (fun E => E.HashGuid) →
      g ∈ (Pei.RecordOr B (Pei.Run B Hobs Later).1 Caller).Registry.Entries.map
        (fun E => E.HashGuid) := by
  intro Later
  induction Later with
  | nil => intro Hobs _ _ hg; exact hg
  | cons C Rest ih =>
      intro Hobs hinv hL hg
      simp only [Pei.Run]
      apply ih _ (Pei.Step_HobInv B hB Hobs C hinv)
      · intro HobRoom hm
        exact hL HobRoom (List.mem_cons_of_mem _ hm)
      · apply Pei.Step_keeps_guid B hB Hobs C Caller g hinv _ hg
        intro HobRoom he
        exact hL HobRoom (by rw [he]; exact List.mem_cons_self _ _)

/-- C3 as stated fails when the table is full.  In a build with five slots the five
sample descriptors are registered with success; registering the first of them
again returns `EFI_OUT_OF_RESOURCES`, not `EFI_ALREADY_STARTED`, because the
capacity test comes before the duplicate check. -/
theorem C3_counterexample :
    (Dxe.Run Sample.Build5 (Dxe.Load Sample.Build5)
        ((Sample.Five ++ [Sample.Sha1]).map Dxe.Call.Register)).2 =
      [EFI_SUCCESS, EFI_SUCCESS, EFI_SUCCESS, EFI_SUCCESS, EFI_SUCCESS, EFI_OUT_OF_RESOURCES] ∧
    (Pei.Run Sample.Build5 []
        ((Sample.Five ++ [Sample.Sha1]).map (Pei.Call.Register 7 true))).2 =
      [EFI_SUCCESS, EFI_SUCCESS, EFI_SUCCESS, EFI_SUCCESS, EFI_SUCCESS, EFI_OUT_OF_RESOURCES] := by
  decide

/-- C3, amended.  Once `RegisterHashApiLib` has succeeded for a descriptor, a later
registration of a descriptor with the same GUID (after any further registrations,
and in the persisted variant any calls of other modules, but no constructor run
of this module) fails and leaves the registry as it is: with
`EFI_OUT_OF_RESOURCES` when the table holds `MAX_ALGOS` entries, with
`EFI_ALREADY_STARTED` otherwise.  The persisted variant is taken in a build whose
`HASH_COUNT` is the capacity `HASH_ALGO_COUNT` of the array. -/
theorem C3_register_again (B : Build) (hB : B.HASH_COUNT = B.HASH_ALGO_COUNT)
    (DxeCalls : List Dxe.Call) (DxeLater : List HASH_INTERFACE_UNIFIED_API)
    (PeiCalls PeiLater : List Pei.Call) (Caller : EFI_GUID) (HobRoom HobRoom1 : Bool)
    (d d1 : HASH_INTERFACE_UNIFIED_API) (hguid : d1.HashGuid = d.HashGuid)
    (hLater : ∀ R, Pei.Call.Constructor Caller R ∉ PeiLater) :
    ((Dxe.RegisterHashApiLib B (Dxe.Run B (Dxe.Load B) DxeCalls).1 d).2 = EFI_SUCCESS →
      Dxe.RegisterHashApiLib B
          (Dxe.Run B (Dxe.RegisterHashApiLib B (Dxe.Run B (Dxe.Load B) DxeCalls).1 d).1
            (DxeLater.map Dxe.Call.Register)).1 d1 =
        ((Dxe.Run B (Dxe.RegisterHashApiLib B (Dxe.Run B (Dxe.Load B) DxeCalls).1 d).1
            (DxeLater.map Dxe.Call.Register)).1,
          if (Dxe.Run B (Dxe.RegisterHashApiLib B (Dxe.Run B (Dxe.Load B) DxeCalls).1 d).1
              (DxeLater.map Dxe.Call.Register)).1.mBaseHashInterfaceCount = B.HASH_ALGO_COUNT
          then EFI_OUT_OF_RESOURCES else EFI_ALREADY_STARTED)) ∧
    ((Pei.RegisterHashApiLib B Caller HobRoom (Pei.Run B [] PeiCalls).1 d).2 = EFI_SUCCESS →
      ∃ Hob,
        Pei.Lookup (Pei.Run B
          (Pei.RegisterHashApiLib B Caller HobRoom (Pei.Run B [] PeiCalls).1 d).1 PeiLater).1
          Caller = some Hob ∧
        Pei.RegisterHashApiLib B Caller HobRoom1 (Pei.Run B
          (Pei.RegisterHashApiLib B Caller HobRoom (Pei.Run B [] PeiCalls).1 d).1 PeiLater).1 d1 =
        ((Pei.Run B
          (Pei.RegisterHashApiLib B Caller HobRoom (Pei.Run B [] PeiCalls).1 d).1 PeiLater).1,
          if Hob.HashInterfaceCount = B.HASH_ALGO_COUNT
          then EFI_OUT_OF_RESOURCES else EFI_ALREADY_STARTED)) := by
  constructor
  · intro hs
    have hinv := Dxe.Run_StateInv B DxeCalls (Dxe.Load B) (Dxe.Load_Inv B)
    generalize (Dxe.Run B (Dxe.Load B) DxeCalls).1 = S at hinv hs ⊢
    have hinv1 := Dxe.Step_StateInv B S (Dxe.Call.Register d) hinv
    simp only [Dxe.Step] at hinv1
    have hg : d1.HashGuid ∈
        (Dxe.RegisterHashApiLib B S d).1.Registry.Entries.map (fun E => E.HashGuid) := by
      rw [Dxe.Register_status] at hs
      rw [Dxe.Register_Registry,
        Registry.Register_success_Entries B S.mHashOps.length S.Registry d hinv.2.1
          (Nat.le_refl _) hs, hguid]
      simp
    have hg2 := Dxe.Run_keeps_guid B d1.HashGuid DxeLater _ hinv1 hg
    have hinv2 := Dxe.Run_StateInv B (DxeLater.map Dxe.Call.Register) _ hinv1
    generalize (Dxe.Run B (Dxe.RegisterHashApiLib B S d).1 (DxeLater.map Dxe.Call.Register)).1 = S2
      at hg2 hinv2 ⊢
    have hst : (Dxe.RegisterHashApiLib B S2 d1).2 =
        if S2.mBaseHashInterfaceCount = B.HASH_ALGO_COUNT then EFI_OUT_OF_RESOURCES
        else EFI_ALREADY_STARTED := by
      rw [Dxe.Register_status, Registry.Register_of_mem B _ S2.Registry d1 hinv2.2.1 hg2]
      have h1 := hinv2.1
      have h2 := hinv2.2.1
      simp only [Dxe.State.Registry] at h2 ⊢
      by_cases hc : S2.mBaseHashInterfaceCount = B.HASH_ALGO_COUNT
      · rw [if_pos hc, if_pos (by omega)]
      · rw [if_neg hc, if_neg (by omega)]
    have hne : (Dxe.RegisterHashApiLib B S2 d1).2 ≠ EFI_SUCCESS := by
      rw [hst]; split <;> simp
    exact Prod.ext (Dxe.Register_fail_unchanged B S2 d1 hne) hst
  · intro hs
    have hBle : B.HASH_COUNT ≤ B.HASH_ALGO_COUNT := Nat.le_of_eq hB
    have hinv := Pei.Reachable_Inv B hBle PeiCalls
    generalize (Pei.Run B [] PeiCalls).1 = Hobs at hinv hs ⊢
    have hinv1 := Pei.Register_HobInv B hBle Caller HobRoom Hobs d hinv
    have hg : d1.HashGuid ∈ (Pei.RecordOr B (Pei.RegisterHashApiLib B Caller HobRoom Hobs d).1
        Caller).Registry.Entries.map (fun E => E.HashGuid) := by
      rcases Pei.RecordOr_Register_self B Caller HobRoom Hobs d with ⟨he, _, _⟩ | ⟨hl, hst⟩
      · rw [he] at hs; cases hs
      · have hrec : Pei.RecordOr B (Pei.RegisterHashApiLib B Caller HobRoom Hobs d).1 Caller =
            (Pei.RegisterInHob B (Pei.RecordOr B Hobs Caller) d).1 := by
          unfold Pei.RecordOr at hl ⊢
          rw [hl]; rfl
        obtain ⟨i1, _, i3, _⟩ := Pei.RecordOr_Inv B Hobs Caller hinv
        rw [hst, Pei.RegisterInHob_status] at hs
        rw [hrec, Pei.RegisterInHob_Registry,
          Registry.Register_success_Entries B _ _ d i3
            (by simp only [Pei.HASH_INTERFACE_HOB.Registry]; omega) hs, hguid]
        simp
    have hg2 := Pei.Run_keeps_record_guid B hBle Caller d1.HashGuid PeiLater _ hinv1 hLater hg
    have hinv2 := Pei.Run_HobInv B hBle PeiLater _ hinv1
    generalize (Pei.Run B (Pei.RegisterHashApiLib B Caller HobRoom Hobs d).1 PeiLater).1 = Hobs2
      at hg2 hinv2 ⊢
    cases hL : Pei.Lookup Hobs2 Caller with
    | none =>
        unfold Pei.RecordOr at hg2
        rw [hL] at hg2
        simp [Pei.LocalHashInterfaceHob, Pei.HASH_INTERFACE_HOB.Registry, Registry.Entries] at hg2
    | some Hob =>
        have hrec : Pei.RecordOr B Hobs2 Caller = Hob := by
          unfold Pei.RecordOr; rw [hL]; rfl
        rw [hrec] at hg2
        obtain ⟨_, i2, i3, _⟩ := hinv2 Hob (Pei.Lookup_mem Hobs2 Caller Hob hL)
        have hst : (Pei.RegisterHashApiLib B Caller HobRoom1 Hobs2 d1).2 =
            if Hob.HashInterfaceCount = B.HASH_ALGO_COUNT then EFI_OUT_OF_RESOURCES
            else EFI_ALREADY_STARTED := by
          rw [(Pei.Lookup_Register_some B Caller HobRoom1 Hobs2 d1 Hob hL Caller).2,
            Pei.RegisterInHob_status, Registry.Register_of_mem B _ Hob.Registry d1 i3 hg2]
          simp only [Pei.HASH_INTERFACE_HOB.Registry]
          by_cases hc : Hob.HashInterfaceCount = B.HASH_ALGO_COUNT
          · rw [if_pos hc, if_pos (by omega)]
          · rw [if_neg hc, if_neg (by omega)]
        have hne : (Pei.RegisterHashApiLib B Caller HobRoom1 Hobs2 d1).2 ≠ EFI_SUCCESS := by
          rw [hst]; split <;> simp
        exact ⟨Hob, rfl, Prod.ext (Pei.Register_fail_same_list B Caller HobRoom1 Hobs2 d1 Hob hL hne)
          hst⟩

/-- C3 amended, at a concrete input: module `7` registers the first sample
descriptor, a second registration follows (by the same module in the static
variant, by module `8` in the persisted one), and registering the first GUID
again is refused with `EFI_ALREADY_STARTED`, the state being left as it was. -/
theorem C3_register_again_witness :
    Dxe.RegisterHashApiLib Sample.Build5
        (Dxe.Run Sample.Build5 (Dxe.Load Sample.Build5)
          [Dxe.Call.Register Sample.Sha1, Dxe.Call.Register Sample.Sha256]).1 Sample.Sha1 =
      ((Dxe.Run Sample.Build5 (Dxe.Load Sample.Build5)
          [Dxe.Call.Register Sample.Sha1, Dxe.Call.Register Sample.Sha256]).1,
        EFI_ALREADY_STARTED) ∧
    ∃ Hob,
      Pei.Lookup (Pei.Run Sample.Build5 []
        [Pei.Call.Constructor 7 true, Pei.Call.Register 7 true Sample.Sha1,
          Pei.Call.Register 8 true Sample.Sha1]).1 7 = some Hob ∧
      Pei.RegisterHashApiLib Sample.Build5 7 false (Pei.Run Sample.Build5 []
        [Pei.Call.Constructor 7 true, Pei.Call.Register 7 true Sample.Sha1,
          Pei.Call.Register 8 true Sample.Sha1]).1 Sample.Sha1 =
      ((Pei.Run Sample.Build5 []
        [Pei.Call.Constructor 7 true, Pei.Call.Register 7 true Sample.Sha1,
          Pei.Call.Register 8 true Sample.Sha1]).1,
        if Hob.HashInterfaceCount = Sample.Build5.HASH_ALGO_COUNT
        then EFI_OUT_OF_RESOURCES else EFI_ALREADY_STARTED) :=
  ⟨(C3_register_again Sample.Build5 rfl [] [Sample.Sha256]
      [Pei.Call.Constructor 7 true] [Pei.Call.Register 8 true Sample.Sha1] 7 true false
      Sample.Sha1 Sample.Sha1 rfl (by intro R h; simp at h)).1 (by decide),
    (C3_register_again Sample.Build5 rfl [] [Sample.Sha256]
      [Pei.Call.Constructor 7 true] [Pei.Call.Register 8 true Sample.Sha1] 7 true false
      Sample.Sha1 Sample.Sha1 rfl (by intro R h; simp at h)).2 (by decide)⟩

/-! ## C4: when `HashApiInit` of the static variant fails -/

/-- C4. In every state of the globals and for every `HashType`, `HashApiInit` of
BaseHashLibDxe.c returns `EFI_UNSUPPORTED` when the count is zero or the union
mask has no bit in common with the effective policy, and `EFI_SUCCESS` otherwise. -/
theorem C4_HashApiInit_status {Ctx Digest : Type} (B : Build) (Code : HASH_CODE Ctx Digest)
    (S : Dxe.State) (HashType : Nat) :
    (Dxe.HashApiInit B Code S HashType).Status =
      if S.mBaseHashInterfaceCount = 0 ∨
          S.mCurrentHashMask &&& EffectivePolicy B HashType = 0 then EFI_UNSUPPORTED
      else EFI_SUCCESS := by
  have hp : (if HashType ≠ B.HASH_ALG_DEFAULT then HashType else B.PcdSystemHashPolicy) =
      EffectivePolicy B HashType := by
    unfold EffectivePolicy
    by_cases h : HashType = B.HASH_ALG_DEFAULT <;> simp [h]
  unfold Dxe.HashApiInit
  simp only [hp]
  by_cases hg : S.mBaseHashInterfaceCount = 0 ∨
      S.mCurrentHashMask &&& EffectivePolicy B HashType = 0
  · rw [if_pos hg, if_pos hg]
  · rw [if_neg hg, if_neg hg]
    cases DispatchLoop B S.mHashOps (EffectivePolicy B HashType) S.mBaseHashInterfaceCount 0 <;> rfl

/-! ## Dispatch -/

theorem EffectivePolicy_eq (B : Build) (HashType : Nat) :
    (if HashType ≠ B.HASH_ALG_DEFAULT then HashType else B.PcdSystemHashPolicy) =
      EffectivePolicy B HashType := by
  unfold EffectivePolicy
  by_cases h : HashType = B.HASH_ALG_DEFAULT <;> simp [h]

theorem Dxe.HashApiInit_eq {Ctx Digest : Type} (B : Build) (Code : HASH_CODE Ctx Digest)
    (S : Dxe.State) (HashType : Nat) :
    Dxe.HashApiInit B Code S HashType =
      S.Registry.Dispatch B (EffectivePolicy B HashType) EFI_SUCCESS
        (fun E => Code.Init E.HashInit) := by
  unfold Dxe.HashApiInit Registry.Dispatch
  simp only [EffectivePolicy_eq, Dxe.State.Registry]

theorem Dxe.HashApiUpdate_eq {Ctx Digest : Type} (B : Build) (Code : HASH_CODE Ctx Digest)
    (S : Dxe.State) (HashHandle : Ctx) (HashType : Nat) (DataToHash : List Nat) :
    Dxe.HashApiUpdate B Code S HashHandle HashType DataToHash =
      S.Registry.Dispatch B (EffectivePolicy B HashType) EFI_SUCCESS
        (fun E => Code.Update E.HashUpdate HashHandle DataToHash) := by
  unfold Dxe.HashApiUpdate Registry.Dispatch
  simp only [EffectivePolicy_eq, Dxe.State.Registry]

theorem Dxe.HashApiFinal_eq {Ctx Digest : Type} (B : Build) (Code : HASH_CODE Ctx Digest)
    (S : Dxe.State) (HashHandle : Ctx) (HashType : Nat) :
    Dxe.HashApiFinal B Code S HashHandle HashType =
      S.Registry.Dispatch B (EffectivePolicy B HashType) EFI_SUCCESS
        (fun E => Code.Final E.HashFinal HashHandle) := by
  unfold Dxe.HashApiFinal Registry.Dispatch
  simp only [EffectivePolicy_eq, Dxe.State.Registry]

theorem Registry.Dispatch_Local {α : Type} (B : Build) (Id : EFI_GUID) (p : Nat)
    (NoMatch : EFI_STATUS) (Op : HASH_INTERFACE_UNIFIED_API → α) :
    (Pei.LocalHashInterfaceHob B Id).Registry.Dispatch B p NoMatch Op =
      { Status := EFI_UNSUPPORTED, Invoked := none, Out := none } := by
  simp [Registry.Dispatch, Pei.LocalHashInterfaceHob, Pei.HASH_INTERFACE_HOB.Registry]

theorem Pei.HashApiInit_on_record {Ctx Digest : Type} (B : Build) (Code : HASH_CODE Ctx Digest)
    (Caller : EFI_GUID) (Hobs : Pei.HobList) (HashType : Nat) :
    Pei.HashApiInit B Code Caller Hobs HashType =
      (Pei.RecordOr B Hobs Caller).Registry.Dispatch B (EffectivePolicy B HashType)
        EFI_UNSUPPORTED (fun E => Code.Init E.HashInit) := by
  unfold Pei.HashApiInit Pei.RecordOr Pei.Lookup
  cases hP : Pei.InternalGetBaseHashInterfaceHob Hobs Caller with
  | none => simp [Registry.Dispatch_Local]
  | some P =>
      simp only [EffectivePolicy_eq, Option.map_some', Option.getD_some]
      unfold Registry.Dispatch
      simp only [Pei.HASH_INTERFACE_HOB.Registry]

theorem Pei.HashApiUpdate_on_record {Ctx Digest : Type} (B : Build) (Code : HASH_CODE Ctx Digest)
    (Caller : EFI_GUID) (Hobs : Pei.HobList) (HashHandle : Ctx) (HashType : Nat)
    (DataToHash : List Nat) :
    Pei.HashApiUpdate B Code Caller Hobs HashHandle HashType DataToHash =
      (Pei.RecordOr B Hobs Caller).Registry.Dispatch B (EffectivePolicy B HashType)
        EFI_UNSUPPORTED (fun E => Code.Update E.HashUpdate HashHandle DataToHash) := by
  unfold Pei.HashApiUpdate Pei.RecordOr Pei.Lookup
  cases hP : Pei.InternalGetBaseHashInterfaceHob Hobs Caller with
  | none => simp [Registry.Dispatch_Local]
  | some P =>
      simp only [EffectivePolicy_eq, Option.map_some', Option.getD_some]
      unfold Registry.Dispatch
      simp only [Pei.HASH_INTERFACE_HOB.Registry]

theorem Pei.HashApiFinal_on_record {Ctx Digest : Type} (B : Build) (Code : HASH_CODE Ctx Digest)
    (Caller : EFI_GUID) (Hobs : Pei.HobList) (HashHandle : Ctx) (HashType : Nat) :
    Pei.HashApiFinal B Code Caller Hobs HashHandle HashType =
      (Pei.RecordOr B Hobs Caller).Registry.Dispatch B (EffectivePolicy B HashType)
        EFI_UNSUPPORTED (fun E => Code.Final E.HashFinal HashHandle) := by
  unfold Pei.HashApiFinal Pei.RecordOr Pei.Lookup
  cases hP : Pei.InternalGetBaseHashInterfaceHob Hobs Caller with
  | none => simp [Registry.Dispatch_Local]
  | some P =>
      simp only [EffectivePolicy_eq, Option.map_some', Option.getD_some]
      unfold Registry.Dispatch
      simp only [Pei.HASH_INTERFACE_HOB.Registry]

theorem Registry.DispatchLoop_FirstMatch (B : Build) (R : Registry) (p i : Nat)
    (h : DispatchLoop B R.Ops p R.Count 0 = some i) : R.FirstMatch B p i := by
  obtain ⟨_, h2, h3, h4⟩ := (DispatchLoop_some B R.Ops p R.Count 0 i).mp h
  exact ⟨by omega, h3, fun j hj => h4 j (Nat.zero_le _) hj⟩

theorem Registry.DispatchLoop_of_FirstMatch (B : Build) (R : Registry) (p i : Nat)
    (h : R.FirstMatch B p i) : DispatchLoop B R.Ops p R.Count 0 = some i := by
  obtain ⟨h1, h2, h3⟩ := h
  exact (DispatchLoop_some B R.Ops p R.Count 0 i).mpr
    ⟨Nat.zero_le _, by omega, h2, fun j _ hj => h3 j hj⟩

theorem Registry.DispatchLoop_ne_none (B : Build) (R : Registry) (p : Nat) (hR : R.Inv B)
    (hm : R.Mask &&& p ≠ 0) : DispatchLoop B R.Ops p R.Count 0 ≠ none := by
  intro hnone
  obtain ⟨h1, h2, _⟩ := hR
  rw [DispatchLoop_none] at hnone
  apply hm
  rw [h2, UnionMask_land_eq_zero]
  intro E hE
  obtain ⟨j, hj1, _, hj3⟩ := mem_take_getD R.Ops ZeroInterface hE
  rw [← hj3]
  exact hnone j (Nat.zero_le _) (by omega)

theorem Registry.Dispatch_success {α : Type} (B : Build) (R : Registry) (p : Nat)
    (NoMatch : EFI_STATUS) (Op : HASH_INTERFACE_UNIFIED_API → α)
    (hR : R.Inv B ∨ NoMatch ≠ EFI_SUCCESS)
    (h : (R.Dispatch B p NoMatch Op).Status = EFI_SUCCESS) :
    ∃ i, R.FirstMatch B p i ∧
      R.Dispatch B p NoMatch Op =
        { Status := EFI_SUCCESS, Invoked := some i,
          Out := some (Op (R.Ops.getD i ZeroInterface)) } := by
  unfold Registry.Dispatch at h ⊢
  by_cases hg : R.Count = 0 ∨ R.Mask &&& p = 0
  · rw [if_pos hg] at h; cases h
  · rw [if_neg hg] at h ⊢
    cases hl : DispatchLoop B R.Ops p R.Count 0 with
    | some i => exact ⟨i, Registry.DispatchLoop_FirstMatch B R p i hl, rfl⟩
    | none =>
        rw [hl] at h
        rcases hR with hinv | hne
        · exact absurd hl (Registry.DispatchLoop_ne_none B R p hinv (fun hc => hg (Or.inr hc)))
        · exact absurd h hne

theorem Dxe.Constructor_RegistryInv (B : Build) (S : Dxe.State) :
    (Dxe.BaseHashLibApiDxeConstructor S).1.Registry.Inv B := by
  refine ⟨?_, ?_, ?_⟩ <;>
    simp [Dxe.BaseHashLibApiDxeConstructor, Dxe.State.Registry, Registry.Entries, UnionMask]

theorem Dxe.Step_RegistryInv (B : Build) (S : Dxe.State) (C : Dxe.Call)
    (h : S.Registry.Inv B) : (Dxe.Step B S C).1.Registry.Inv B := by
  cases C with
  | Constructor => exact Dxe.Constructor_RegistryInv B S
  | Register d =>
      simp only [Dxe.Step]
      rw [Dxe.Register_Registry]
      exact Registry.Register_keeps_Inv B S.mHashOps.length S.Registry d (Nat.le_refl _) h

theorem Dxe.Run_RegistryInv (B : Build) :
    ∀ (Calls : List Dxe.Call) (S : Dxe.State), S.Registry.Inv B →
      (Dxe.Run B S Calls).1.Registry.Inv B := by
  intro Calls
  induction Calls with
  | nil => intro S h; exact h
  | cons C Rest ih => intro S h; exact ih _ (Dxe.Step_RegistryInv B S C h)

theorem Pei.Dispatch_success_Lookup {α : Type} (B : Build) (Caller : EFI_GUID)
    (Hobs : Pei.HobList) (p : Nat) (Op : HASH_INTERFACE_UNIFIED_API → α)
    (h : ((Pei.RecordOr B Hobs Caller).Registry.Dispatch B p EFI_UNSUPPORTED Op).Status =
      EFI_SUCCESS) :
    ∃ Hob i, Pei.Lookup Hobs Caller = some Hob ∧ Hob.Registry.FirstMatch B p i ∧
      (Pei.RecordOr B Hobs Caller).Registry.Dispatch B p EFI_UNSUPPORTED Op =
        { Status := EFI_SUCCESS, Invoked := some i,
          Out := some (Op (Hob.HashInterface.getD i ZeroInterface)) } := by
  cases hL : Pei.Lookup Hobs Caller with
  | none =>
      have hrec : Pei.RecordOr B Hobs Caller = Pei.LocalHashInterfaceHob B Caller := by
        unfold Pei.RecordOr; rw [hL]; rfl
      rw [hrec, Registry.Dispatch_Local] at h
      cases h
  | some Hob =>
      have hrec : Pei.RecordOr B Hobs Caller = Hob := by
        unfold Pei.RecordOr; rw [hL]; rfl
      rw [hrec] at h ⊢
      obtain ⟨i, hi, he⟩ := Registry.Dispatch_success B Hob.Registry p EFI_UNSUPPORTED Op
        (Or.inr (by simp)) h
      exact ⟨Hob, i, rfl, hi, he⟩

/-! ## C5: first match wins -/

/-- C5. Whenever `HashApiInit`, `HashApiUpdate` or `HashApiFinal` succeeds with
effective policy `p`, exactly one backend operation has run: the one of the entry
with the smallest registration index whose mask meets `p`.  Static table: in
every state reached from the constructor.  Persisted record: for every HOB list
and caller. -/
theorem C5_first_match_wins {Ctx Digest : Type} (B : Build) (Code : HASH_CODE Ctx Digest)
    (S0 : Dxe.State) (DxeCalls : List Dxe.Call) (Hobs : Pei.HobList) (Caller : EFI_GUID)
    (HashHandle : Ctx) (HashType : Nat) (DataToHash : List Nat) :
    (((Dxe.HashApiInit B Code
          (Dxe.Run B (Dxe.BaseHashLibApiDxeConstructor S0).1 DxeCalls).1 HashType).Status =
          EFI_SUCCESS →
        ∃ i, (Dxe.Run B (Dxe.BaseHashLibApiDxeConstructor S0).1 DxeCalls).1.Registry.FirstMatch B
              (EffectivePolicy B HashType) i ∧
          Dxe.HashApiInit B Code
              (Dxe.Run B (Dxe.BaseHashLibApiDxeConstructor S0).1 DxeCalls).1 HashType =
            { Status := EFI_SUCCESS, Invoked := some i,
              Out := some (Code.Init
                ((Dxe.Run B (Dxe.BaseHashLibApiDxeConstructor S0).1 DxeCalls).1.mHashOps.getD i
                  ZeroInterface).HashInit) }) ∧
      ((Dxe.HashApiUpdate B Code (Dxe.Run B (Dxe.BaseHashLibApiDxeConstructor S0).1 DxeCalls).1
          HashHandle HashType DataToHash).Status = EFI_SUCCESS →
        ∃ i, (Dxe.Run B (Dxe.BaseHashLibApiDxeConstructor S0).1 DxeCalls).1.Registry.FirstMatch B
              (EffectivePolicy B HashType) i ∧
          Dxe.HashApiUpdate B Code (Dxe.Run B (Dxe.BaseHashLibApiDxeConstructor S0).1 DxeCalls).1
              HashHandle HashType DataToHash =
            { Status := EFI_SUCCESS, Invoked := some i,
              Out := some (Code.Update
                ((Dxe.Run B (Dxe.BaseHashLibApiDxeConstructor S0).1 DxeCalls).1.mHashOps.getD i
                  ZeroInterface).HashUpdate HashHandle DataToHash) }) ∧
      ((Dxe.HashApiFinal B Code (Dxe.Run B (Dxe.BaseHashLibApiDxeConstructor S0).1 DxeCalls).1
          HashHandle HashType).Status = EFI_SUCCESS →
        ∃ i, (Dxe.Run B (Dxe.BaseHashLibApiDxeConstructor S0).1 DxeCalls).1.Registry.FirstMatch B
              (EffectivePolicy B HashType) i ∧
          Dxe.HashApiFinal B Code (Dxe.Run B (Dxe.BaseHashLibApiDxeConstructor S0).1 DxeCalls).1
              HashHandle HashType =
            { Status := EFI_SUCCESS, Invoked := some i,
              Out := some (Code.Final
                ((Dxe.Run B (Dxe.BaseHashLibApiDxeConstructor S0).1 DxeCalls).1.mHashOps.getD i
                  ZeroInterface).HashFinal HashHandle) })) ∧
    (((Pei.HashApiInit B Code Caller Hobs HashType).Status = EFI_SUCCESS →
        ∃ Hob i, Pei.Lookup Hobs Caller = some Hob ∧
          Hob.Registry.FirstMatch B (EffectivePolicy B HashType) i ∧
          Pei.HashApiInit B Code Caller Hobs HashType =
            { Status := EFI_SUCCESS, Invoked := some i,
              Out := some (Code.Init (Hob.HashInterface.getD i ZeroInterface).HashInit) }) ∧
      ((Pei.HashApiUpdate B Code Caller Hobs HashHandle HashType DataToHash).Status =
          EFI_SUCCESS →
        ∃ Hob i, Pei.Lookup Hobs Caller = some Hob ∧
          Hob.Registry.FirstMatch B (EffectivePolicy B HashType) i ∧
          Pei.HashApiUpdate B Code Caller Hobs HashHandle HashType DataToHash =
            { Status := EFI_SUCCESS, Invoked := some i,
              Out := some (Code.Update (Hob.HashInterface.getD i ZeroInterface).HashUpdate
                HashHandle DataToHash) }) ∧
      ((Pei.HashApiFinal B Code Caller Hobs HashHandle HashType).Status = EFI_SUCCESS →
        ∃ Hob i, Pei.Lookup Hobs Caller = some Hob ∧
          Hob.Registry.FirstMatch B (EffectivePolicy B HashType) i ∧
          Pei.HashApiFinal B Code Caller Hobs HashHandle HashType =
            { Status := EFI_SUCCESS, Invoked := some i,
              Out := some (Code.Final (Hob.HashInterface.getD i ZeroInterface).HashFinal
                HashHandle) })) := by
  have hinv := Dxe.Run_RegistryInv B DxeCalls _ (Dxe.Constructor_RegistryInv B S0)
  generalize (Dxe.Run B (Dxe.BaseHashLibApiDxeConstructor S0).1 DxeCalls).1 = S at hinv ⊢
  refine ⟨⟨?_, ?_, ?_⟩, ?_, ?_, ?_⟩
  · rw [Dxe.HashApiInit_eq]
    exact Registry.Dispatch_success B S.Registry _ EFI_SUCCESS _ (Or.inl hinv)
  · rw [Dxe.HashApiUpdate_eq]
    exact Registry.Dispatch_success B S.Registry _ EFI_SUCCESS _ (Or.inl hinv)
  · rw [Dxe.HashApiFinal_eq]
    exact Registry.Dispatch_success B S.Registry _ EFI_SUCCESS _ (Or.inl hinv)
  · rw [Pei.HashApiInit_on_record]
    exact Pei.Dispatch_success_Lookup B Caller Hobs _ _
  · rw [Pei.HashApiUpdate_on_record]
    exact Pei.Dispatch_success_Lookup B Caller Hobs _ _
  · rw [Pei.HashApiFinal_on_record]
    exact Pei.Dispatch_success_Lookup B Caller Hobs _ _

/-- C5 at a concrete input: two backends registered in the order mask `1`, mask `2`
and the policy `3` that meets both; `HashApiInit` runs the first one in either
variant. -/
theorem C5_first_match_wins_witness :
    (∃ i, (Dxe.Run Sample.Build5 (Dxe.BaseHashLibApiDxeConstructor (Dxe.Load Sample.Build5)).1
              [Dxe.Call.Register Sample.Sha1, Dxe.Call.Register Sample.Sha256]).1.Registry.FirstMatch
              Sample.Build5 (EffectivePolicy Sample.Build5 3) i ∧
          Dxe.HashApiInit Sample.Build5 Sample.Code
              (Dxe.Run Sample.Build5 (Dxe.BaseHashLibApiDxeConstructor (Dxe.Load Sample.Build5)).1
                [Dxe.Call.Register Sample.Sha1, Dxe.Call.Register Sample.Sha256]).1 3 =
            { Status := EFI_SUCCESS, Invoked := some i,
              Out := some (Sample.Code.Init
                ((Dxe.Run Sample.Build5
                  (Dxe.BaseHashLibApiDxeConstructor (Dxe.Load Sample.Build5)).1
                  [Dxe.Call.Register Sample.Sha1,
                    Dxe.Call.Register Sample.Sha256]).1.mHashOps.getD i
                  ZeroInterface).HashInit) }) ∧
      Dxe.HashApiInit Sample.Build5 Sample.Code
          (Dxe.Run Sample.Build5 (Dxe.BaseHashLibApiDxeConstructor (Dxe.Load Sample.Build5)).1
            [Dxe.Call.Register Sample.Sha1, Dxe.Call.Register Sample.Sha256]).1 3 =
        { Status := EFI_SUCCESS, Invoked := some 0, Out := some [1000] } :=
  ⟨(C5_first_match_wins Sample.Build5 Sample.Code (Dxe.Load Sample.Build5)
      [Dxe.Call.Register Sample.Sha1, Dxe.Call.Register Sample.Sha256] [] 7 [] 3 []).1.1
      (by decide), by rfl⟩

/-! ## C6: one backend, transparent pass-through -/

theorem Registry.Dispatch_single {α : Type} (B : Build) (R : Registry)
    (X : HASH_INTERFACE_UNIFIED_API) (m : Nat) (NoMatch : EFI_STATUS)
    (Op : HASH_INTERFACE_UNIFIED_API → α) (hE : R.Entries = [X]) (hC : R.Count = 1)
    (hM : R.Mask = m) (hm : GetApiHashMaskFromAlgo B X.HashGuid = m) (hm0 : m ≠ 0) :
    R.Dispatch B m NoMatch Op =
      { Status := EFI_SUCCESS, Invoked := some 0, Out := some (Op X) } := by
  have hX : R.Ops.getD 0 ZeroInterface = X := by
    unfold Registry.Entries at hE
    rw [hC] at hE
    cases hO : R.Ops with
    | nil => rw [hO] at hE; simp at hE
    | cons a l =>
        rw [hO] at hE
        simp at hE
        simp [hE]
  have hl : DispatchLoop B R.Ops m R.Count 0 = some 0 := by
    rw [hC]
    unfold DispatchLoop
    rw [hX, hm, Nat.and_self, if_pos hm0]
  unfold Registry.Dispatch
  rw [if_neg (by rw [hC, hM, Nat.and_self]; simp [hm0]), hl]
  simp only [hX]

/-- C6. With a registry that holds exactly one backend `X`, whose mask is `m` (not
zero, and not the sentinel `HASH_ALG_DEFAULT`), the calls `HashApiInit (m)`,
`HashApiUpdate (h, m, data)`, `HashApiFinal (h, m)` return `EFI_SUCCESS` at every
step, each runs the operation of entry `0`, and the context and digest they
produce are those of `X.HashInit`, `X.HashUpdate` on the data and `X.HashFinal`
applied directly, in both variants. -/
theorem C6_pass_through {Ctx Digest : Type} (B : Build) (Code : HASH_CODE Ctx Digest)
    (S : Dxe.State) (Hobs : Pei.HobList) (Caller : EFI_GUID) (Hob : Pei.HASH_INTERFACE_HOB)
    (X : HASH_INTERFACE_UNIFIED_API) (m : Nat) (DataToHash : List Nat)
    (hm : GetApiHashMaskFromAlgo B X.HashGuid = m) (hm0 : m ≠ 0)
    (hdef : m ≠ B.HASH_ALG_DEFAULT)
    (hS : S.Registry.Entries = [X] ∧ S.mBaseHashInterfaceCount = 1 ∧ S.mCurrentHashMask = m)
    (hH : Pei.Lookup Hobs Caller = some Hob ∧ Hob.Registry.Entries = [X] ∧
      Hob.HashInterfaceCount = 1 ∧ Hob.SupportedHashMask = m) :
    (Dxe.HashApiInit B Code S m =
        { Status := EFI_SUCCESS, Invoked := some 0, Out := some (Code.Init X.HashInit) } ∧
      Dxe.HashApiUpdate B Code S (Code.Init X.HashInit) m DataToHash =
        { Status := EFI_SUCCESS, Invoked := some 0,
          Out := some (Code.Update X.HashUpdate (Code.Init X.HashInit) DataToHash) } ∧
      Dxe.HashApiFinal B Code S
          (Code.Update X.HashUpdate (Code.Init X.HashInit) DataToHash) m =
        { Status := EFI_SUCCESS, Invoked := some 0,
          Out := some (Code.Final X.HashFinal
            (Code.Update X.HashUpdate (Code.Init X.HashInit) DataToHash)) }) ∧
    (Pei.HashApiInit B Code Caller Hobs m =
        { Status := EFI_SUCCESS, Invoked := some 0, Out := some (Code.Init X.HashInit) } ∧
      Pei.HashApiUpdate B Code Caller Hobs (Code.Init X.HashInit) m DataToHash =
        { Status := EFI_SUCCESS, Invoked := some 0,
          Out := some (Code.Update X.HashUpdate (Code.Init X.HashInit) DataToHash) } ∧
      Pei.HashApiFinal B Code Caller Hobs
          (Code.Update X.HashUpdate (Code.Init X.HashInit) DataToHash) m =
        { Status := EFI_SUCCESS, Invoked := some 0,
          Out := some (Code.Final X.HashFinal
            (Code.Update X.HashUpdate (Code.Init X.HashInit) DataToHash)) }) := by
  have hp : EffectivePolicy B m = m := by
    unfold EffectivePolicy; rw [if_neg hdef]
  obtain ⟨s1, s2, s3⟩ := hS
  obtain ⟨h0, h1, h2, h3⟩ := hH
  have hrec : Pei.RecordOr B Hobs Caller = Hob := by
    unfold Pei.RecordOr; rw [h0]; rfl
  refine ⟨⟨?_, ?_, ?_⟩, ?_, ?_, ?_⟩
  · rw [Dxe.HashApiInit_eq, hp]
    exact Registry.Dispatch_single B S.Registry X m _ _ s1 s2 s3 hm hm0
  · rw [Dxe.HashApiUpdate_eq, hp]
    exact Registry.Dispatch_single B S.Registry X m _ _ s1 s2 s3 hm hm0
  · rw [Dxe.HashApiFinal_eq, hp]
    exact Registry.Dispatch_single B S.Registry X m _ _ s1 s2 s3 hm hm0
  · rw [Pei.HashApiInit_on_record, hp, hrec]
    exact Registry.Dispatch_single B Hob.Registry X m _ _ h1 h2 h3 hm hm0
  · rw [Pei.HashApiUpdate_on_record, hp, hrec]
    exact Registry.Dispatch_single B Hob.Registry X m _ _ h1 h2 h3 hm hm0
  · rw [Pei.HashApiFinal_on_record, hp, hrec]
    exact Registry.Dispatch_single B Hob.Registry X m _ _ h1 h2 h3 hm hm0

/-- C6 at a concrete input: the backend with mask `1` alone in the registry, the
policy `1` and the buffer `"abc"`. -/
theorem C6_pass_through_witness :
    (Dxe.HashApiInit Sample.Build5 Sample.Code
          (Dxe.Run Sample.Build5 (Dxe.Load Sample.Build5) [Dxe.Call.Register Sample.Sha1]).1 1 =
        { Status := EFI_SUCCESS, Invoked := some 0, Out := some [1000] } ∧
      Dxe.HashApiUpdate Sample.Build5 Sample.Code
          (Dxe.Run Sample.Build5 (Dxe.Load Sample.Build5) [Dxe.Call.Register Sample.Sha1]).1
          [1000] 1 [97, 98, 99] =
        { Status := EFI_SUCCESS, Invoked := some 0, Out := some [1000, 1001, 97, 98, 99] } ∧
      Dxe.HashApiFinal Sample.Build5 Sample.Code
          (Dxe.Run Sample.Build5 (Dxe.Load Sample.Build5) [Dxe.Call.Register Sample.Sha1]).1
          [1000, 1001, 97, 98, 99] 1 =
        { Status := EFI_SUCCESS, Invoked := some 0, Out := some 3297 }) ∧
    (Pei.HashApiInit Sample.Build5 Sample.Code 7
          (Pei.Run Sample.Build5 [] [Pei.Call.Register 7 true Sample.Sha1]).1 1 =
        { Status := EFI_SUCCESS, Invoked := some 0, Out := some [1000] } ∧
      Pei.HashApiUpdate Sample.Build5 Sample.Code 7
          (Pei.Run Sample.Build5 [] [Pei.Call.Register 7 true Sample.Sha1]).1
          [1000] 1 [97, 98, 99] =
        { Status := EFI_SUCCESS, Invoked := some 0, Out := some [1000, 1001, 97, 98, 99] } ∧
      Pei.HashApiFinal Sample.Build5 Sample.Code 7
          (Pei.Run Sample.Build5 [] [Pei.Call.Register 7 true Sample.Sha1]).1
          [1000, 1001, 97, 98, 99] 1 =
        { Status := EFI_SUCCESS, Invoked := some 0, Out := some 3297 }) :=
  C6_pass_through Sample.Build5 Sample.Code
    (Dxe.Run Sample.Build5 (Dxe.Load Sample.Build5) [Dxe.Call.Register Sample.Sha1]).1
    (Pei.Run Sample.Build5 [] [Pei.Call.Register 7 true Sample.Sha1]).1 7
    (Pei.RecordOr Sample.Build5
      (Pei.Run Sample.Build5 [] [Pei.Call.Register 7 true Sample.Sha1]).1 7)
    Sample.Sha1 1 [97, 98, 99] (by decide) (by decide) (by decide) (by decide) (by decide)

/-! ## C7, C8: the registry invariants -/

/-- C7. In every state reached from the constructor by registrations, successful or
not, and constructor re-runs, the stored union mask is the OR of
`GetApiHashMaskFromAlgo` over exactly the first `count` entries: `mCurrentHashMask`
in the static variant, and in the persisted variant `SupportedHashMask` of every
record of the HOB list, hence of the record any caller finds.  The persisted
variant is taken in a build where the bound `HASH_COUNT` of the admission test
does not exceed the `HASH_ALGO_COUNT` slots of the array. -/
theorem C7_union_mask_invariant (B : Build) (hB : B.HASH_COUNT ≤ B.HASH_ALGO_COUNT)
    (S0 : Dxe.State) (DxeCalls : List Dxe.Call) (PeiCalls : List Pei.Call) :
    (Dxe.Run B (Dxe.BaseHashLibApiDxeConstructor S0).1 DxeCalls).1.mCurrentHashMask =
        UnionMask B
          ((Dxe.Run B (Dxe.BaseHashLibApiDxeConstructor S0).1 DxeCalls).1.mHashOps.take
            (Dxe.Run B (Dxe.BaseHashLibApiDxeConstructor S0).1
              DxeCalls).1.mBaseHashInterfaceCount) ∧
      (∀ Hob ∈ (Pei.Run B [] PeiCalls).1,
        Hob.SupportedHashMask =
          UnionMask B (Hob.HashInterface.take Hob.HashInterfaceCount)) ∧
      (∀ Caller Hob, Pei.Lookup (Pei.Run B [] PeiCalls).1 Caller = some Hob →
        Hob.SupportedHashMask =
          UnionMask B (Hob.HashInterface.take Hob.HashInterfaceCount)) := by
  have hP := Pei.Reachable_Inv B hB PeiCalls
  refine ⟨(Dxe.Run_RegistryInv B DxeCalls _ (Dxe.Constructor_RegistryInv B S0)).2.1,
    fun Hob hmem => (hP Hob hmem).2.2.2.1, ?_⟩
  intro Caller Hob hL
  exact (hP Hob (Pei.Lookup_mem _ Caller Hob hL)).2.2.2.1

/-- C7 at a concrete input: a registration, a constructor re-run and two further
registrations, one of them of a GUID unknown to the table. -/
theorem C7_union_mask_invariant_witness :
    (Dxe.Run Sample.Build5 (Dxe.BaseHashLibApiDxeConstructor (Dxe.Load Sample.Build5)).1
          [Dxe.Call.Register Sample.Sha1, Dxe.Call.Constructor, Dxe.Call.Register Sample.Sha256,
            Dxe.Call.Register Sample.Other]).1.mCurrentHashMask =
        UnionMask Sample.Build5
          ((Dxe.Run Sample.Build5 (Dxe.BaseHashLibApiDxeConstructor (Dxe.Load Sample.Build5)).1
            [Dxe.Call.Register Sample.Sha1, Dxe.Call.Constructor,
              Dxe.Call.Register Sample.Sha256, Dxe.Call.Register Sample.Other]).1.mHashOps.take
            (Dxe.Run Sample.Build5 (Dxe.BaseHashLibApiDxeConstructor (Dxe.Load Sample.Build5)).1
              [Dxe.Call.Register Sample.Sha1, Dxe.Call.Constructor,
                Dxe.Call.Register Sample.Sha256,
                Dxe.Call.Register Sample.Other]).1.mBaseHashInterfaceCount) ∧
      (∀ Hob ∈ (Pei.Run Sample.Build5 []
          [Pei.Call.Constructor 7 true, Pei.Call.Register 7 true Sample.Sha1,
            Pei.Call.Constructor 7 true, Pei.Call.Register 7 true Sample.Sha256,
            Pei.Call.Register 8 true Sample.Other]).1,
        Hob.SupportedHashMask =
          UnionMask Sample.Build5 (Hob.HashInterface.take Hob.HashInterfaceCount)) ∧
      (∀ Caller Hob, Pei.Lookup (Pei.Run Sample.Build5 []
          [Pei.Call.Constructor 7 true, Pei.Call.Register 7 true Sample.Sha1,
            Pei.Call.Constructor 7 true, Pei.Call.Register 7 true Sample.Sha256,
            Pei.Call.Register 8 true Sample.Other]).1 Caller = some Hob →
        Hob.SupportedHashMask =
          UnionMask Sample.Build5 (Hob.HashInterface.take Hob.HashInterfaceCount)) :=
  C7_union_mask_invariant Sample.Build5 (by decide) (Dxe.Load Sample.Build5)
    [Dxe.Call.Register Sample.Sha1, Dxe.Call.Constructor, Dxe.Call.Register Sample.Sha256,
      Dxe.Call.Register Sample.Other]
    [Pei.Call.Constructor 7 true, Pei.Call.Register 7 true Sample.Sha1,
      Pei.Call.Constructor 7 true, Pei.Call.Register 7 true Sample.Sha256,
      Pei.Call.Register 8 true Sample.Other]

/-- C8. In every state reached from the constructor by registrations and
constructor re-runs, no two of the first `count` entries of a registry have the
same `HashGuid`: in the globals of the static variant, and in every record of the
HOB list of the persisted variant (taken in a build where `HASH_COUNT` does not
exceed the `HASH_ALGO_COUNT` slots of the array). -/
theorem C8_no_duplicate_guid (B : Build) (hB : B.HASH_COUNT ≤ B.HASH_ALGO_COUNT)
    (S0 : Dxe.State) (DxeCalls : List Dxe.Call) (PeiCalls : List Pei.Call) :
    (((Dxe.Run B (Dxe.BaseHashLibApiDxeConstructor S0).1 DxeCalls).1.mHashOps.take
          (Dxe.Run B (Dxe.BaseHashLibApiDxeConstructor S0).1
            DxeCalls).1.mBaseHashInterfaceCount).map (fun E => E.HashGuid)).Nodup ∧
      (∀ Hob ∈ (Pei.Run B [] PeiCalls).1,
        ((Hob.HashInterface.take Hob.HashInterfaceCount).map (fun E => E.HashGuid)).Nodup) ∧
      (∀ Caller Hob, Pei.Lookup (Pei.Run B [] PeiCalls).1 Caller = some Hob →
        ((Hob.HashInterface.take Hob.HashInterfaceCount).map (fun E => E.HashGuid)).Nodup) := by
  have hP := Pei.Reachable_Inv B hB PeiCalls
  refine ⟨(Dxe.Run_RegistryInv B DxeCalls _ (Dxe.Constructor_RegistryInv B S0)).2.2,
    fun Hob hmem => (hP Hob hmem).2.2.2.2, ?_⟩
  intro Caller Hob hL
  exact (hP Hob (Pei.Lookup_mem _ Caller Hob hL)).2.2.2.2

/-- C8 at a concrete input: the same GUID offered twice, a constructor re-run, and
the GUID offered again. -/
theorem C8_no_duplicate_guid_witness :
    (((Dxe.Run Sample.Build5 (Dxe.BaseHashLibApiDxeConstructor (Dxe.Load Sample.Build5)).1
          [Dxe.Call.Register Sample.Sha1, Dxe.Call.Register Sample.Sha1, Dxe.Call.Constructor,
            Dxe.Call.Register Sample.Sha1]).1.mHashOps.take
          (Dxe.Run Sample.Build5 (Dxe.BaseHashLibApiDxeConstructor (Dxe.Load Sample.Build5)).1
            [Dxe.Call.Register Sample.Sha1, Dxe.Call.Register Sample.Sha1, Dxe.Call.Constructor,
              Dxe.Call.Register Sample.Sha1]).1.mBaseHashInterfaceCount).map
          (fun E => E.HashGuid)).Nodup ∧
      (∀ Hob ∈ (Pei.Run Sample.Build5 []
          [Pei.Call.Register 7 true Sample.Sha1, Pei.Call.Register 7 true Sample.Sha1,
            Pei.Call.Constructor 7 true, Pei.Call.Register 7 true Sample.Sha1]).1,
        ((Hob.HashInterface.take Hob.HashInterfaceCount).map (fun E => E.HashGuid)).Nodup) ∧
      (∀ Caller Hob, Pei.Lookup (Pei.Run Sample.Build5 []
          [Pei.Call.Register 7 true Sample.Sha1, Pei.Call.Register 7 true Sample.Sha1,
            Pei.Call.Constructor 7 true, Pei.Call.Register 7 true Sample.Sha1]).1 Caller =
            some Hob →
        ((Hob.HashInterface.take Hob.HashInterfaceCount).map (fun E => E.HashGuid)).Nodup) :=
  C8_no_duplicate_guid Sample.Build5 (by decide) (Dxe.Load Sample.Build5)
    [Dxe.Call.Register Sample.Sha1, Dxe.Call.Register Sample.Sha1, Dxe.Call.Constructor,
      Dxe.Call.Register Sample.Sha1]
    [Pei.Call.Register 7 true Sample.Sha1, Pei.Call.Register 7 true Sample.Sha1,
      Pei.Call.Constructor 7 true, Pei.Call.Register 7 true Sample.Sha1]

/-! ## C9: no record for the caller -/

/-- C9 as stated fails: the status `HashApiInit` returns when the caller has no
record is not distinct from the one it returns when the record is empty or has
no matching backend.  Module `7` asks for policy `2`: with no record (after its
constructor), with an empty record (after a registration and a constructor
re-run) and with a record that holds only the backend of mask `1`, the status
is `EFI_UNSUPPORTED` each time. -/
theorem C9_counterexample :
    Pei.Lookup (Pei.Run Sample.Build5 [] [Pei.Call.Constructor 7 true]).1 7 = none ∧
      (Pei.HashApiInit Sample.Build5 Sample.Code 7
        (Pei.Run Sample.Build5 [] [Pei.Call.Constructor 7 true]).1 2).Status =
        EFI_UNSUPPORTED ∧
      (Pei.Lookup (Pei.Run Sample.Build5 []
          [Pei.Call.Register 7 true Sample.Sha1, Pei.Call.Constructor 7 true]).1 7).isSome =
        true ∧
      (Pei.HashApiInit Sample.Build5 Sample.Code 7
        (Pei.Run Sample.Build5 []
          [Pei.Call.Register 7 true Sample.Sha1, Pei.Call.Constructor 7 true]).1 2).Status =
        EFI_UNSUPPORTED ∧
      (Pei.HashApiInit Sample.Build5 Sample.Code 7
        (Pei.Run Sample.Build5 [] [Pei.Call.Register 7 true Sample.Sha1]).1 2).Status =
        EFI_UNSUPPORTED := by
  decide

/-- C9, amended.  `HashApiInit` of the persisted variant, called when no record
exists for the caller, fails with `EFI_UNSUPPORTED` and runs no backend; that is
the status, and the whole outcome, it also has when the caller's record exists
but is empty, or its mask misses the policy, or none of its entries matches the
policy. -/
theorem C9_no_record_unsupported {Ctx Digest : Type} (B : Build) (Code : HASH_CODE Ctx Digest)
    (Caller : EFI_GUID) (Hobs : Pei.HobList) (HashType : Nat) :
    (Pei.Lookup Hobs Caller = none →
      Pei.HashApiInit B Code Caller Hobs HashType =
        { Status := EFI_UNSUPPORTED, Invoked := none, Out := none }) ∧
    (∀ Hob, Pei.Lookup Hobs Caller = some Hob →
      (Hob.HashInterfaceCount = 0 ∨
        Hob.SupportedHashMask &&& EffectivePolicy B HashType = 0 ∨
        ∀ j, j < Hob.HashInterfaceCount →
          GetApiHashMaskFromAlgo B (Hob.HashInterface.getD j ZeroInterface).HashGuid &&&
            EffectivePolicy B HashType = 0) →
      Pei.HashApiInit B Code Caller Hobs HashType =
        { Status := EFI_UNSUPPORTED, Invoked := none, Out := none }) := by
  constructor
  · intro hL
    rw [Pei.HashApiInit_on_record]
    have hrec : Pei.RecordOr B Hobs Caller = Pei.LocalHashInterfaceHob B Caller := by
      unfold Pei.RecordOr; rw [hL]; rfl
    rw [hrec, Registry.Dispatch_Local]
  · intro Hob hL hcase
    rw [Pei.HashApiInit_on_record]
    have hrec : Pei.RecordOr B Hobs Caller = Hob := by
      unfold Pei.RecordOr; rw [hL]; rfl
    rw [hrec]
    unfold Registry.Dispatch
    simp only [Pei.HASH_INTERFACE_HOB.Registry]
    by_cases hg : Hob.HashInterfaceCount = 0 ∨
        Hob.SupportedHashMask &&& EffectivePolicy B HashType = 0
    · rw [if_pos hg]
    · rw [if_neg hg]
      have hall : ∀ j, j < Hob.HashInterfaceCount →
          GetApiHashMaskFromAlgo B (Hob.HashInterface.getD j ZeroInterface).HashGuid &&&
            EffectivePolicy B HashType = 0 := by
        rcases hcase with h | h | h
        · exact absurd (Or.inl h) hg
        · exact absurd (Or.inr h) hg
        · exact h
      have hl : DispatchLoop B Hob.HashInterface (EffectivePolicy B HashType)
          Hob.HashInterfaceCount 0 = none := by
        rw [DispatchLoop_none]
        intro j _ hj
        exact hall j (by omega)
      rw [hl]

/-- C9 amended, at a concrete input: module `7` without a record, and module `7`
with an empty record. -/
theorem C9_no_record_unsupported_witness :
    Pei.HashApiInit Sample.Build5 Sample.Code 7
        (Pei.Run Sample.Build5 [] [Pei.Call.Constructor 7 true]).1 2 =
      { Status := EFI_UNSUPPORTED, Invoked := none, Out := none } ∧
    Pei.HashApiInit Sample.Build5 Sample.Code 7
        [Pei.LocalHashInterfaceHob Sample.Build5 7] 2 =
      { Status := EFI_UNSUPPORTED, Invoked := none, Out := none } :=
  ⟨(C9_no_record_unsupported Sample.Build5 Sample.Code 7
      (Pei.Run Sample.Build5 [] [Pei.Call.Constructor 7 true]).1 2).1 (by decide),
    (C9_no_record_unsupported Sample.Build5 Sample.Code 7
      [Pei.LocalHashInterfaceHob Sample.Build5 7] 2).2
      (Pei.LocalHashInterfaceHob Sample.Build5 7) (by decide) (Or.inl (by decide))⟩

/-! ## C10: one registry per owner -/

theorem filter_set_of_false {α : Type} (q : α → Bool) (d a : α) (ha : q a = false) :
    ∀ (l : List α) (n : Nat), n < l.length → q (l.getD n d) = false →
      (l.set n a).filter q = l.filter q := by
  intro l
  induction l with
  | nil => intro n hn; simp at hn
  | cons x xs ih =>
      intro n hn hq
      cases n with
      | zero =>
          have hx : q x = false := by simpa using hq
          simp [List.filter_cons, ha, hx]
      | succ k =>
          have hk : k < xs.length := by simpa using hn
          have hq1 : q (xs.getD k d) = false := by simpa using hq
          simp only [List.set_cons_succ, List.filter_cons]
          rw [ih k hk hq1]

theorem Pei.Register_frame (B : Build) (Caller : EFI_GUID) (HobRoom : Bool) (Hobs : Pei.HobList)
    (d : HASH_INTERFACE_UNIFIED_API) :
    (Pei.RegisterHashApiLib B Caller HobRoom Hobs d).1.filter
        (fun Hob => decide (Hob.Identifier ≠ Caller)) =
      Hobs.filter (fun Hob => decide (Hob.Identifier ≠ Caller)) := by
  cases hP : Pei.InternalGetBaseHashInterfaceHob Hobs Caller with
  | some P =>
      rw [Pei.Register_of_some B Caller HobRoom Hobs d P hP]
      obtain ⟨hlt, hid⟩ := Pei.InternalGet_some Hobs Caller P hP
      have hid1 : (Hobs[P]?.getD Pei.NoHob).Identifier = Caller := by simpa using hid
      apply filter_set_of_false _ Pei.NoHob _ _ Hobs P hlt
      · simp [hid1]
      · simp [Pei.RegisterInHob_Identifier, hid1]
  | none =>
      cases HobRoom with
      | false => rw [Pei.Register_of_none_noroom B Caller Hobs d hP]
      | true =>
          rw [Pei.Register_of_none_room B Caller Hobs d hP]
          simp [List.filter_append, List.filter_cons, Pei.RegisterInHob_Identifier,
            Pei.LocalHashInterfaceHob]

theorem Pei.Run_append (B : Build) :
    ∀ (Xs Ys : List Pei.Call) (Hobs : Pei.HobList),
      (Pei.Run B Hobs (Xs ++ Ys)).1 = (Pei.Run B (Pei.Run B Hobs Xs).1 Ys).1 := by
  intro Xs
  induction Xs with
  | nil => intro Ys Hobs; rfl
  | cons C Rest ih => intro Ys Hobs; simp only [List.cons_append, Pei.Run]; exact ih Ys _

theorem Pei.Registered_snoc (B : Build) (Calls : List Pei.Call) (C : Pei.Call) (Id : EFI_GUID)
    (d : HASH_INTERFACE_UNIFIED_API) (h : Pei.Registered B Calls Id d) :
    Pei.Registered B (Calls ++ [C]) Id d := by
  obtain ⟨Pre, HobRoom, Post, he, hs⟩ := h
  exact ⟨Pre, HobRoom, Post ++ [C], by rw [he]; simp, hs⟩

theorem Pei.Register_mem (B : Build) (Caller : EFI_GUID) (HobRoom : Bool) (Hobs : Pei.HobList)
    (d : HASH_INTERFACE_UNIFIED_API) (Hob : Pei.HASH_INTERFACE_HOB)
    (h : Hob ∈ (Pei.RegisterHashApiLib B Caller HobRoom Hobs d).1) :
    Hob ∈ Hobs ∨
      ∃ Old, (Old ∈ Hobs ∨ Old = Pei.LocalHashInterfaceHob B Caller) ∧ Old.Identifier = Caller ∧
        Hob = (Pei.RegisterInHob B Old d).1 ∧
        (Pei.RegisterHashApiLib B Caller HobRoom Hobs d).2 = (Pei.RegisterInHob B Old d).2 := by
  cases hP : Pei.InternalGetBaseHashInterfaceHob Hobs Caller with
  | some P =>
      rw [Pei.Register_of_some B Caller HobRoom Hobs d P hP] at h ⊢
      obtain ⟨hlt, hid⟩ := Pei.InternalGet_some Hobs Caller P hP
      rcases List.mem_or_eq_of_mem_set h with hm | rfl
      · exact Or.inl hm
      · exact Or.inr ⟨_, Or.inl (Pei.getD_mem Hobs P hlt), hid, rfl, rfl⟩
  | none =>
      cases HobRoom with
      | false =>
          rw [Pei.Register_of_none_noroom B Caller Hobs d hP] at h
          exact Or.inl h
      | true =>
          rw [Pei.Register_of_none_room B Caller Hobs d hP] at h ⊢
          rcases List.mem_append.mp h with hm | hm
          · exact Or.inl hm
          · have he : Hob = (Pei.RegisterInHob B (Pei.LocalHashInterfaceHob B Caller) d).1 := by
              simpa using hm
            exact Or.inr ⟨_, Or.inr rfl, rfl, he, rfl⟩

theorem Pei.Constructor_mem (B : Build) (Caller : EFI_GUID) (HobRoom : Bool)
    (Hobs : Pei.HobList) (Hob : Pei.HASH_INTERFACE_HOB)
    (h : Hob ∈ (Pei.BaseHashLibApiPeiConstructor B Caller HobRoom Hobs).1) :
    Hob ∈ Hobs ∨ Hob.HashInterfaceCount = 0 := by
  rcases Pei.Constructor_cases B Caller HobRoom Hobs with ⟨he, _, _⟩ | ⟨Hobs1, h1, h2⟩
  · rw [he] at h; exact Or.inl h
  · have hmem1 : ∀ X, X ∈ Hobs1 → X ∈ Hobs ∨ X.HashInterfaceCount = 0 := by
      intro X hX
      rcases h1 with ⟨rfl, _⟩ | ⟨rfl, _, _⟩
      · exact Or.inl hX
      · rcases List.mem_append.mp hX with hm | hm
        · exact Or.inl hm
        · have : X = Pei.LocalHashInterfaceHob B gZeroGuid := by simpa using hm
          rw [this]; exact Or.inr rfl
    rcases h2 with ⟨_, he⟩ | ⟨P, _, he⟩
    · rw [he] at h; exact hmem1 Hob h
    · rw [he] at h
      rcases List.mem_or_eq_of_mem_set h with hm | rfl
      · exact hmem1 Hob hm
      · exact Or.inr rfl

theorem Pei.Entries_Registered (B : Build) (hB : B.HASH_COUNT ≤ B.HASH_ALGO_COUNT)
    (Calls : List Pei.Call) :
    ∀ Hob ∈ (Pei.Run B [] Calls).1, ∀ i, i < Hob.HashInterfaceCount →
      Pei.Registered B Calls Hob.Identifier (Hob.HashInterface.getD i ZeroInterface) := by
  induction Calls using List.reverseRecOn with
  | nil => intro Hob h; simp [Pei.Run] at h
  | append_singleton Cs C ih =>
      intro Hob hmem i hi
      rw [Pei.Run_append] at hmem
      simp only [Pei.Run] at hmem
      have hinv := Pei.Reachable_Inv B hB Cs
      cases C with
      | Constructor Caller HobRoom =>
          simp only [Pei.Step] at hmem
          rcases Pei.Constructor_mem B Caller HobRoom _ Hob hmem with hm | h0
          · exact Pei.Registered_snoc B Cs _ _ _ (ih Hob hm i hi)
          · omega
      | Register Caller HobRoom d =>
          simp only [Pei.Step] at hmem
          rcases Pei.Register_mem B Caller HobRoom _ d Hob hmem with hm |
            ⟨Old, hOld, hid, rfl, hst⟩
          · exact Pei.Registered_snoc B Cs _ _ _ (ih Hob hm i hi)
          · have hOldInv : Pei.HobInv B Old := by
              rcases hOld with hm | rfl
              · exact hinv Old hm
              · exact Pei.Local_Inv B Caller
            have hOldReg : ∀ j, j < Old.HashInterfaceCount →
                Pei.Registered B Cs Old.Identifier (Old.HashInterface.getD j ZeroInterface) := by
              intro j hj
              rcases hOld with hm | rfl
              · exact ih Old hm j hj
              · simp [Pei.LocalHashInterfaceHob] at hj
            rw [Pei.RegisterInHob_Identifier]
            by_cases hs : (Pei.RegisterInHob B Old d).2 = EFI_SUCCESS
            · obtain ⟨o1, o2, o3, _⟩ := hOldInv
              have hreg := Pei.RegisterInHob_eq B Old d
              have hs1 : (Registry.Register B B.HASH_COUNT Old.Registry d).2 = EFI_SUCCESS := by
                rw [← Pei.RegisterInHob_status]; exact hs
              have hnf : ¬ B.HASH_COUNT ≤ Old.Registry.Count := by
                intro hc
                rw [Registry.Register_full B _ _ d hc] at hs1
                cases hs1
              have hnd : d.HashGuid ∉ Old.Registry.Entries.map (fun E => E.HashGuid) := by
                intro hc
                rw [Registry.Register_duplicate B _ _ d (by omega) o3 hc] at hs1
                cases hs1
              rw [Registry.Register_fresh B _ _ d (by omega) o3 hnd] at hreg
              have hrg := congrArg Prod.fst hreg
              simp only at hrg
              have hOps : (Pei.RegisterInHob B Old d).1.HashInterface =
                  Old.HashInterface.set Old.HashInterfaceCount d := congrArg Registry.Ops hrg
              have hCnt : (Pei.RegisterInHob B Old d).1.HashInterfaceCount =
                  Old.HashInterfaceCount + 1 := congrArg Registry.Count hrg
              have hlt : Old.HashInterfaceCount < Old.HashInterface.length := by
                simp only [Pei.HASH_INTERFACE_HOB.Registry] at hnf
                omega
              rw [hOps]
              rw [hCnt] at hi
              by_cases hij : i = Old.HashInterfaceCount
              · subst hij
                have hd : (Old.HashInterface.set Old.HashInterfaceCount d).getD
                    Old.HashInterfaceCount ZeroInterface = d := by
                  simp [List.getElem?_set_self hlt]
                rw [hd, ← hid]
                refine ⟨Cs, HobRoom, [], rfl, ?_⟩
                rw [hid, hst]; exact hs
              · have hne : Old.HashInterfaceCount ≠ i := fun hc => hij hc.symm
                have hd : (Old.HashInterface.set Old.HashInterfaceCount d).getD i ZeroInterface =
                    Old.HashInterface.getD i ZeroInterface := by
                  simp [List.getElem?_set_ne hne]
                rw [hd]
                exact Pei.Registered_snoc B Cs _ _ _ (hOldReg i (by omega))
            · rw [Pei.RegisterInHob_fail_unchanged B Old d hs] at hi ⊢
              exact Pei.Registered_snoc B Cs _ _ _ (hOldReg i hi)

/-- C10. For two distinct owner tags: a registration by module `OwnerA` leaves every
record whose `Identifier` is not `OwnerA` as it was and adds none, so that module
`OwnerB` finds the same record, and gets the same outcome from `HashApiInit`,
before and after it; and whenever `HashApiInit` called by `OwnerB` succeeds,
`OwnerB` itself has registered with success a backend whose mask meets the
policy, whatever other modules have registered.  The history part is taken in a
build where `HASH_COUNT` does not exceed the `HASH_ALGO_COUNT` slots of the array. -/
theorem C10_owner_isolation {Ctx Digest : Type} (B : Build)
    (hB : B.HASH_COUNT ≤ B.HASH_ALGO_COUNT) (Code : HASH_CODE Ctx Digest)
    (OwnerA OwnerB : EFI_GUID) (hAB : OwnerA ≠ OwnerB) (Hobs : Pei.HobList) (HobRoom : Bool)
    (d : HASH_INTERFACE_UNIFIED_API) (PeiCalls : List Pei.Call) (HashType : Nat) :
    (Pei.RegisterHashApiLib B OwnerA HobRoom Hobs d).1.filter
        (fun Hob => decide (Hob.Identifier ≠ OwnerA)) =
      Hobs.filter (fun Hob => decide (Hob.Identifier ≠ OwnerA)) ∧
    Pei.Lookup (Pei.RegisterHashApiLib B OwnerA HobRoom Hobs d).1 OwnerB =
      Pei.Lookup Hobs OwnerB ∧
    Pei.HashApiInit B Code OwnerB (Pei.RegisterHashApiLib B OwnerA HobRoom Hobs d).1 HashType =
      Pei.HashApiInit B Code OwnerB Hobs HashType ∧
    ((Pei.HashApiInit B Code OwnerB (Pei.Run B [] PeiCalls).1 HashType).Status = EFI_SUCCESS →
      ∃ d1, Pei.Registered B PeiCalls OwnerB d1 ∧
        GetApiHashMaskFromAlgo B d1.HashGuid &&& EffectivePolicy B HashType ≠ 0) := by
  refine ⟨Pei.Register_frame B OwnerA HobRoom Hobs d,
    Pei.Lookup_Register_other B OwnerA HobRoom Hobs d OwnerB (Ne.symm hAB), ?_, ?_⟩
  · rw [Pei.HashApiInit_on_record, Pei.HashApiInit_on_record,
      Pei.RecordOr_Register_other B OwnerA HobRoom Hobs d OwnerB (Ne.symm hAB)]
  · intro hs
    rw [Pei.HashApiInit_on_record] at hs
    obtain ⟨Hob, i, hL, ⟨hi, hmatch, _⟩, _⟩ :=
      Pei.Dispatch_success_Lookup B OwnerB (Pei.Run B [] PeiCalls).1 _ _ hs
    have hreg := Pei.Entries_Registered B hB PeiCalls Hob (Pei.Lookup_mem _ OwnerB Hob hL) i hi
    rw [Pei.Lookup_Identifier _ OwnerB Hob hL] at hreg
    exact ⟨_, hreg, hmatch⟩

/-- C10 at a concrete input: module `7` registers the backend of mask `1` while
module `8` has only a constructor run behind it, and module `8` then asks for
policy `1`. -/
theorem C10_owner_isolation_witness :
    (Pei.RegisterHashApiLib Sample.Build5 7 true
          (Pei.Run Sample.Build5 [] [Pei.Call.Constructor 8 true]).1 Sample.Sha1).1.filter
        (fun Hob => decide (Hob.Identifier ≠ 7)) =
      (Pei.Run Sample.Build5 [] [Pei.Call.Constructor 8 true]).1.filter
        (fun Hob => decide (Hob.Identifier ≠ 7)) ∧
    Pei.Lookup (Pei.RegisterHashApiLib Sample.Build5 7 true
        (Pei.Run Sample.Build5 [] [Pei.Call.Constructor 8 true]).1 Sample.Sha1).1 8 =
      Pei.Lookup (Pei.Run Sample.Build5 [] [Pei.Call.Constructor 8 true]).1 8 ∧
    Pei.HashApiInit Sample.Build5 Sample.Code 8 (Pei.RegisterHashApiLib Sample.Build5 7 true
        (Pei.Run Sample.Build5 [] [Pei.Call.Constructor 8 true]).1 Sample.Sha1).1 1 =
      Pei.HashApiInit Sample.Build5 Sample.Code 8
        (Pei.Run Sample.Build5 [] [Pei.Call.Constructor 8 true]).1 1 ∧
    ((Pei.HashApiInit Sample.Build5 Sample.Code 8 (Pei.Run Sample.Build5 []
        [Pei.Call.Constructor 8 true, Pei.Call.Register 7 true Sample.Sha1,
          Pei.Call.Register 8 true Sample.Sha1]).1 1).Status = EFI_SUCCESS →
      ∃ d1, Pei.Registered Sample.Build5
          [Pei.Call.Constructor 8 true, Pei.Call.Register 7 true Sample.Sha1,
            Pei.Call.Register 8 true Sample.Sha1] 8 d1 ∧
        GetApiHashMaskFromAlgo Sample.Build5 d1.HashGuid &&&
          EffectivePolicy Sample.Build5 1 ≠ 0) :=
  C10_owner_isolation Sample.Build5 (by decide) Sample.Code 7 8 (by decide)
    (Pei.Run Sample.Build5 [] [Pei.Call.Constructor 8 true]).1 true Sample.Sha1
    [Pei.Call.Constructor 8 true, Pei.Call.Register 7 true Sample.Sha1,
      Pei.Call.Register 8 true Sample.Sha1] 1

/-! ## C11: one record for each identifier -/

theorem Pei.Register_Identifiers (B : Build) (Caller : EFI_GUID) (HobRoom : Bool)
    (Hobs : Pei.HobList) (d : HASH_INTERFACE_UNIFIED_API) :
    (Pei.RegisterHashApiLib B Caller HobRoom Hobs d).1.map (fun H => H.Identifier) =
        Hobs.map (fun H => H.Identifier) ∨
      (Caller ∉ Hobs.map (fun H => H.Identifier) ∧
        (Pei.RegisterHashApiLib B Caller HobRoom Hobs d).1.map (fun H => H.Identifier) =
          Hobs.map (fun H => H.Identifier) ++ [Caller]) := by
  cases hP : Pei.InternalGetBaseHashInterfaceHob Hobs Caller with
  | some P =>
      left
      rw [Pei.Register_of_some B Caller HobRoom Hobs d P hP]
      exact Pei.map_Identifier_set Hobs P _ (Pei.RegisterInHob_Identifier B _ d)
        (Pei.InternalGet_some Hobs Caller P hP).1
  | none =>
      cases HobRoom with
      | false => left; rw [Pei.Register_of_none_noroom B Caller Hobs d hP]
      | true =>
          right
          rw [Pei.Register_of_none_room B Caller Hobs d hP]
          refine ⟨?_, by simp [Pei.RegisterInHob_Identifier, Pei.LocalHashInterfaceHob]⟩
          intro hmem
          obtain ⟨Hob, hHob, hid⟩ := List.mem_map.mp hmem
          exact (Pei.InternalGet_none Hobs Caller).mp hP Hob hHob hid

theorem Pei.Constructor_Identifiers (B : Build) (Caller : EFI_GUID) (HobRoom : Bool)
    (Hobs : Pei.HobList) :
    (Pei.BaseHashLibApiPeiConstructor B Caller HobRoom Hobs).1.map (fun H => H.Identifier) =
        Hobs.map (fun H => H.Identifier) ∨
      (gZeroGuid ∉ Hobs.map (fun H => H.Identifier) ∧
        (Pei.BaseHashLibApiPeiConstructor B Caller HobRoom Hobs).1.map (fun H => H.Identifier) =
          Hobs.map (fun H => H.Identifier) ++ [gZeroGuid]) := by
  rcases Pei.Constructor_cases B Caller HobRoom Hobs with ⟨he, _, _⟩ | ⟨Hobs1, h1, h2⟩
  · left; rw [he]
  · have hstep : (Pei.BaseHashLibApiPeiConstructor B Caller HobRoom Hobs).1.map
        (fun H => H.Identifier) = Hobs1.map (fun H => H.Identifier) := by
      rcases h2 with ⟨_, he⟩ | ⟨P, hP, he⟩
      · rw [he]
      · rw [he]
        exact Pei.map_Identifier_set Hobs1 P _ rfl (Pei.InternalGet_some Hobs1 Caller P hP).1
    rw [hstep]
    rcases h1 with ⟨rfl, _⟩ | ⟨rfl, hZ, _⟩
    · left; rfl
    · right
      refine ⟨?_, by simp [Pei.LocalHashInterfaceHob]⟩
      intro hmem
      obtain ⟨Hob, hHob, hid⟩ := List.mem_map.mp hmem
      exact (Pei.InternalGet_none Hobs gZeroGuid).mp hZ Hob hHob hid

theorem Pei.Step_Identifiers_Nodup (B : Build) (Hobs : Pei.HobList) (C : Pei.Call)
    (h : (Hobs.map (fun H => H.Identifier)).Nodup) :
    ((Pei.Step B Hobs C).1.map (fun H => H.Identifier)).Nodup := by
  have key : ∀ (New : Pei.HobList) (Id : EFI_GUID),
      (New.map (fun H => H.Identifier) = Hobs.map (fun H => H.Identifier) ∨
        (Id ∉ Hobs.map (fun H => H.Identifier) ∧
          New.map (fun H => H.Identifier) = Hobs.map (fun H => H.Identifier) ++ [Id])) →
      (New.map (fun H => H.Identifier)).Nodup := by
    intro New Id hc
    rcases hc with he | ⟨hn, he⟩
    · rw [he]; exact h
    · rw [he, List.nodup_append]
      refine ⟨h, by simp, ?_⟩
      intro a ha hb
      have : a = Id := by simpa using hb
      subst this
      exact hn ha
  cases C with
  | Constructor Caller HobRoom =>
      exact key _ gZeroGuid (Pei.Constructor_Identifiers B Caller HobRoom Hobs)
  | Register Caller HobRoom d =>
      exact key _ Caller (Pei.Register_Identifiers B Caller HobRoom Hobs d)

theorem Pei.Run_Identifiers_Nodup (B : Build) :
    ∀ (Calls : List Pei.Call) (Hobs : Pei.HobList),
      (Hobs.map (fun H => H.Identifier)).Nodup →
      ((Pei.Run B Hobs Calls).1.map (fun H => H.Identifier)).Nodup := by
  intro Calls
  induction Calls with
  | nil => intro Hobs h; exact h
  | cons C Rest ih => intro Hobs h; exact ih _ (Pei.Step_Identifiers_Nodup B Hobs C h)

/-- C11. Starting from a HOB list without router records, after any interleaving of
constructor runs and registrations by modules with arbitrary owner tags (and
arbitrary outcomes of `BuildGuidDataHob`), the HOB list holds at most one router
record for each `Identifier`, the zero GUID included: the identifiers of the
records are pairwise distinct, and each occurs at most once. -/
theorem C11_one_record_per_identifier (B : Build) (PeiCalls : List Pei.Call) :
    ((Pei.Run B [] PeiCalls).1.map (fun H => H.Identifier)).Nodup ∧
      ∀ Id, ((Pei.Run B [] PeiCalls).1.map (fun H => H.Identifier)).count Id ≤ 1 := by
  have h := Pei.Run_Identifiers_Nodup B PeiCalls [] (by simp)
  exact ⟨h, List.nodup_iff_count_le_one.mp h⟩

/-- C11 at a concrete input: two modules, each with two constructor runs and a
registration, the second module also with a registration that finds no room. -/
theorem C11_one_record_per_identifier_witness :
    ((Pei.Run Sample.Build5 []
        [Pei.Call.Constructor 7 true, Pei.Call.Register 7 true Sample.Sha1,
          Pei.Call.Constructor 8 true, Pei.Call.Register 8 false Sample.Sha1,
          Pei.Call.Register 8 true Sample.Sha256, Pei.Call.Constructor 7 true,
          Pei.Call.Constructor 8 true]).1.map (fun H => H.Identifier)).Nodup ∧
      ∀ Id, ((Pei.Run Sample.Build5 []
        [Pei.Call.Constructor 7 true, Pei.Call.Register 7 true Sample.Sha1,
          Pei.Call.Constructor 8 true, Pei.Call.Register 8 false Sample.Sha1,
          Pei.Call.Register 8 true Sample.Sha256, Pei.Call.Constructor 7 true,
          Pei.Call.Constructor 8 true]).1.map (fun H => H.Identifier)).count Id ≤ 1 :=
  C11_one_record_per_identifier Sample.Build5
    [Pei.Call.Constructor 7 true, Pei.Call.Register 7 true Sample.Sha1,
      Pei.Call.Constructor 8 true, Pei.Call.Register 8 false Sample.Sha1,
      Pei.Call.Register 8 true Sample.Sha256, Pei.Call.Constructor 7 true,
      Pei.Call.Constructor 8 true]

/-! ## C12: the record of the zero GUID -/

theorem Pei.Step_zero_record (B : Build) (Hobs : Pei.HobList) (C : Pei.Call)
    (hC : C.Caller ≠ gZeroGuid)
    (h : Pei.Lookup Hobs gZeroGuid = none ∨
      Pei.Lookup Hobs gZeroGuid = some (Pei.LocalHashInterfaceHob B gZeroGuid)) :
    Pei.Lookup (Pei.Step B Hobs C).1 gZeroGuid = none ∨
      Pei.Lookup (Pei.Step B Hobs C).1 gZeroGuid =
        some (Pei.LocalHashInterfaceHob B gZeroGuid) := by
  cases C with
  | Constructor Caller HobRoom =>
      have hne : gZeroGuid ≠ Caller := fun hc => hC hc.symm
      simp only [Pei.Step]
      rcases Pei.Lookup_Constructor_other B Caller HobRoom Hobs gZeroGuid hne with he | ⟨_, _, he⟩
      · rw [he]; exact h
      · exact Or.inr he
  | Register Caller HobRoom d =>
      have hne : gZeroGuid ≠ Caller := fun hc => hC hc.symm
      simp only [Pei.Step]
      rw [Pei.Lookup_Register_other B Caller HobRoom Hobs d gZeroGuid hne]
      exact h

theorem Pei.Run_zero_record (B : Build) :
    ∀ (Calls : List Pei.Call) (Hobs : Pei.HobList), (∀ C ∈ Calls, C.Caller ≠ gZeroGuid) →
      (Pei.Lookup Hobs gZeroGuid = none ∨
        Pei.Lookup Hobs gZeroGuid = some (Pei.LocalHashInterfaceHob B gZeroGuid)) →
      Pei.Lookup (Pei.Run B Hobs Calls).1 gZeroGuid = none ∨
        Pei.Lookup (Pei.Run B Hobs Calls).1 gZeroGuid =
          some (Pei.LocalHashInterfaceHob B gZeroGuid) := by
  intro Calls
  induction Calls with
  | nil => intro Hobs _ h; exact h
  | cons C Rest ih =>
      intro Hobs hC h
      exact ih _ (fun X hX => hC X (List.mem_cons_of_mem _ hX))
        (Pei.Step_zero_record B Hobs C (hC C (List.mem_cons_self _ _)) h)

/-- C12 on the code.  Module `7` runs its constructor and registers the backend of
mask `1` with success: its own record then has `SupportedHashMask = 1`, while the
record of the zero GUID still has `SupportedHashMask = 0`, where the statement
has the union mask of the last module. -/
theorem C12_zero_record_mask_at_input :
    (Pei.Run Sample.Build5 []
        [Pei.Call.Constructor 7 true, Pei.Call.Register 7 true Sample.Sha1]).2 =
      [EFI_SUCCESS, EFI_SUCCESS] ∧
    (Pei.Lookup (Pei.Run Sample.Build5 []
        [Pei.Call.Constructor 7 true, Pei.Call.Register 7 true Sample.Sha1]).1 7).map
        (fun H => H.SupportedHashMask) = some 1 ∧
    (Pei.Lookup (Pei.Run Sample.Build5 []
        [Pei.Call.Constructor 7 true, Pei.Call.Register 7 true Sample.Sha1]).1 gZeroGuid).map
        (fun H => H.SupportedHashMask) = some 0 := by
  decide

/-! ## C13: the three operations resolve alike -/

theorem Registry.Dispatch_Status_Invoked {α β : Type} (B : Build) (R : Registry) (p : Nat)
    (NoMatch : EFI_STATUS) (Op1 : HASH_INTERFACE_UNIFIED_API → α)
    (Op2 : HASH_INTERFACE_UNIFIED_API → β) :
    (R.Dispatch B p NoMatch Op1).Status = (R.Dispatch B p NoMatch Op2).Status ∧
      (R.Dispatch B p NoMatch Op1).Invoked = (R.Dispatch B p NoMatch Op2).Invoked := by
  unfold Registry.Dispatch
  by_cases hg : R.Count = 0 ∨ R.Mask &&& p = 0
  · rw [if_pos hg, if_pos hg]; exact ⟨rfl, rfl⟩
  · rw [if_neg hg, if_neg hg]
    cases DispatchLoop B R.Ops p R.Count 0 <;> exact ⟨rfl, rfl⟩

theorem Registry.Dispatch_Status_cases {α : Type} (B : Build) (R : Registry) (p : Nat)
    (NoMatch : EFI_STATUS) (Op : HASH_INTERFACE_UNIFIED_API → α)
    (hN : NoMatch = EFI_SUCCESS ∨ NoMatch = EFI_UNSUPPORTED) :
    (R.Dispatch B p NoMatch Op).Status = EFI_SUCCESS ∨
      (R.Dispatch B p NoMatch Op).Status = EFI_UNSUPPORTED := by
  unfold Registry.Dispatch
  by_cases hg : R.Count = 0 ∨ R.Mask &&& p = 0
  · rw [if_pos hg]; exact Or.inr rfl
  · rw [if_neg hg]
    cases DispatchLoop B R.Ops p R.Count 0 with
    | none => exact hN
    | some i => exact Or.inl rfl

/-- C13. For every registry state, every `HashType` and a fixed system default,
`HashApiInit`, `HashApiUpdate` and `HashApiFinal` return the same status, which
is `EFI_SUCCESS` or `EFI_UNSUPPORTED`, and run the operation of the same registry
index (or none), in the static variant and in the persisted one. -/
theorem C13_same_resolution {Ctx Digest : Type} (B : Build) (Code : HASH_CODE Ctx Digest)
    (S : Dxe.State) (Hobs : Pei.HobList) (Caller : EFI_GUID) (H1 H2 : Ctx) (HashType : Nat)
    (DataToHash : List Nat) :
    ((Dxe.HashApiUpdate B Code S H1 HashType DataToHash).Status =
        (Dxe.HashApiInit B Code S HashType).Status ∧
      (Dxe.HashApiFinal B Code S H2 HashType).Status =
        (Dxe.HashApiInit B Code S HashType).Status ∧
      (Dxe.HashApiUpdate B Code S H1 HashType DataToHash).Invoked =
        (Dxe.HashApiInit B Code S HashType).Invoked ∧
      (Dxe.HashApiFinal B Code S H2 HashType).Invoked =
        (Dxe.HashApiInit B Code S HashType).Invoked ∧
      ((Dxe.HashApiInit B Code S HashType).Status = EFI_SUCCESS ∨
        (Dxe.HashApiInit B Code S HashType).Status = EFI_UNSUPPORTED)) ∧
    ((Pei.HashApiUpdate B Code Caller Hobs H1 HashType DataToHash).Status =
        (Pei.HashApiInit B Code Caller Hobs HashType).Status ∧
      (Pei.HashApiFinal B Code Caller Hobs H2 HashType).Status =
        (Pei.HashApiInit B Code Caller Hobs HashType).Status ∧
      (Pei.HashApiUpdate B Code Caller Hobs H1 HashType DataToHash).Invoked =
        (Pei.HashApiInit B Code Caller Hobs HashType).Invoked ∧
      (Pei.HashApiFinal B Code Caller Hobs H2 HashType).Invoked =
        (Pei.HashApiInit B Code Caller Hobs HashType).Invoked ∧
      ((Pei.HashApiInit B Code Caller Hobs HashType).Status = EFI_SUCCESS ∨
        (Pei.HashApiInit B Code Caller Hobs HashType).Status = EFI_UNSUPPORTED)) := by
  constructor
  · rw [Dxe.HashApiInit_eq, Dxe.HashApiUpdate_eq, Dxe.HashApiFinal_eq]
    exact ⟨(Registry.Dispatch_Status_Invoked B _ _ _ _ _).1,
      (Registry.Dispatch_Status_Invoked B _ _ _ _ _).1,
      (Registry.Dispatch_Status_Invoked B _ _ _ _ _).2,
      (Registry.Dispatch_Status_Invoked B _ _ _ _ _).2,
      Registry.Dispatch_Status_cases B _ _ _ _ (Or.inl rfl)⟩
  · rw [Pei.HashApiInit_on_record, Pei.HashApiUpdate_on_record, Pei.HashApiFinal_on_record]
    exact ⟨(Registry.Dispatch_Status_Invoked B _ _ _ _ _).1,
      (Registry.Dispatch_Status_Invoked B _ _ _ _ _).1,
      (Registry.Dispatch_Status_Invoked B _ _ _ _ _).2,
      (Registry.Dispatch_Status_Invoked B _ _ _ _ _).2,
      Registry.Dispatch_Status_cases B _ _ _ _ (Or.inr rfl)⟩

/-! ## C15: the effective policy -/

/-- C15. In `HashApiInit`, `HashApiUpdate` and `HashApiFinal` of both variants the
policy used for the union-mask test and for the matching loop is the effective
policy of the request: the configured `PcdSystemHashPolicy` when `HashType` is
`HASH_ALG_DEFAULT`, and `HashType` itself for every other value. -/
theorem C15_effective_policy {Ctx Digest : Type} (B : Build) (Code : HASH_CODE Ctx Digest)
    (S : Dxe.State) (Hobs : Pei.HobList) (Caller : EFI_GUID) (HashHandle : Ctx)
    (HashType : Nat) (DataToHash : List Nat) :
    EffectivePolicy B HashType =
        (if HashType = B.HASH_ALG_DEFAULT then B.PcdSystemHashPolicy else HashType) ∧
      EffectivePolicy B B.HASH_ALG_DEFAULT = B.PcdSystemHashPolicy ∧
      Dxe.HashApiInit B Code S HashType =
        S.Registry.Dispatch B (EffectivePolicy B HashType) EFI_SUCCESS
          (fun E => Code.Init E.HashInit) ∧
      Dxe.HashApiUpdate B Code S HashHandle HashType DataToHash =
        S.Registry.Dispatch B (EffectivePolicy B HashType) EFI_SUCCESS
          (fun E => Code.Update E.HashUpdate HashHandle DataToHash) ∧
      Dxe.HashApiFinal B Code S HashHandle HashType =
        S.Registry.Dispatch B (EffectivePolicy B HashType) EFI_SUCCESS
          (fun E => Code.Final E.HashFinal HashHandle) ∧
      Pei.HashApiInit B Code Caller Hobs HashType =
        (Pei.RecordOr B Hobs Caller).Registry.Dispatch B (EffectivePolicy B HashType)
          EFI_UNSUPPORTED (fun E => Code.Init E.HashInit) ∧
      Pei.HashApiUpdate B Code Caller Hobs HashHandle HashType DataToHash =
        (Pei.RecordOr B Hobs Caller).Registry.Dispatch B (EffectivePolicy B HashType)
          EFI_UNSUPPORTED (fun E => Code.Update E.HashUpdate HashHandle DataToHash) ∧
      Pei.HashApiFinal B Code Caller Hobs HashHandle HashType =
        (Pei.RecordOr B Hobs Caller).Registry.Dispatch B (EffectivePolicy B HashType)
          EFI_UNSUPPORTED (fun E => Code.Final E.HashFinal HashHandle) :=
  ⟨rfl, by simp [EffectivePolicy], Dxe.HashApiInit_eq B Code S HashType,
    Dxe.HashApiUpdate_eq B Code S HashHandle HashType DataToHash,
    Dxe.HashApiFinal_eq B Code S HashHandle HashType,
    Pei.HashApiInit_on_record B Code Caller Hobs HashType,
    Pei.HashApiUpdate_on_record B Code Caller Hobs HashHandle HashType DataToHash,
    Pei.HashApiFinal_on_record B Code Caller Hobs HashHandle HashType⟩

/-! ## C16: the mask of an algorithm -/

theorem GetApiHashMaskFromAlgoLoop_find (g : EFI_GUID) :
    ∀ Table : List HASH_MASK,
      GetApiHashMaskFromAlgoLoop Table g =
        ((Table.find? (fun Row => decide (Row.Guid = g))).map (fun Row => Row.Mask)).getD 0 := by
  intro Table
  induction Table with
  | nil => rfl
  | cons Row Rest ih =>
      unfold GetApiHashMaskFromAlgoLoop
      by_cases h : Row.Guid = g
      · have h1 : g = Row.Guid := h.symm
        simp [CompareGuid, h, List.find?_cons]
      · have h1 : ¬ g = Row.Guid := fun hc => h hc.symm
        simp [CompareGuid, h, h1, List.find?_cons, ih]

/-- C16. `GetApiHashMaskFromAlgo` is a total function of the table and the GUID: it
returns the `Mask` of the first row of `mHashMask` whose `Guid` equals the GUID,
and `0` when there is none; hence it returns `0` exactly when no row has the
GUID or the first row that has it carries the mask `0`.  The table is an input
only. -/
theorem C16_GetApiHashMaskFromAlgo (B : Build) (g : EFI_GUID) :
    GetApiHashMaskFromAlgo B g =
        ((B.mHashMask.find? (fun Row => decide (Row.Guid = g))).map
          (fun Row => Row.Mask)).getD 0 ∧
      (GetApiHashMaskFromAlgo B g = 0 ↔
        (∀ Row ∈ B.mHashMask, Row.Guid ≠ g) ∨
          ∃ Row, B.mHashMask.find? (fun Row => decide (Row.Guid = g)) = some Row ∧
            Row.Mask = 0) := by
  have hfind := GetApiHashMaskFromAlgoLoop_find g B.mHashMask
  refine ⟨hfind, ?_⟩
  unfold GetApiHashMaskFromAlgo
  rw [hfind]
  cases hf : B.mHashMask.find? (fun Row => decide (Row.Guid = g)) with
  | none =>
      simp only [Option.map_none', Option.getD_none, true_iff]
      left
      intro Row hRow
      have := List.find?_eq_none.mp hf Row hRow
      simpa using this
  | some Row =>
      simp only [Option.map_some', Option.getD_some]
      constructor
      · intro h0
        exact Or.inr ⟨Row, rfl, h0⟩
      · rintro (hall | ⟨Row1, he, h0⟩)
        · have hmem := List.mem_of_find?_eq_some hf
          have hg := List.find?_some hf
          exact absurd (by simpa using hg) (hall Row hmem)
        · have : Row1 = Row := by simpa using he.symm
          rw [← this]; exact h0

/-! ## C17: the record a first registration creates -/

/-- C17. When `RegisterHashApiLib (d)` is called and the caller has no record: if
`BuildGuidDataHob` delivers one, the call returns `EFI_SUCCESS` and the HOB list
is the old one followed by one new record, the only one with the caller's
identifier, whose count is `1`, whose first entry is `d`, whose other slots are
zero and whose mask is `GetApiHashMaskFromAlgo (d.HashGuid)`; if it does not, the
call returns `EFI_OUT_OF_RESOURCES` and the HOB list is unchanged.  Both capacity
constants are taken to be at least one. -/
theorem C17_first_registration_creates (B : Build) (hH : 0 < B.HASH_COUNT)
    (hA : 0 < B.HASH_ALGO_COUNT) (Caller : EFI_GUID) (Hobs : Pei.HobList)
    (d : HASH_INTERFACE_UNIFIED_API) (hL : Pei.Lookup Hobs Caller = none) :
    Pei.RegisterHashApiLib B Caller true Hobs d =
        (Hobs ++ [{ Identifier := Caller, HashInterfaceCount := 1,
                    HashInterface := d :: List.replicate (B.HASH_ALGO_COUNT - 1) ZeroInterface,
                    SupportedHashMask := GetApiHashMaskFromAlgo B d.HashGuid }],
          EFI_SUCCESS) ∧
      (Pei.RegisterHashApiLib B Caller true Hobs d).1.filter
          (fun Hob => decide (Hob.Identifier = Caller)) =
        [{ Identifier := Caller, HashInterfaceCount := 1,
           HashInterface := d :: List.replicate (B.HASH_ALGO_COUNT - 1) ZeroInterface,
           SupportedHashMask := GetApiHashMaskFromAlgo B d.HashGuid }] ∧
      Pei.RegisterHashApiLib B Caller false Hobs d = (Hobs, EFI_OUT_OF_RESOURCES) := by
  have hP := (Pei.Lookup_none_iff Hobs Caller).mp hL
  have hnone := (Pei.InternalGet_none Hobs Caller).mp hP
  have hreg : Pei.RegisterInHob B (Pei.LocalHashInterfaceHob B Caller) d =
      ({ Identifier := Caller, HashInterfaceCount := 1,
         HashInterface := d :: List.replicate (B.HASH_ALGO_COUNT - 1) ZeroInterface,
         SupportedHashMask := GetApiHashMaskFromAlgo B d.HashGuid }, EFI_SUCCESS) := by
    obtain ⟨n, hn⟩ : ∃ n, B.HASH_ALGO_COUNT = n + 1 := ⟨B.HASH_ALGO_COUNT - 1, by omega⟩
    unfold Pei.RegisterInHob Pei.LocalHashInterfaceHob
    rw [if_neg (by simp only [ge_iff_le]; omega)]
    simp [DuplicateLoop, hn, List.replicate_succ]
  have hfirst : Pei.RegisterHashApiLib B Caller true Hobs d =
      (Hobs ++ [{ Identifier := Caller, HashInterfaceCount := 1,
                  HashInterface := d :: List.replicate (B.HASH_ALGO_COUNT - 1) ZeroInterface,
                  SupportedHashMask := GetApiHashMaskFromAlgo B d.HashGuid }],
        EFI_SUCCESS) := by
    rw [Pei.Register_of_none_room B Caller Hobs d hP, hreg]
  refine ⟨hfirst, ?_, Pei.Register_of_none_noroom B Caller Hobs d hP⟩
  rw [hfirst]
  simp only [List.filter_append]
  have hold : Hobs.filter (fun Hob => decide (Hob.Identifier = Caller)) = [] := by
    rw [List.filter_eq_nil_iff]
    intro Hob hHob
    simpa using hnone Hob hHob
  rw [hold]
  simp [List.filter_cons]

/-- C17 at a concrete input: module `7` registers the backend of mask `1` when the
HOB list holds only the record of the zero GUID. -/
theorem C17_first_registration_creates_witness :
    Pei.RegisterHashApiLib Sample.Build5 7 true
          [Pei.LocalHashInterfaceHob Sample.Build5 gZeroGuid] Sample.Sha1 =
        ([Pei.LocalHashInterfaceHob Sample.Build5 gZeroGuid] ++
            [{ Identifier := 7, HashInterfaceCount := 1,
               HashInterface := Sample.Sha1 ::
                 List.replicate (Sample.Build5.HASH_ALGO_COUNT - 1) ZeroInterface,
               SupportedHashMask := GetApiHashMaskFromAlgo Sample.Build5 Sample.Sha1.HashGuid }],
          EFI_SUCCESS) ∧
      (Pei.RegisterHashApiLib Sample.Build5 7 true
          [Pei.LocalHashInterfaceHob Sample.Build5 gZeroGuid] Sample.Sha1).1.filter
          (fun Hob => decide (Hob.Identifier = 7)) =
        [{ Identifier := 7, HashInterfaceCount := 1,
           HashInterface := Sample.Sha1 ::
             List.replicate (Sample.Build5.HASH_ALGO_COUNT - 1) ZeroInterface,
           SupportedHashMask := GetApiHashMaskFromAlgo Sample.Build5 Sample.Sha1.HashGuid }] ∧
      Pei.RegisterHashApiLib Sample.Build5 7 false
          [Pei.LocalHashInterfaceHob Sample.Build5 gZeroGuid] Sample.Sha1 =
        ([Pei.LocalHashInterfaceHob Sample.Build5 gZeroGuid], EFI_OUT_OF_RESOURCES) :=
  C17_first_registration_creates Sample.Build5 (by decide) (by decide) 7
    [Pei.LocalHashInterfaceHob Sample.Build5 gZeroGuid] Sample.Sha1 (by decide)

/-! ## C18: the store into the array of a record -/

/-- The bound on the store rests on the relation of the two constants: in a build
with `HASH_COUNT = 2` and `HASH_ALGO_COUNT = 1`, both declared outside the two
files, module `7` registers two distinct GUIDs and both calls return `EFI_SUCCESS`.
Before the second call the record has count `1` in an array of length `1`, so
the store to `HashInterface[1]` is past the end; afterwards the count is `2`,
above the length `1`.  The static variant, which compares with the length of the
array, refuses the second registration with `EFI_OUT_OF_RESOURCES`. -/
theorem Pei.store_index_in_BuildOver :
    (Pei.Run Sample.BuildOver []
        [Pei.Call.Constructor 7 true, Pei.Call.Register 7 true Sample.Sha1,
          Pei.Call.Register 7 true Sample.Sha256]).2 =
      [EFI_SUCCESS, EFI_SUCCESS, EFI_SUCCESS] ∧
    (Pei.Lookup (Pei.Run Sample.BuildOver []
        [Pei.Call.Constructor 7 true, Pei.Call.Register 7 true Sample.Sha1]).1 7).map
        (fun H => (H.HashInterfaceCount, H.HashInterface.length)) = some (1, 1) ∧
    (Pei.Lookup (Pei.Run Sample.BuildOver []
        [Pei.Call.Constructor 7 true, Pei.Call.Register 7 true Sample.Sha1,
          Pei.Call.Register 7 true Sample.Sha256]).1 7).map
        (fun H => (H.HashInterfaceCount, H.HashInterface.length)) = some (2, 1) ∧
    (Dxe.Run Sample.BuildOver (Dxe.Load Sample.BuildOver)
        [Dxe.Call.Register Sample.Sha1, Dxe.Call.Register Sample.Sha256]).2 =
      [EFI_SUCCESS, EFI_OUT_OF_RESOURCES] := by
  decide

theorem Registry.Dispatch_unsupported {α : Type} (B : Build) (R : Registry) (p : Nat)
    (Op : HASH_INTERFACE_UNIFIED_API → α)
    (h : (R.Dispatch B p EFI_SUCCESS Op).Status = EFI_UNSUPPORTED) :
    R.Dispatch B p EFI_SUCCESS Op =
      { Status := EFI_UNSUPPORTED, Invoked := none, Out := none } := by
  unfold Registry.Dispatch at h ⊢
  by_cases hg : R.Count = 0 ∨ R.Mask &&& p = 0
  · rw [if_pos hg]
  · rw [if_neg hg] at h
    cases hl : DispatchLoop B R.Ops p R.Count 0 with
    | none => rw [hl] at h; cases h
    | some i => rw [hl] at h; cases h

/-- C20. In every state of the static variant reached from
`BaseHashLibApiDxeConstructor` by registrations (and constructor re-runs),
`HashApiInit`, `HashApiUpdate` and `HashApiFinal` return `EFI_SUCCESS` or
`EFI_UNSUPPORTED`; when the status is `EFI_SUCCESS` the operation of exactly one
registered entry, of index below the count, has run and produced the output (the
loop does not run to the end); when it is `EFI_UNSUPPORTED` no backend has run. -/
theorem C20_one_operation_per_call {Ctx Digest : Type} (B : Build)
    (Code : HASH_CODE Ctx Digest) (S0 : Dxe.State) (DxeCalls : List Dxe.Call)
    (HashHandle : Ctx) (HashType : Nat) (DataToHash : List Nat) :
    ((∃ i, i < (Dxe.Run B (Dxe.BaseHashLibApiDxeConstructor S0).1
              DxeCalls).1.mBaseHashInterfaceCount ∧
          Dxe.HashApiInit B Code
              (Dxe.Run B (Dxe.BaseHashLibApiDxeConstructor S0).1 DxeCalls).1 HashType =
            { Status := EFI_SUCCESS, Invoked := some i,
              Out := some (Code.Init
                ((Dxe.Run B (Dxe.BaseHashLibApiDxeConstructor S0).1 DxeCalls).1.mHashOps.getD i
                  ZeroInterface).HashInit) }) ∨
        Dxe.HashApiInit B Code
            (Dxe.Run B (Dxe.BaseHashLibApiDxeConstructor S0).1 DxeCalls).1 HashType =
          { Status := EFI_UNSUPPORTED, Invoked := none, Out := none }) ∧
      ((∃ i, i < (Dxe.Run B (Dxe.BaseHashLibApiDxeConstructor S0).1
              DxeCalls).1.mBaseHashInterfaceCount ∧
          Dxe.HashApiUpdate B Code
              (Dxe.Run B (Dxe.BaseHashLibApiDxeConstructor S0).1 DxeCalls).1
              HashHandle HashType DataToHash =
            { Status := EFI_SUCCESS, Invoked := some i,
              Out := some (Code.Update
                ((Dxe.Run B (Dxe.BaseHashLibApiDxeConstructor S0).1 DxeCalls).1.mHashOps.getD i
                  ZeroInterface).HashUpdate HashHandle DataToHash) }) ∨
        Dxe.HashApiUpdate B Code
            (Dxe.Run B (Dxe.BaseHashLibApiDxeConstructor S0).1 DxeCalls).1
            HashHandle HashType DataToHash =
          { Status := EFI_UNSUPPORTED, Invoked := none, Out := none }) ∧
      ((∃ i, i < (Dxe.Run B (Dxe.BaseHashLibApiDxeConstructor S0).1
              DxeCalls).1.mBaseHashInterfaceCount ∧
          Dxe.HashApiFinal B Code
              (Dxe.Run B (Dxe.BaseHashLibApiDxeConstructor S0).1 DxeCalls).1
              HashHandle HashType =
            { Status := EFI_SUCCESS, Invoked := some i,
              Out := some (Code.Final
                ((Dxe.Run B (Dxe.BaseHashLibApiDxeConstructor S0).1 DxeCalls).1.mHashOps.getD i
                  ZeroInterface).HashFinal HashHandle) }) ∨
        Dxe.HashApiFinal B Code
            (Dxe.Run B (Dxe.BaseHashLibApiDxeConstructor S0).1 DxeCalls).1
            HashHandle HashType =
          { Status := EFI_UNSUPPORTED, Invoked := none, Out := none }) := by
  have hinv := Dxe.Run_RegistryInv B DxeCalls _ (Dxe.Constructor_RegistryInv B S0)
  generalize (Dxe.Run B (Dxe.BaseHashLibApiDxeConstructor S0).1 DxeCalls).1 = S at hinv ⊢
  have key : ∀ {α : Type} (Op : HASH_INTERFACE_UNIFIED_API → α),
      (∃ i, i < S.mBaseHashInterfaceCount ∧
          S.Registry.Dispatch B (EffectivePolicy B HashType) EFI_SUCCESS Op =
            { Status := EFI_SUCCESS, Invoked := some i,
              Out := some (Op (S.mHashOps.getD i ZeroInterface)) }) ∨
        S.Registry.Dispatch B (EffectivePolicy B HashType) EFI_SUCCESS Op =
          { Status := EFI_UNSUPPORTED, Invoked := none, Out := none } := by
    intro α Op
    rcases Registry.Dispatch_Status_cases B S.Registry (EffectivePolicy B HashType)
      EFI_SUCCESS Op (Or.inl rfl) with hs | hu
    · obtain ⟨i, ⟨hi, _, _⟩, he⟩ := Registry.Dispatch_success B S.Registry _ EFI_SUCCESS Op
        (Or.inl hinv) hs
      exact Or.inl ⟨i, hi, he⟩
    · exact Or.inr (Registry.Dispatch_unsupported B S.Registry _ Op hu)
  refine ⟨?_, ?_, ?_⟩
  · rw [Dxe.HashApiInit_eq]; exact key _
  · rw [Dxe.HashApiUpdate_eq]; exact key _
  · rw [Dxe.HashApiFinal_eq]; exact key _

/-! ## C19: what the constructors reset -/

theorem Pei.Constructor_success_self (B : Build) (Caller : EFI_GUID) (HobRoom : Bool)
    (Hobs : Pei.HobList) (Hob : Pei.HASH_INTERFACE_HOB)
    (hL : Pei.Lookup Hobs Caller = some Hob)
    (hs : (Pei.BaseHashLibApiPeiConstructor B Caller HobRoom Hobs).2 = EFI_SUCCESS) :
    Pei.Lookup (Pei.BaseHashLibApiPeiConstructor B Caller HobRoom Hobs).1 Caller =
        some (Pei.ClearHob Hob) ∧
      (Pei.Lookup (Pei.BaseHashLibApiPeiConstructor B Caller HobRoom Hobs).1 gZeroGuid).isSome =
        true := by
  rcases Pei.Constructor_cases B Caller HobRoom Hobs with ⟨he, _, _⟩ | ⟨Hobs1, h1, h2⟩
  · rw [he] at hs; cases hs
  · have h1L : Pei.Lookup Hobs1 Caller = some Hob ∧
        (Pei.Lookup Hobs1 gZeroGuid).isSome = true := by
      rcases h1 with ⟨rfl, hZ⟩ | ⟨rfl, hZ, _⟩
      · refine ⟨hL, ?_⟩
        cases hz : Pei.Lookup Hobs1 gZeroGuid with
        | none => exact absurd ((Pei.Lookup_none_iff Hobs1 gZeroGuid).mp hz) hZ
        | some X => rfl
      · have hap := Pei.Lookup_append Hobs (Pei.LocalHashInterfaceHob B gZeroGuid) gZeroGuid
        have hne : Caller ≠ gZeroGuid := by
          rintro rfl
          rw [(Pei.Lookup_none_iff Hobs gZeroGuid).mpr hZ] at hL
          cases hL
        refine ⟨?_, ?_⟩
        · rw [hap Caller hZ rfl, if_neg hne]; exact hL
        · rw [hap gZeroGuid hZ rfl, if_pos rfl]; rfl
    obtain ⟨hC1, hZ1⟩ := h1L
    obtain ⟨P0, hP0, hget⟩ := (Pei.Lookup_some_iff Hobs1 Caller Hob).mp hC1
    rcases h2 with ⟨hn, _⟩ | ⟨P, hP, he⟩
    · rw [hn] at hP0; cases hP0
    · have hPP : P = P0 := by rw [hP] at hP0; exact Option.some.inj hP0
      subst hPP
      rw [he, hget]
      have hid : (Pei.ClearHob Hob).Identifier = Caller := by
        have := (Pei.InternalGet_some Hobs1 Caller P hP).2
        rw [hget] at this
        exact this
      have hset := Pei.Lookup_set Hobs1 P (Pei.ClearHob Hob) Caller
      refine ⟨by rw [hset Caller hP hid, if_pos rfl], ?_⟩
      rw [hset gZeroGuid hP hid]
      by_cases hz : gZeroGuid = Caller
      · rw [if_pos hz]; rfl
      · rw [if_neg hz]; exact hZ1

/-- C19 as stated fails when the constructor cannot create the record of the zero
GUID.  Module `7` has a record with one entry while no record of the zero GUID
exists (its first constructor run found no room); the constructor, run again
without room, returns `EFI_OUT_OF_RESOURCES` and leaves the record with its
entry: no record of the zero GUID exists, and registering the same GUID again
is refused. -/
theorem C19_counterexample :
    (Pei.Lookup (Pei.Run Sample.Build5 []
        [Pei.Call.Constructor 7 false, Pei.Call.Register 7 true Sample.Sha1]).1 7).map
        (fun H => H.HashInterfaceCount) = some 1 ∧
    (Pei.BaseHashLibApiPeiConstructor Sample.Build5 7 false
        (Pei.Run Sample.Build5 []
          [Pei.Call.Constructor 7 false, Pei.Call.Register 7 true Sample.Sha1]).1).2 =
      EFI_OUT_OF_RESOURCES ∧
    (Pei.Lookup (Pei.BaseHashLibApiPeiConstructor Sample.Build5 7 false
        (Pei.Run Sample.Build5 []
          [Pei.Call.Constructor 7 false, Pei.Call.Register 7 true Sample.Sha1]).1).1 7).map
        (fun H => H.HashInterfaceCount) = some 1 ∧
    Pei.Lookup (Pei.BaseHashLibApiPeiConstructor Sample.Build5 7 false
        (Pei.Run Sample.Build5 []
          [Pei.Call.Constructor 7 false, Pei.Call.Register 7 true Sample.Sha1]).1).1
        gZeroGuid = none ∧
    (Pei.RegisterHashApiLib Sample.Build5 7 true
        (Pei.BaseHashLibApiPeiConstructor Sample.Build5 7 false
          (Pei.Run Sample.Build5 []
            [Pei.Call.Constructor 7 false, Pei.Call.Register 7 true Sample.Sha1]).1).1
        Sample.Sha1).2 = EFI_ALREADY_STARTED := by
  decide

/-- C19, amended.  Persisted variant, in a state reached from a HOB list without
router records, for a module whose record exists: when
`BaseHashLibApiPeiConstructor` returns `EFI_SUCCESS`, that record has count `0`,
mask `0`, every slot zeroed and its `Identifier` unchanged, a record of the zero
GUID exists, and every entry of the record before the run can be registered
again with `EFI_SUCCESS`, one at a time or all in their old order; it does not
return `EFI_SUCCESS` exactly when no record of the zero GUID exists and
`BuildGuidDataHob` has no room for one, and then it returns `EFI_OUT_OF_RESOURCES`
and the HOB list is unchanged.  Static variant: after `BaseHashLibApiDxeConstructor` the count and
the mask are `0` and `HashApiInit` returns `EFI_UNSUPPORTED`, running no backend,
for every `HashType`.  The persisted part is taken in a build where `HASH_COUNT`
does not exceed `HASH_ALGO_COUNT`. -/
theorem C19_constructor_reset {Ctx Digest : Type} (B : Build)
    (hB : B.HASH_COUNT ≤ B.HASH_ALGO_COUNT) (Code : HASH_CODE Ctx Digest)
    (PeiCalls : List Pei.Call) (Caller : EFI_GUID) (HobRoom : Bool)
    (Hob : Pei.HASH_INTERFACE_HOB)
    (hL : Pei.Lookup (Pei.Run B [] PeiCalls).1 Caller = some Hob)
    (S : Dxe.State) (HashType : Nat) :
    ((Pei.BaseHashLibApiPeiConstructor B Caller HobRoom (Pei.Run B [] PeiCalls).1).2 =
        EFI_SUCCESS →
      Pei.Lookup (Pei.BaseHashLibApiPeiConstructor B Caller HobRoom
          (Pei.Run B [] PeiCalls).1).1 Caller =
        some { Identifier := Hob.Identifier, HashInterfaceCount := 0,
               HashInterface := List.replicate Hob.HashInterface.length ZeroInterface,
               SupportedHashMask := 0 } ∧
      (Pei.Lookup (Pei.BaseHashLibApiPeiConstructor B Caller HobRoom
          (Pei.Run B [] PeiCalls).1).1 gZeroGuid).isSome = true ∧
      (∀ E ∈ Hob.HashInterface.take Hob.HashInterfaceCount, ∀ Room,
        (Pei.RegisterHashApiLib B Caller Room (Pei.BaseHashLibApiPeiConstructor B Caller HobRoom
          (Pei.Run B [] PeiCalls).1).1 E).2 = EFI_SUCCESS) ∧
      (Pei.Run B (Pei.BaseHashLibApiPeiConstructor B Caller HobRoom
          (Pei.Run B [] PeiCalls).1).1
        ((Hob.HashInterface.take Hob.HashInterfaceCount).map
          (Pei.Call.Register Caller true))).2 =
        (Hob.HashInterface.take Hob.HashInterfaceCount).map (fun _ => EFI_SUCCESS)) ∧
    (((Pei.BaseHashLibApiPeiConstructor B Caller HobRoom (Pei.Run B [] PeiCalls).1).2 ≠
          EFI_SUCCESS ↔
        Pei.Lookup (Pei.Run B [] PeiCalls).1 gZeroGuid = none ∧ HobRoom = false) ∧
      ((Pei.BaseHashLibApiPeiConstructor B Caller HobRoom (Pei.Run B [] PeiCalls).1).2 ≠
          EFI_SUCCESS →
        Pei.BaseHashLibApiPeiConstructor B Caller HobRoom (Pei.Run B [] PeiCalls).1 =
          ((Pei.Run B [] PeiCalls).1, EFI_OUT_OF_RESOURCES))) ∧
    ((Dxe.BaseHashLibApiDxeConstructor S).2 = EFI_SUCCESS ∧
      (Dxe.BaseHashLibApiDxeConstructor S).1.mBaseHashInterfaceCount = 0 ∧
      (Dxe.BaseHashLibApiDxeConstructor S).1.mCurrentHashMask = 0 ∧
      Dxe.HashApiInit B Code (Dxe.BaseHashLibApiDxeConstructor S).1 HashType =
        { Status := EFI_UNSUPPORTED, Invoked := none, Out := none }) := by
  have hinv := Pei.Reachable_Inv B hB PeiCalls
  generalize (Pei.Run B [] PeiCalls).1 = Hobs at hinv hL ⊢
  obtain ⟨i1, i2, i3, _, i5⟩ := hinv Hob (Pei.Lookup_mem Hobs Caller Hob hL)
  simp only [Pei.HASH_INTERFACE_HOB.Registry, Registry.Entries] at i3 i5
  refine ⟨?_, ?_, ?_⟩
  · intro hs
    obtain ⟨hC, hZ⟩ := Pei.Constructor_success_self B Caller HobRoom Hobs Hob hL hs
    generalize (Pei.BaseHashLibApiPeiConstructor B Caller HobRoom Hobs).1 = Hobs1 at hC hZ ⊢
    have hrec : Pei.RecordOr B Hobs1 Caller = Pei.ClearHob Hob := by
      unfold Pei.RecordOr; rw [hC]; rfl
    refine ⟨hC, hZ, ?_, ?_⟩
    · intro E hE Room
      have hpos : 0 < Hob.HashInterfaceCount := by
        rcases Nat.eq_zero_or_pos Hob.HashInterfaceCount with h0 | h0
        · rw [h0] at hE; simp at hE
        · exact h0
      rw [(Pei.Lookup_Register_some B Caller Room Hobs1 E (Pei.ClearHob Hob) hC Caller).2,
        Pei.RegisterInHob_status,
        Registry.Register_fresh B B.HASH_COUNT (Pei.ClearHob Hob).Registry E
          (by simp only [Pei.HASH_INTERFACE_HOB.Registry, Pei.ClearHob]; omega)
          (by simp [Pei.HASH_INTERFACE_HOB.Registry, Pei.ClearHob])
          (by simp [Pei.HASH_INTERFACE_HOB.Registry, Pei.ClearHob, Registry.Entries])]
    · have hlen : (Hob.HashInterface.take Hob.HashInterfaceCount).length =
          Hob.HashInterfaceCount := by
        simp only [List.length_take]; omega
      exact (Pei.Run_registers_record B Caller
        (Hob.HashInterface.take Hob.HashInterfaceCount) Hobs1
        (by rw [hrec, hlen]; simp only [Pei.ClearHob]; omega)
        (by rw [hrec, hlen]; simp only [Pei.ClearHob, List.length_replicate]; omega)
        (by
          rw [hrec]
          simpa [Pei.HASH_INTERFACE_HOB.Registry, Pei.ClearHob, Registry.Entries] using i5)).1
  · have hfail : (Pei.BaseHashLibApiPeiConstructor B Caller HobRoom Hobs).2 ≠ EFI_SUCCESS →
        Pei.BaseHashLibApiPeiConstructor B Caller HobRoom Hobs =
          (Hobs, EFI_OUT_OF_RESOURCES) := by
      intro hs
      rcases Pei.Constructor_cases B Caller HobRoom Hobs with ⟨he, _, _⟩ | ⟨Hobs1, _, h2⟩
      · exact he
      · rcases h2 with ⟨_, he⟩ | ⟨P, _, he⟩
        · rw [he] at hs; exact absurd rfl hs
        · rw [he] at hs; exact absurd rfl hs
    refine ⟨⟨?_, ?_⟩, hfail⟩
    · intro hs
      rcases Pei.Constructor_cases B Caller HobRoom Hobs with ⟨_, hz, hr⟩ | ⟨Hobs1, _, h2⟩
      · exact ⟨(Pei.Lookup_none_iff Hobs gZeroGuid).mpr hz, hr⟩
      · rcases h2 with ⟨_, he⟩ | ⟨P, _, he⟩
        · rw [he] at hs; exact absurd rfl hs
        · rw [he] at hs; exact absurd rfl hs
    · rintro ⟨hz, hr⟩
      rcases Pei.Constructor_cases B Caller HobRoom Hobs with ⟨he, _, _⟩ | ⟨Hobs1, h1, _⟩
      · rw [he]; intro hc; cases hc
      · rcases h1 with ⟨_, hne⟩ | ⟨_, _, ht⟩
        · exact absurd ((Pei.Lookup_none_iff Hobs gZeroGuid).mp hz) hne
        · rw [hr] at ht; cases ht
  · refine ⟨rfl, rfl, rfl, ?_⟩
    rw [Dxe.HashApiInit_eq]
    simp [Registry.Dispatch, Dxe.State.Registry, Dxe.BaseHashLibApiDxeConstructor]

/-- C19 amended, at a concrete input: module `7` has registered two backends when
its constructor runs again with success. -/
theorem C19_constructor_reset_witness :
    Pei.Lookup (Pei.BaseHashLibApiPeiConstructor Sample.Build5 7 true
        (Pei.Run Sample.Build5 []
          [Pei.Call.Constructor 7 true, Pei.Call.Register 7 true Sample.Sha1,
            Pei.Call.Register 7 true Sample.Sha256]).1).1 7 =
      some { Identifier := 7, HashInterfaceCount := 0,
             HashInterface := List.replicate 5 ZeroInterface, SupportedHashMask := 0 } ∧
    (Pei.Run Sample.Build5 (Pei.BaseHashLibApiPeiConstructor Sample.Build5 7 true
        (Pei.Run Sample.Build5 []
          [Pei.Call.Constructor 7 true, Pei.Call.Register 7 true Sample.Sha1,
            Pei.Call.Register 7 true Sample.Sha256]).1).1
        [Pei.Call.Register 7 true Sample.Sha1, Pei.Call.Register 7 true Sample.Sha256]).2 =
      [EFI_SUCCESS, EFI_SUCCESS] ∧
    Dxe.HashApiInit Sample.Build5 Sample.Code
        (Dxe.BaseHashLibApiDxeConstructor
          (Dxe.Run Sample.Build5 (Dxe.Load Sample.Build5)
            [Dxe.Call.Register Sample.Sha1]).1).1 1 =
      { Status := EFI_UNSUPPORTED, Invoked := none, Out := none } :=
  ⟨((C19_constructor_reset Sample.Build5 (by decide) Sample.Code
        [Pei.Call.Constructor 7 true, Pei.Call.Register 7 true Sample.Sha1,
          Pei.Call.Register 7 true Sample.Sha256] 7 true
        (Pei.RecordOr Sample.Build5 (Pei.Run Sample.Build5 []
          [Pei.Call.Constructor 7 true, Pei.Call.Register 7 true Sample.Sha1,
            Pei.Call.Register 7 true Sample.Sha256]).1 7)
        (by decide)
        (Dxe.Run Sample.Build5 (Dxe.Load Sample.Build5) [Dxe.Call.Register Sample.Sha1]).1
        1).1 (by decide)).1,
    ((C19_constructor_reset Sample.Build5 (by decide) Sample.Code
        [Pei.Call.Constructor 7 true, Pei.Call.Register 7 true Sample.Sha1,
          Pei.Call.Register 7 true Sample.Sha256] 7 true
        (Pei.RecordOr Sample.Build5 (Pei.Run Sample.Build5 []
          [Pei.Call.Constructor 7 true, Pei.Call.Register 7 true Sample.Sha1,
            Pei.Call.Register 7 true Sample.Sha256]).1 7)
        (by decide)
        (Dxe.Run Sample.Build5 (Dxe.Load Sample.Build5) [Dxe.Call.Register Sample.Sha1]).1
        1).1 (by decide)).2.2.2,
    (C19_constructor_reset Sample.Build5 (by decide) Sample.Code
        [Pei.Call.Constructor 7 true, Pei.Call.Register 7 true Sample.Sha1,
          Pei.Call.Register 7 true Sample.Sha256] 7 true
        (Pei.RecordOr Sample.Build5 (Pei.Run Sample.Build5 []
          [Pei.Call.Constructor 7 true, Pei.Call.Register 7 true Sample.Sha1,
            Pei.Call.Register 7 true Sample.Sha256]).1 7)
        (by decide)
        (Dxe.Run Sample.Build5 (Dxe.Load Sample.Build5) [Dxe.Call.Register Sample.Sha1]).1
        1).2.2.2.2.2⟩

/-! ## C14: the two variants agree -/

theorem getD_eq_of_take_eq {α : Type} (l₁ l₂ : List α) (d : α) (n j : Nat)
    (h : l₁.take n = l₂.take n) (hj : j < n) : l₁.getD j d = l₂.getD j d := by
  have h1 : (l₁.take n)[j]? = l₁[j]? := List.getElem?_take_of_lt hj
  have h2 : (l₂.take n)[j]? = l₂[j]? := List.getElem?_take_of_lt hj
  rw [List.getD_eq_getElem?_getD, List.getD_eq_getElem?_getD, ← h1, ← h2, h]

theorem DispatchLoop_congr (B : Build) (Ops1 Ops2 : List HASH_INTERFACE_UNIFIED_API) (p : Nat) :
    ∀ Fuel Index,
      (∀ j, Index ≤ j → j < Index + Fuel →
        Ops1.getD j ZeroInterface = Ops2.getD j ZeroInterface) →
      DispatchLoop B Ops1 p Fuel Index = DispatchLoop B Ops2 p Fuel Index := by
  intro Fuel
  induction Fuel with
  | zero => intro Index _; rfl
  | succ n ih =>
      intro Index h
      unfold DispatchLoop
      rw [h Index (Nat.le_refl _) (by omega),
        ih (Index + 1) (fun j hj1 hj2 => h j (by omega) (by omega))]

theorem Registry.Dispatch_same {α : Type} (B : Build) (R1 R2 : Registry) (p : Nat)
    (Op : HASH_INTERFACE_UNIFIED_API → α) (hE : R1.Entries = R2.Entries)
    (hC : R1.Count = R2.Count) (hM : R1.Mask = R2.Mask) (hinv : R1.Inv B) :
    R1.Dispatch B p EFI_SUCCESS Op = R2.Dispatch B p EFI_UNSUPPORTED Op := by
  have hget : ∀ j, j < R1.Count →
      R1.Ops.getD j ZeroInterface = R2.Ops.getD j ZeroInterface := by
    intro j hj
    unfold Registry.Entries at hE
    rw [← hC] at hE
    exact getD_eq_of_take_eq R1.Ops R2.Ops ZeroInterface R1.Count j hE hj
  have hloop : DispatchLoop B R1.Ops p R1.Count 0 = DispatchLoop B R2.Ops p R1.Count 0 :=
    DispatchLoop_congr B R1.Ops R2.Ops p R1.Count 0 (fun j _ hj => hget j (by omega))
  unfold Registry.Dispatch
  rw [← hC, ← hM, ← hloop]
  by_cases hg : R1.Count = 0 ∨ R1.Mask &&& p = 0
  · rw [if_pos hg, if_pos hg]
  · rw [if_neg hg, if_neg hg]
    cases hl : DispatchLoop B R1.Ops p R1.Count 0 with
    | none =>
        exact absurd hl (Registry.DispatchLoop_ne_none B R1 p hinv (fun hc => hg (Or.inr hc)))
    | some i =>
        have hi := (Registry.DispatchLoop_FirstMatch B R1 p i hl).1
        simp only [hget i hi]

theorem Registry.Register_same (B : Build) (Cap : Nat) (R1 R2 : Registry)
    (d : HASH_INTERFACE_UNIFIED_API) (hE : R1.Entries = R2.Entries) (hC : R1.Count = R2.Count)
    (hM : R1.Mask = R2.Mask) (h1 : R1.Count ≤ R1.Ops.length) (h2 : R2.Count ≤ R2.Ops.length)
    (hc1 : Cap ≤ R1.Ops.length) (hc2 : Cap ≤ R2.Ops.length) :
    (Registry.Register B Cap R1 d).2 = (Registry.Register B Cap R2 d).2 ∧
      (Registry.Register B Cap R1 d).1.Entries = (Registry.Register B Cap R2 d).1.Entries ∧
      (Registry.Register B Cap R1 d).1.Count = (Registry.Register B Cap R2 d).1.Count ∧
      (Registry.Register B Cap R1 d).1.Mask = (Registry.Register B Cap R2 d).1.Mask := by
  by_cases hfull : Cap ≤ R1.Count
  · rw [Registry.Register_full B Cap R1 d hfull,
      Registry.Register_full B Cap R2 d (by omega)]
    exact ⟨rfl, hE, hC, hM⟩
  · by_cases hd : d.HashGuid ∈ R1.Entries.map (fun E => E.HashGuid)
    · rw [Registry.Register_duplicate B Cap R1 d (by omega) h1 hd,
        Registry.Register_duplicate B Cap R2 d (by omega) h2 (by rw [← hE]; exact hd)]
      exact ⟨rfl, hE, hC, hM⟩
    · rw [Registry.Register_fresh B Cap R1 d (by omega) h1 hd,
        Registry.Register_fresh B Cap R2 d (by omega) h2 (by rw [← hE]; exact hd)]
      refine ⟨rfl, ?_, by simp only; omega, by simp only; rw [hM]⟩
      rw [Registry.Entries_after R1 d (by omega), Registry.Entries_after R2 d (by omega), hE]

theorem SameRegistry_Api {Ctx Digest : Type} (B : Build)
    (hB : B.HASH_COUNT = B.HASH_ALGO_COUNT) (Code : HASH_CODE Ctx Digest) (Caller : EFI_GUID)
    (S : Dxe.State) (Hobs : Pei.HobList) (C : ApiCall Ctx) (h : SameRegistry B Caller S Hobs) :
    (Dxe.Api B Code S C).2 = (Pei.Api B Code Caller true Hobs C).2 ∧
      SameRegistry B Caller (Dxe.Api B Code S C).1 (Pei.Api B Code Caller true Hobs C).1 := by
  obtain ⟨hlen, hinv, hhob, hE, hC, hM⟩ := h
  have hdisp : ∀ {α : Type} (Op : HASH_INTERFACE_UNIFIED_API → α) (p : Nat),
      S.Registry.Dispatch B p EFI_SUCCESS Op =
        (Pei.RecordOr B Hobs Caller).Registry.Dispatch B p EFI_UNSUPPORTED Op :=
    fun Op p => Registry.Dispatch_same B _ _ p Op hE hC hM hinv
  cases C with
  | Register d =>
      simp only [Dxe.Api, Pei.Api]
      obtain ⟨hlk, hst⟩ := Pei.Lookup_Register_room B Caller Hobs d Caller
      rw [if_pos rfl] at hlk
      have hrec : Pei.RecordOr B (Pei.RegisterHashApiLib B Caller true Hobs d).1 Caller =
          (Pei.RegisterInHob B (Pei.RecordOr B Hobs Caller) d).1 := by
        unfold Pei.RecordOr at hlk ⊢
        rw [hlk]; rfl
      obtain ⟨o1, o2, o3, _⟩ := hhob
      have hsame := Registry.Register_same B S.mHashOps.length S.Registry
        (Pei.RecordOr B Hobs Caller).Registry d hE hC hM hinv.1 o3 (Nat.le_refl _)
        (by simp only [Pei.HASH_INTERFACE_HOB.Registry]; omega)
      have hcap : S.mHashOps.length = B.HASH_COUNT := by omega
      rw [← Dxe.Register_Registry, ← Dxe.Register_status] at hsame
      rw [hcap, ← Pei.RegisterInHob_Registry, ← Pei.RegisterInHob_status] at hsame
      obtain ⟨s1, s2, s3, s4⟩ := hsame
      refine ⟨by rw [s1, hst], ?_⟩
      have hinv1 := Dxe.Step_StateInv B S (Dxe.Call.Register d) ⟨hlen, hinv⟩
      simp only [Dxe.Step] at hinv1
      refine ⟨hinv1.1, hinv1.2, ?_, ?_, ?_, ?_⟩
      · rw [hrec]
        exact Pei.RegisterInHob_Inv B (Nat.le_of_eq hB) _ d ⟨o1, o2, o3, ‹_›⟩
      · rw [hrec]; exact s2
      · rw [hrec]; exact s3
      · rw [hrec]; exact s4
  | Init t =>
      simp only [Dxe.Api, Pei.Api]
      refine ⟨?_, hlen, hinv, hhob, hE, hC, hM⟩
      rw [Dxe.HashApiInit_eq, Pei.HashApiInit_on_record, hdisp]
  | Update hd t data =>
      simp only [Dxe.Api, Pei.Api]
      refine ⟨?_, hlen, hinv, hhob, hE, hC, hM⟩
      rw [Dxe.HashApiUpdate_eq, Pei.HashApiUpdate_on_record, hdisp]
  | Final hd t =>
      simp only [Dxe.Api, Pei.Api]
      refine ⟨?_, hlen, hinv, hhob, hE, hC, hM⟩
      rw [Dxe.HashApiFinal_eq, Pei.HashApiFinal_on_record, hdisp]

theorem SameRegistry_Trace {Ctx Digest : Type} (B : Build)
    (hB : B.HASH_COUNT = B.HASH_ALGO_COUNT) (Code : HASH_CODE Ctx Digest) (Caller : EFI_GUID) :
    ∀ (Calls : List (ApiCall Ctx)) (S : Dxe.State) (Hobs : Pei.HobList),
      SameRegistry B Caller S Hobs →
      Dxe.Trace B Code S Calls = Pei.Trace B Code Caller true Hobs Calls := by
  intro Calls
  induction Calls with
  | nil => intro S Hobs _; rfl
  | cons C Rest ih =>
      intro S Hobs h
      obtain ⟨h1, h2⟩ := SameRegistry_Api B hB Code Caller S Hobs C h
      simp only [Dxe.Trace, Pei.Trace]
      rw [h1, ih _ _ h2]

theorem SameRegistry_Constructors (B : Build) (hB : B.HASH_COUNT ≤ B.HASH_ALGO_COUNT)
    (S0 : Dxe.State) (hS0 : S0.mHashOps.length = B.HASH_ALGO_COUNT) (Before : List Pei.Call)
    (Caller : EFI_GUID) (HobRoom : Bool)
    (hs : (Pei.BaseHashLibApiPeiConstructor B Caller HobRoom (Pei.Run B [] Before).1).2 =
      EFI_SUCCESS) :
    SameRegistry B Caller (Dxe.BaseHashLibApiDxeConstructor S0).1
      (Pei.BaseHashLibApiPeiConstructor B Caller HobRoom (Pei.Run B [] Before).1).1 := by
  have hinv := Pei.Reachable_Inv B hB Before
  generalize (Pei.Run B [] Before).1 = Hobs at hinv hs ⊢
  have hinv1 := Pei.Constructor_Inv B Caller HobRoom Hobs hinv
  have hrec : (Pei.RecordOr B (Pei.BaseHashLibApiPeiConstructor B Caller HobRoom Hobs).1
        Caller).HashInterfaceCount = 0 ∧
      (Pei.RecordOr B (Pei.BaseHashLibApiPeiConstructor B Caller HobRoom Hobs).1
        Caller).SupportedHashMask = 0 := by
    unfold Pei.RecordOr
    rcases Pei.Constructor_cases B Caller HobRoom Hobs with ⟨he, _, _⟩ | ⟨Hobs1, _, h2⟩
    · rw [he] at hs; cases hs
    · rcases h2 with ⟨hn, he⟩ | ⟨P, hP, he⟩
      · rw [he, (Pei.Lookup_none_iff Hobs1 Caller).mpr hn]
        exact ⟨rfl, rfl⟩
      · have hset := Pei.Lookup_set Hobs1 P (Pei.ClearHob (Hobs1.getD P Pei.NoHob)) Caller
          Caller hP (Pei.InternalGet_some Hobs1 Caller P hP).2
        rw [if_pos rfl] at hset
        rw [he]
        simp only
        rw [hset]
        exact ⟨rfl, rfl⟩
  obtain ⟨r1, r2⟩ := hrec
  refine ⟨hS0, Dxe.Constructor_RegistryInv B S0, Pei.RecordOr_Inv B _ Caller hinv1, ?_, ?_, ?_⟩
  · simp [Registry.Entries, Dxe.State.Registry, Dxe.BaseHashLibApiDxeConstructor,
      Pei.HASH_INTERFACE_HOB.Registry, r1]
  · rw [r1]; rfl
  · rw [r2]; rfl

/-- C14. The two variants are the same component: after the constructors (the
persisted one having returned `EFI_SUCCESS`, in any state other modules have
left), every sequence of `RegisterHashApiLib`, `HashApiInit`, `HashApiUpdate` and
`HashApiFinal` calls by one module gives, call by call, the same status, the
same entry invoked and the same output of the backend in the static variant
and in the persisted variant, where the module's record exists or is created by
its first registration (`BuildGuidDataHob` has room).  Taken in a build whose
`HASH_COUNT` is the capacity `HASH_ALGO_COUNT` of the arrays. -/
theorem C14_variants_agree {Ctx Digest : Type} (B : Build)
    (hB : B.HASH_COUNT = B.HASH_ALGO_COUNT) (Code : HASH_CODE Ctx Digest) (S0 : Dxe.State)
    (hS0 : S0.mHashOps.length = B.HASH_ALGO_COUNT) (PeiBefore : List Pei.Call)
    (Caller : EFI_GUID) (HobRoom : Bool)
    (hs : (Pei.BaseHashLibApiPeiConstructor B Caller HobRoom (Pei.Run B [] PeiBefore).1).2 =
      EFI_SUCCESS)
    (Calls : List (ApiCall Ctx)) :
    Dxe.Trace B Code (Dxe.BaseHashLibApiDxeConstructor S0).1 Calls =
      Pei.Trace B Code Caller true
        (Pei.BaseHashLibApiPeiConstructor B Caller HobRoom (Pei.Run B [] PeiBefore).1).1
        Calls :=
  SameRegistry_Trace B hB Code Caller Calls _ _
    (SameRegistry_Constructors B (Nat.le_of_eq hB) S0 hS0 PeiBefore Caller HobRoom hs)

/-- C14 at a concrete input: module `7` starts after module `8` has registered a
backend of its own; it asks for policy `1`, registers the backend of mask `1`
twice, then runs a whole hash of one byte and asks for policy `2`. -/
theorem C14_variants_agree_witness :
    Dxe.Trace Sample.Build5 Sample.Code
        (Dxe.BaseHashLibApiDxeConstructor (Dxe.Load Sample.Build5)).1
        [ApiCall.Init 1, ApiCall.Register Sample.Sha1, ApiCall.Register Sample.Sha1,
          ApiCall.Init 1, ApiCall.Update [1000] 1 [97], ApiCall.Final [1000, 1001, 97] 1,
          ApiCall.Init 2] =
      Pei.Trace Sample.Build5 Sample.Code 7 true
        (Pei.BaseHashLibApiPeiConstructor Sample.Build5 7 true
          (Pei.Run Sample.Build5 []
            [Pei.Call.Constructor 8 true, Pei.Call.Register 8 true Sample.Sha256]).1).1
        [ApiCall.Init 1, ApiCall.Register Sample.Sha1, ApiCall.Register Sample.Sha1,
          ApiCall.Init 1, ApiCall.Update [1000] 1 [97], ApiCall.Final [1000, 1001, 97] 1,
          ApiCall.Init 2] :=
  C14_variants_agree Sample.Build5 (by decide) Sample.Code (Dxe.Load Sample.Build5) (by decide)
    [Pei.Call.Constructor 8 true, Pei.Call.Register 8 true Sample.Sha256] 7 true (by decide)
    [ApiCall.Init 1, ApiCall.Register Sample.Sha1, ApiCall.Register Sample.Sha1,
      ApiCall.Init 1, ApiCall.Update [1000] 1 [97], ApiCall.Final [1000, 1001, 97] 1,
      ApiCall.Init 2]

/-! ## C21: registrations do not move the selection -/

theorem Registry.Extends_refl (R : Registry) : R.Extends R :=
  ⟨Nat.le_refl _, fun _ _ => rfl, fun _ h => h⟩

theorem Registry.Extends_trans (R R1 R2 : Registry) (h1 : R.Extends R1) (h2 : R1.Extends R2) :
    R.Extends R2 := by
  obtain ⟨a1, a2, a3⟩ := h1
  obtain ⟨b1, b2, b3⟩ := h2
  refine ⟨by omega, ?_, fun p hp => b3 p (a3 p hp)⟩
  intro j hj
  rw [b2 j (by omega), a2 j hj]

theorem Registry.Register_Extends (B : Build) (Cap : Nat) (R : Registry)
    (d : HASH_INTERFACE_UNIFIED_API) : R.Extends (Registry.Register B Cap R d).1 := by
  unfold Registry.Register
  by_cases h1 : R.Count ≥ Cap
  · rw [if_pos h1]; exact Registry.Extends_refl R
  · rw [if_neg h1]
    by_cases h2 : DuplicateLoop R.Ops d.HashGuid R.Count 0 = true
    · rw [if_pos h2]; exact Registry.Extends_refl R
    · rw [if_neg h2]
      refine ⟨by simp only; omega, ?_, ?_⟩
      · intro j hj
        have hne : R.Count ≠ j := by omega
        simp [List.getElem?_set_ne hne]
      · intro p hp hc
        exact hp ((lor_land_eq_zero _ _ p).mp hc).1

theorem Registry.Dispatch_Extends {α : Type} (B : Build) (R R1 : Registry) (p : Nat)
    (N N1 : EFI_STATUS) (Op : HASH_INTERFACE_UNIFIED_API → α) (i : Nat) (hx : R.Extends R1)
    (h : (R.Dispatch B p N Op).Invoked = some i) :
    (R.FirstMatch B p i ∧ R1.FirstMatch B p i) ∧
      R.Dispatch B p N Op =
        { Status := EFI_SUCCESS, Invoked := some i,
          Out := some (Op (R.Ops.getD i ZeroInterface)) } ∧
      R1.Dispatch B p N1 Op =
        { Status := EFI_SUCCESS, Invoked := some i,
          Out := some (Op (R.Ops.getD i ZeroInterface)) } := by
  obtain ⟨x1, x2, x3⟩ := hx
  unfold Registry.Dispatch at h
  by_cases hg : R.Count = 0 ∨ R.Mask &&& p = 0
  · rw [if_pos hg] at h; cases h
  · rw [if_neg hg] at h
    cases hl : DispatchLoop B R.Ops p R.Count 0 with
    | none => rw [hl] at h; cases h
    | some k =>
        rw [hl] at h
        have hk : k = i := by simpa using h
        subst hk
        obtain ⟨f1, f2, f3⟩ := Registry.DispatchLoop_FirstMatch B R p k hl
        have hfm : R1.FirstMatch B p k := by
          refine ⟨by omega, by rw [x2 k f1]; exact f2, ?_⟩
          intro j hj
          rw [x2 j (by omega)]
          exact f3 j hj
        have hl1 := Registry.DispatchLoop_of_FirstMatch B R1 p k hfm
        have hg1 : ¬ (R1.Count = 0 ∨ R1.Mask &&& p = 0) := by
          intro hc
          rcases hc with hc | hc
          · omega
          · exact x3 p (fun h0 => hg (Or.inr h0)) hc
        refine ⟨⟨⟨f1, f2, f3⟩, hfm⟩, ?_, ?_⟩
        · unfold Registry.Dispatch
          rw [if_neg hg, hl]
        · unfold Registry.Dispatch
          rw [if_neg hg1, hl1]
          simp only [x2 k f1]

theorem Dxe.Run_Extends_globals (B : Build) :
    ∀ (Later : List HASH_INTERFACE_UNIFIED_API) (S : Dxe.State),
      S.Registry.Extends (Dxe.Run B S (Later.map Dxe.Call.Register)).1.Registry := by
  intro Later
  induction Later with
  | nil => intro S; exact Registry.Extends_refl _
  | cons d Rest ih =>
      intro S
      simp only [List.map_cons, Dxe.Run, Dxe.Step]
      refine Registry.Extends_trans _ _ _ ?_ (ih _)
      rw [Dxe.Register_Registry]
      exact Registry.Register_Extends B _ _ d

theorem Pei.Step_Extends (B : Build) (Hobs : Pei.HobList) (C : Pei.Call) (Caller : EFI_GUID)
    (hC : ∀ HobRoom, C ≠ Pei.Call.Constructor Caller HobRoom) :
    (Pei.RecordOr B Hobs Caller).Registry.Extends
      (Pei.RecordOr B (Pei.Step B Hobs C).1 Caller).Registry := by
  cases C with
  | Constructor c HobRoom =>
      have hne : Caller ≠ c := by
        rintro rfl
        exact hC HobRoom rfl
      simp only [Pei.Step]
      rw [Pei.RecordOr_Constructor_other B c HobRoom Hobs Caller hne]
      exact Registry.Extends_refl _
  | Register c HobRoom d =>
      simp only [Pei.Step]
      by_cases hne : Caller = c
      · subst hne
        rcases Pei.RecordOr_Register_self B Caller HobRoom Hobs d with ⟨he, _, _⟩ | ⟨hl, _⟩
        · rw [he]; exact Registry.Extends_refl _
        · have hrec : Pei.RecordOr B (Pei.RegisterHashApiLib B Caller HobRoom Hobs d).1 Caller =
              (Pei.RegisterInHob B (Pei.RecordOr B Hobs Caller) d).1 := by
            unfold Pei.RecordOr at hl ⊢
            rw [hl]; rfl
          rw [hrec, Pei.RegisterInHob_Registry]
          exact Registry.Register_Extends B _ _ d
      · rw [Pei.RecordOr_Register_other B c HobRoom Hobs d Caller hne]
        exact Registry.Extends_refl _

theorem Pei.Run_Extends_record (B : Build) (Caller : EFI_GUID) :
    ∀ (Later : List Pei.Call) (Hobs : Pei.HobList),
      (∀ HobRoom, Pei.Call.Constructor Caller HobRoom ∉ Later) →
      (Pei.RecordOr B Hobs Caller).Registry.Extends
        (Pei.RecordOr B (Pei.Run B Hobs Later).1 Caller).Registry := by
  intro Later
  induction Later with
  | nil => intro Hobs _; exact Registry.Extends_refl _
  | cons C Rest ih =>
      intro Hobs hL
      simp only [Pei.Run]
      refine Registry.Extends_trans _ _ _ ?_
        (ih _ (fun HobRoom hm => hL HobRoom (List.mem_cons_of_mem _ hm)))
      apply Pei.Step_Extends B Hobs C Caller
      intro HobRoom he
      exact hL HobRoom (by rw [he]; exact List.mem_cons_self _ _)

theorem Registry.Selection_Extends {α β γ : Type} (B : Build) (R R1 : Registry) (p : Nat)
    (N N1 : EFI_STATUS) (Op0 : HASH_INTERFACE_UNIFIED_API → α)
    (Op1 : HASH_INTERFACE_UNIFIED_API → β) (Op2 : HASH_INTERFACE_UNIFIED_API → γ) (i : Nat)
    (hx : R.Extends R1) (h : (R.Dispatch B p N Op0).Invoked = some i) :
    R1.Ops.getD i ZeroInterface = R.Ops.getD i ZeroInterface ∧
      R1.FirstMatch B p i ∧
      R1.Dispatch B p N1 Op0 = R.Dispatch B p N Op0 ∧
      R1.Dispatch B p N1 Op1 =
        { Status := EFI_SUCCESS, Invoked := some i,
          Out := some (Op1 (R.Ops.getD i ZeroInterface)) } ∧
      R1.Dispatch B p N1 Op2 =
        { Status := EFI_SUCCESS, Invoked := some i,
          Out := some (Op2 (R.Ops.getD i ZeroInterface)) } := by
  obtain ⟨⟨f0, f1⟩, e0, e1⟩ := Registry.Dispatch_Extends B R R1 p N N1 Op0 i hx h
  have h1 : (R.Dispatch B p N Op1).Invoked = some i :=
    (Registry.Dispatch_Status_Invoked B R p N Op1 Op0).2.trans h
  have h2 : (R.Dispatch B p N Op2).Invoked = some i :=
    (Registry.Dispatch_Status_Invoked B R p N Op2 Op0).2.trans h
  exact ⟨hx.2.1 i f0.1, f1, e1.trans e0.symm,
    (Registry.Dispatch_Extends B R R1 p N N1 Op1 i hx h1).2.2,
    (Registry.Dispatch_Extends B R R1 p N N1 Op2 i hx h2).2.2⟩

/-- C21: selection is stable under registration. In BaseHashLibDxe.c, if `HashApiInit`
selects the entry at index `i` for a hash type in the state `S`, then after any
further sequence of `RegisterHashApiLib` calls, whatever each returns, the entry at
index `i` is the same descriptor, it is the first match of the same effective
policy, and `HashApiInit`, `HashApiUpdate` and `HashApiFinal` all run the operation
of that entry. In BaseHashLibPei.c the same holds of a calling module after any
further sequence of calls of any modules in which that module does not run its
constructor again. -/
theorem C21_selection_stable {Ctx Digest : Type} (B : Build) (Code : HASH_CODE Ctx Digest)
    (S : Dxe.State) (DxeLater : List HASH_INTERFACE_UNIFIED_API)
    (Caller : EFI_GUID) (Hobs : Pei.HobList) (PeiLater : List Pei.Call)
    (hLater : ∀ HobRoom, Pei.Call.Constructor Caller HobRoom ∉ PeiLater)
    (HashHandle : Ctx) (HashType : Nat) (DataToHash : List Nat) (i : Nat) :
    ((Dxe.HashApiInit B Code S HashType).Invoked = some i →
      (Dxe.Run B S (DxeLater.map Dxe.Call.Register)).1.mHashOps.getD i ZeroInterface =
          S.mHashOps.getD i ZeroInterface ∧
        (Dxe.Run B S (DxeLater.map Dxe.Call.Register)).1.Registry.FirstMatch B
          (EffectivePolicy B HashType) i ∧
        Dxe.HashApiInit B Code (Dxe.Run B S (DxeLater.map Dxe.Call.Register)).1 HashType =
          Dxe.HashApiInit B Code S HashType ∧
        Dxe.HashApiUpdate B Code (Dxe.Run B S (DxeLater.map Dxe.Call.Register)).1 HashHandle
            HashType DataToHash =
          { Status := EFI_SUCCESS, Invoked := some i,
            Out := some (Code.Update (S.mHashOps.getD i ZeroInterface).HashUpdate HashHandle
              DataToHash) } ∧
        Dxe.HashApiFinal B Code (Dxe.Run B S (DxeLater.map Dxe.Call.Register)).1 HashHandle
            HashType =
          { Status := EFI_SUCCESS, Invoked := some i,
            Out := some (Code.Final (S.mHashOps.getD i ZeroInterface).HashFinal HashHandle) }) ∧
    ((Pei.HashApiInit B Code Caller Hobs HashType).Invoked = some i →
      (Pei.RecordOr B (Pei.Run B Hobs PeiLater).1 Caller).HashInterface.getD i ZeroInterface =
          (Pei.RecordOr B Hobs Caller).HashInterface.getD i ZeroInterface ∧
        (Pei.RecordOr B (Pei.Run B Hobs PeiLater).1 Caller).Registry.FirstMatch B
          (EffectivePolicy B HashType) i ∧
        Pei.HashApiInit B Code Caller (Pei.Run B Hobs PeiLater).1 HashType =
          Pei.HashApiInit B Code Caller Hobs HashType ∧
        Pei.HashApiUpdate B Code Caller (Pei.Run B Hobs PeiLater).1 HashHandle HashType
            DataToHash =
          { Status := EFI_SUCCESS, Invoked := some i,
            Out := some (Code.Update
              ((Pei.RecordOr B Hobs Caller).HashInterface.getD i ZeroInterface).HashUpdate
              HashHandle DataToHash) } ∧
        Pei.HashApiFinal B Code Caller (Pei.Run B Hobs PeiLater).1 HashHandle HashType =
          { Status := EFI_SUCCESS, Invoked := some i,
            Out := some (Code.Final
              ((Pei.RecordOr B Hobs Caller).HashInterface.getD i ZeroInterface).HashFinal
              HashHandle) }) := by
  constructor
  · intro h
    rw [Dxe.HashApiInit_eq] at h
    rw [Dxe.HashApiInit_eq, Dxe.HashApiInit_eq, Dxe.HashApiUpdate_eq, Dxe.HashApiFinal_eq]
    exact Registry.Selection_Extends B _ _ _ EFI_SUCCESS EFI_SUCCESS _ _ _ i
      (Dxe.Run_Extends_globals B DxeLater S) h
  · intro h
    rw [Pei.HashApiInit_on_record] at h
    rw [Pei.HashApiInit_on_record, Pei.HashApiInit_on_record, Pei.HashApiUpdate_on_record,
      Pei.HashApiFinal_on_record]
    exact Registry.Selection_Extends B _ _ _ EFI_UNSUPPORTED EFI_UNSUPPORTED _ _ _ i
      (Pei.Run_Extends_record B Caller PeiLater Hobs hLater) h

/-- C21 at a concrete input: two backends registered in the order mask `1`, mask `2`
and the policy `2`, which selects index `1`; after three more registrations in
BaseHashLibDxe.c (one new, two duplicates), and after registrations of this and of
another module and a constructor run of the other module in BaseHashLibPei.c,
`HashApiFinal` still runs the `HASH_FINAL` at address `2002`. -/
theorem C21_selection_stable_witness :
    (∀ HobRoom, Pei.Call.Constructor 7 HobRoom ∉
        [Pei.Call.Register 7 true Sample.Other, Pei.Call.Register 8 true Sample.Sha256,
          Pei.Call.Constructor 8 true, Pei.Call.Register 7 false Sample.Sha1]) ∧
      (Dxe.HashApiInit Sample.Build5 Sample.Code
        (Dxe.Run Sample.Build5 (Dxe.Load Sample.Build5)
        [Dxe.Call.Constructor, Dxe.Call.Register Sample.Sha1, Dxe.Call.Register Sample.Sha256]).1 2).Invoked = some 1 ∧
      Dxe.HashApiFinal Sample.Build5 Sample.Code
          (Dxe.Run Sample.Build5
            (Dxe.Run Sample.Build5 (Dxe.Load Sample.Build5)
        [Dxe.Call.Constructor, Dxe.Call.Register Sample.Sha1, Dxe.Call.Register Sample.Sha256]).1
            (List.map Dxe.Call.Register [Sample.Other, Sample.Sha1, Sample.Sha256])).1 [2000] 2 =
        { Status := EFI_SUCCESS, Invoked := some 1, Out := some 4002 } ∧
      (Pei.HashApiInit Sample.Build5 Sample.Code 7
        (Pei.Run Sample.Build5 []
        [Pei.Call.Constructor 7 true, Pei.Call.Register 7 true Sample.Sha1,
          Pei.Call.Register 7 true Sample.Sha256]).1 2).Invoked = some 1 ∧
      Pei.HashApiFinal Sample.Build5 Sample.Code 7
          (Pei.Run Sample.Build5
            (Pei.Run Sample.Build5 []
        [Pei.Call.Constructor 7 true, Pei.Call.Register 7 true Sample.Sha1,
          Pei.Call.Register 7 true Sample.Sha256]).1
            [Pei.Call.Register 7 true Sample.Other, Pei.Call.Register 8 true Sample.Sha256,
          Pei.Call.Constructor 8 true, Pei.Call.Register 7 false Sample.Sha1]).1 [2000] 2 =
        { Status := EFI_SUCCESS, Invoked := some 1, Out := some 4002 } :=
  ⟨by decide, by decide,
    ((C21_selection_stable Sample.Build5 Sample.Code
      (Dxe.Run Sample.Build5 (Dxe.Load Sample.Build5)
        [Dxe.Call.Constructor, Dxe.Call.Register Sample.Sha1, Dxe.Call.Register Sample.Sha256]).1
      [Sample.Other, Sample.Sha1, Sample.Sha256] 7
      (Pei.Run Sample.Build5 []
        [Pei.Call.Constructor 7 true, Pei.Call.Register 7 true Sample.Sha1,
          Pei.Call.Register 7 true Sample.Sha256]).1
      [Pei.Call.Register 7 true Sample.Other, Pei.Call.Register 8 true Sample.Sha256,
          Pei.Call.Constructor 8 true, Pei.Call.Register 7 false Sample.Sha1]
      (by decide) [2000] 2 [] 1).1 (by decide)).2.2.2.2,
    by decide,
    ((C21_selection_stable Sample.Build5 Sample.Code
      (Dxe.Run Sample.Build5 (Dxe.Load Sample.Build5)
        [Dxe.Call.Constructor, Dxe.Call.Register Sample.Sha1, Dxe.Call.Register Sample.Sha256]).1
      [Sample.Other, Sample.Sha1, Sample.Sha256] 7
      (Pei.Run Sample.Build5 []
        [Pei.Call.Constructor 7 true, Pei.Call.Register 7 true Sample.Sha1,
          Pei.Call.Register 7 true Sample.Sha256]).1
      [Pei.Call.Register 7 true Sample.Other, Pei.Call.Register 8 true Sample.Sha256,
          Pei.Call.Constructor 8 true, Pei.Call.Register 7 false Sample.Sha1]
      (by decide) [2000] 2 [] 1).2 (by decide)).2.2.2.2⟩

/-! ## C22: a failed registration changes nothing -/

/-- C22: failed registration is atomic. Whenever `RegisterHashApiLib` returns
`EFI_OUT_OF_RESOURCES` or `EFI_ALREADY_STARTED`, in BaseHashLibDxe.c the module
globals are what they were, so the count, the counted entries and the union mask
are the same; in BaseHashLibPei.c, for a caller whose record existed before the
call, the HOB list is what it was and the record of the caller in it is the same
record, with the same count, the same counted entries and the same mask. -/
theorem C22_failed_registration_atomic (B : Build) (S : Dxe.State) (Caller : EFI_GUID)
    (HobRoom : Bool) (Hobs : Pei.HobList) (Hob : Pei.HASH_INTERFACE_HOB)
    (HashInterface : HASH_INTERFACE_UNIFIED_API)
    (hHob : Pei.Lookup Hobs Caller = some Hob) :
    (((Dxe.RegisterHashApiLib B S HashInterface).2 = EFI_OUT_OF_RESOURCES ∨
        (Dxe.RegisterHashApiLib B S HashInterface).2 = EFI_ALREADY_STARTED) →
      (Dxe.RegisterHashApiLib B S HashInterface).1 = S ∧
        (Dxe.RegisterHashApiLib B S HashInterface).1.mBaseHashInterfaceCount =
          S.mBaseHashInterfaceCount ∧
        (Dxe.RegisterHashApiLib B S HashInterface).1.Registry.Entries = S.Registry.Entries ∧
        (Dxe.RegisterHashApiLib B S HashInterface).1.mCurrentHashMask = S.mCurrentHashMask) ∧
    (((Pei.RegisterHashApiLib B Caller HobRoom Hobs HashInterface).2 = EFI_OUT_OF_RESOURCES ∨
        (Pei.RegisterHashApiLib B Caller HobRoom Hobs HashInterface).2 = EFI_ALREADY_STARTED) →
      (Pei.RegisterHashApiLib B Caller HobRoom Hobs HashInterface).1 = Hobs ∧
        ∃ Hob1, Pei.Lookup (Pei.RegisterHashApiLib B Caller HobRoom Hobs HashInterface).1 Caller =
            some Hob1 ∧
          Hob1 = Hob ∧
          Hob1.HashInterfaceCount = Hob.HashInterfaceCount ∧
          Hob1.Registry.Entries = Hob.Registry.Entries ∧
          Hob1.SupportedHashMask = Hob.SupportedHashMask) := by
  constructor
  · intro h
    have hS : (Dxe.RegisterHashApiLib B S HashInterface).1 = S := by
      apply Dxe.Register_fail_unchanged
      rcases h with h | h <;> rw [h] <;> decide
    rw [hS]
    exact ⟨rfl, rfl, rfl, rfl⟩
  · intro h
    have hS : (Pei.RegisterHashApiLib B Caller HobRoom Hobs HashInterface).1 = Hobs := by
      apply Pei.Register_fail_same_list B Caller HobRoom Hobs HashInterface Hob hHob
      rcases h with h | h <;> rw [h] <;> decide
    rw [hS]
    exact ⟨rfl, Hob, hHob, rfl, rfl, rfl, rfl⟩

/-- C22 at a concrete input: the backend with mask `1` is registered a second
time; both variants return `EFI_ALREADY_STARTED` and leave their registry as it
was. -/
theorem C22_failed_registration_atomic_witness :
    Pei.Lookup
        (Pei.Run Sample.Build5 []
        [Pei.Call.Constructor 7 true, Pei.Call.Register 7 true Sample.Sha1]).1 7 =
      some (Pei.RecordOr Sample.Build5
        (Pei.Run Sample.Build5 []
        [Pei.Call.Constructor 7 true, Pei.Call.Register 7 true Sample.Sha1]).1 7) ∧
      (Dxe.RegisterHashApiLib Sample.Build5
        (Dxe.Run Sample.Build5 (Dxe.Load Sample.Build5)
        [Dxe.Call.Constructor, Dxe.Call.Register Sample.Sha1]).1 Sample.Sha1).2 = EFI_ALREADY_STARTED ∧
      (Dxe.RegisterHashApiLib Sample.Build5
        (Dxe.Run Sample.Build5 (Dxe.Load Sample.Build5)
        [Dxe.Call.Constructor, Dxe.Call.Register Sample.Sha1]).1 Sample.Sha1).1 =
        (Dxe.Run Sample.Build5 (Dxe.Load Sample.Build5)
        [Dxe.Call.Constructor, Dxe.Call.Register Sample.Sha1]).1 ∧
      (Pei.RegisterHashApiLib Sample.Build5 7 true
        (Pei.Run Sample.Build5 []
        [Pei.Call.Constructor 7 true, Pei.Call.Register 7 true Sample.Sha1]).1 Sample.Sha1).2 = EFI_ALREADY_STARTED ∧
      (Pei.RegisterHashApiLib Sample.Build5 7 true
        (Pei.Run Sample.Build5 []
        [Pei.Call.Constructor 7 true, Pei.Call.Register 7 true Sample.Sha1]).1 Sample.Sha1).1 =
        (Pei.Run Sample.Build5 []
        [Pei.Call.Constructor 7 true, Pei.Call.Register 7 true Sample.Sha1]).1 :=
  ⟨by decide, by decide,
    ((C22_failed_registration_atomic Sample.Build5
      (Dxe.Run Sample.Build5 (Dxe.Load Sample.Build5)
        [Dxe.Call.Constructor, Dxe.Call.Register Sample.Sha1]).1 7 true
      (Pei.Run Sample.Build5 []
        [Pei.Call.Constructor 7 true, Pei.Call.Register 7 true Sample.Sha1]).1
      (Pei.RecordOr Sample.Build5
        (Pei.Run Sample.Build5 []
        [Pei.Call.Constructor 7 true, Pei.Call.Register 7 true Sample.Sha1]).1 7)
      Sample.Sha1 (by decide)).1 (Or.inr (by decide))).1,
    by decide,
    ((C22_failed_registration_atomic Sample.Build5
      (Dxe.Run Sample.Build5 (Dxe.Load Sample.Build5)
        [Dxe.Call.Constructor, Dxe.Call.Register Sample.Sha1]).1 7 true
      (Pei.Run Sample.Build5 []
        [Pei.Call.Constructor 7 true, Pei.Call.Register 7 true Sample.Sha1]).1
      (Pei.RecordOr Sample.Build5
        (Pei.Run Sample.Build5 []
        [Pei.Call.Constructor 7 true, Pei.Call.Register 7 true Sample.Sha1]).1 7)
      Sample.Sha1 (by decide)).2 (Or.inr (by decide))).1⟩

/-! ## C23: a descriptor with a GUID outside the table -/

theorem Registry.Register_not_unsupported (B : Build) (Cap : Nat) (R : Registry)
    (d : HASH_INTERFACE_UNIFIED_API) : (Registry.Register B Cap R d).2 ≠ EFI_UNSUPPORTED := by
  unfold Registry.Register
  by_cases h1 : R.Count ≥ Cap
  · simp [h1]
  · by_cases h2 : DuplicateLoop R.Ops d.HashGuid R.Count 0 = true
    · simp [h1, h2]
    · simp [h1, h2]

theorem Registry.Dispatch_not_maskless {α : Type} (B : Build) (R : Registry) (p : Nat)
    (N : EFI_STATUS) (Op : HASH_INTERFACE_UNIFIED_API → α) (i : Nat)
    (hz : GetApiHashMaskFromAlgo B (R.Ops.getD i ZeroInterface).HashGuid = 0) :
    (R.Dispatch B p N Op).Invoked ≠ some i := by
  intro h
  have hf := (Registry.Dispatch_Extends B R R p N N Op i (Registry.Extends_refl R) h).1.1
  apply hf.2.1
  rw [hz]
  exact Nat.zero_and p

theorem DuplicateLoop_false_of_ne (Ops : List HASH_INTERFACE_UNIFIED_API) (g : EFI_GUID)
    (n : Nat) (h : ∀ j, j < n → (Ops.getD j ZeroInterface).HashGuid ≠ g) :
    ¬ DuplicateLoop Ops g n 0 = true := by
  intro hc
  obtain ⟨j, _, h2, h3⟩ := (DuplicateLoop_iff Ops g n 0).mp hc
  exact h j (by omega) h3

theorem Pei.RegisterInHob_maskless (B : Build) (Hob : Pei.HASH_INTERFACE_HOB)
    (d : HASH_INTERFACE_UNIFIED_API) (hMask : GetApiHashMaskFromAlgo B d.HashGuid = 0)
    (hCap : Hob.HashInterfaceCount < B.HASH_COUNT)
    (hDup : ∀ j, j < Hob.HashInterfaceCount →
      (Hob.HashInterface.getD j ZeroInterface).HashGuid ≠ d.HashGuid) :
    Pei.RegisterInHob B Hob d =
      ({ Identifier := Hob.Identifier
         HashInterfaceCount := Hob.HashInterfaceCount + 1
         HashInterface := Hob.HashInterface.set Hob.HashInterfaceCount d
         SupportedHashMask := Hob.SupportedHashMask }, EFI_SUCCESS) := by
  unfold Pei.RegisterInHob
  have h1 : ¬ Hob.HashInterfaceCount ≥ B.HASH_COUNT := by omega
  have h2 := DuplicateLoop_false_of_ne Hob.HashInterface d.HashGuid Hob.HashInterfaceCount hDup
  simp only [if_neg h1, if_neg h2, hMask, Nat.or_zero]

/-- C23: registering an algorithm unknown to the policy table. For a descriptor whose
GUID `GetApiHashMaskFromAlgo` maps to `0`: with a free slot and no counted entry of
the same GUID, `RegisterHashApiLib` returns `EFI_SUCCESS`, stores the descriptor in
the slot at the old count, adds one to the count and leaves the union mask as it
was, in BaseHashLibDxe.c and, for a caller whose record exists or can be created,
in BaseHashLibPei.c; `RegisterHashApiLib` returns `EFI_UNSUPPORTED` on no input; and
in no state does `HashApiInit`, `HashApiUpdate` or `HashApiFinal` select, for any
hash type, a slot that holds a descriptor of that GUID. -/
theorem C23_maskless_descriptor {Ctx Digest : Type} (B : Build) (Code : HASH_CODE Ctx Digest)
    (S : Dxe.State) (Caller : EFI_GUID) (HobRoom : Bool) (Hobs : Pei.HobList)
    (HashInterface : HASH_INTERFACE_UNIFIED_API)
    (hMask : GetApiHashMaskFromAlgo B HashInterface.HashGuid = 0) :
    (S.mBaseHashInterfaceCount < S.mHashOps.length →
      (∀ j, j < S.mBaseHashInterfaceCount →
        (S.mHashOps.getD j ZeroInterface).HashGuid ≠ HashInterface.HashGuid) →
      Dxe.RegisterHashApiLib B S HashInterface =
          ({ mHashOps := S.mHashOps.set S.mBaseHashInterfaceCount HashInterface
             mBaseHashInterfaceCount := S.mBaseHashInterfaceCount + 1
             mCurrentHashMask := S.mCurrentHashMask }, EFI_SUCCESS) ∧
        (Dxe.RegisterHashApiLib B S HashInterface).1.mHashOps.getD S.mBaseHashInterfaceCount
            ZeroInterface = HashInterface) ∧
    ((Pei.Lookup Hobs Caller ≠ none ∨ HobRoom = true) →
      (Pei.RecordOr B Hobs Caller).HashInterfaceCount < B.HASH_COUNT →
      (Pei.RecordOr B Hobs Caller).HashInterfaceCount <
        (Pei.RecordOr B Hobs Caller).HashInterface.length →
      (∀ j, j < (Pei.RecordOr B Hobs Caller).HashInterfaceCount →
        ((Pei.RecordOr B Hobs Caller).HashInterface.getD j ZeroInterface).HashGuid ≠
          HashInterface.HashGuid) →
      (Pei.RegisterHashApiLib B Caller HobRoom Hobs HashInterface).2 = EFI_SUCCESS ∧
        Pei.Lookup (Pei.RegisterHashApiLib B Caller HobRoom Hobs HashInterface).1 Caller =
          some { Identifier := (Pei.RecordOr B Hobs Caller).Identifier
                 HashInterfaceCount := (Pei.RecordOr B Hobs Caller).HashInterfaceCount + 1
                 HashInterface := (Pei.RecordOr B Hobs Caller).HashInterface.set
                   (Pei.RecordOr B Hobs Caller).HashInterfaceCount HashInterface
                 SupportedHashMask := (Pei.RecordOr B Hobs Caller).SupportedHashMask } ∧
        (Pei.RecordOr B (Pei.RegisterHashApiLib B Caller HobRoom Hobs HashInterface).1
            Caller).HashInterface.getD (Pei.RecordOr B Hobs Caller).HashInterfaceCount
            ZeroInterface = HashInterface) ∧
    (Dxe.RegisterHashApiLib B S HashInterface).2 ≠ EFI_UNSUPPORTED ∧
    (Pei.RegisterHashApiLib B Caller HobRoom Hobs HashInterface).2 ≠ EFI_UNSUPPORTED ∧
    (∀ (S1 : Dxe.State) (HashHandle : Ctx) (HashType : Nat) (DataToHash : List Nat) (i : Nat),
      (S1.mHashOps.getD i ZeroInterface).HashGuid = HashInterface.HashGuid →
      (Dxe.HashApiInit B Code S1 HashType).Invoked ≠ some i ∧
        (Dxe.HashApiUpdate B Code S1 HashHandle HashType DataToHash).Invoked ≠ some i ∧
        (Dxe.HashApiFinal B Code S1 HashHandle HashType).Invoked ≠ some i) ∧
    (∀ (Hobs1 : Pei.HobList) (Caller1 : EFI_GUID) (HashHandle : Ctx) (HashType : Nat)
        (DataToHash : List Nat) (i : Nat),
      ((Pei.RecordOr B Hobs1 Caller1).HashInterface.getD i ZeroInterface).HashGuid =
        HashInterface.HashGuid →
      (Pei.HashApiInit B Code Caller1 Hobs1 HashType).Invoked ≠ some i ∧
        (Pei.HashApiUpdate B Code Caller1 Hobs1 HashHandle HashType DataToHash).Invoked ≠
          some i ∧
        (Pei.HashApiFinal B Code Caller1 Hobs1 HashHandle HashType).Invoked ≠ some i) := by
  refine ⟨?_, ?_, ?_, ?_, ?_, ?_⟩
  · intro hCap hDup
    have h1 : ¬ S.mBaseHashInterfaceCount ≥ S.mHashOps.length := by omega
    have h2 := DuplicateLoop_false_of_ne S.mHashOps HashInterface.HashGuid
      S.mBaseHashInterfaceCount hDup
    have he : Dxe.RegisterHashApiLib B S HashInterface =
        ({ mHashOps := S.mHashOps.set S.mBaseHashInterfaceCount HashInterface
           mBaseHashInterfaceCount := S.mBaseHashInterfaceCount + 1
           mCurrentHashMask := S.mCurrentHashMask }, EFI_SUCCESS) := by
      unfold Dxe.RegisterHashApiLib
      simp only [if_neg h1, if_neg h2, hMask, Nat.or_zero]
    refine ⟨he, ?_⟩
    rw [he]
    simp [List.getD_eq_getElem?_getD, hCap]
  · intro hRec hCap hLen hDup
    have he := Pei.RegisterInHob_maskless B (Pei.RecordOr B Hobs Caller) HashInterface hMask
      hCap hDup
    rcases Pei.RecordOr_Register_self B Caller HobRoom Hobs HashInterface with
      ⟨_, hn, hr⟩ | ⟨hl, hs⟩
    · rcases hRec with hRec | hRec
      · exact absurd hn hRec
      · rw [hr] at hRec; cases hRec
    · rw [he] at hl hs
      refine ⟨hs, hl, ?_⟩
      unfold Pei.RecordOr at hl ⊢
      rw [hl]
      simp only [Option.getD_some]
      unfold Pei.RecordOr at hLen
      simp [List.getD_eq_getElem?_getD, hLen]
  · rw [Dxe.Register_status]
    exact Registry.Register_not_unsupported B _ _ _
  · rcases Pei.RecordOr_Register_self B Caller HobRoom Hobs HashInterface with
      ⟨he, _, _⟩ | ⟨_, hs⟩
    · rw [he]; intro hc; cases hc
    · rw [hs, Pei.RegisterInHob_status]
      exact Registry.Register_not_unsupported B _ _ _
  · intro S1 HashHandle HashType DataToHash i hg
    have hz : GetApiHashMaskFromAlgo B (S1.Registry.Ops.getD i ZeroInterface).HashGuid = 0 := by
      show GetApiHashMaskFromAlgo B (S1.mHashOps.getD i ZeroInterface).HashGuid = 0
      rw [hg]; exact hMask
    rw [Dxe.HashApiInit_eq, Dxe.HashApiUpdate_eq, Dxe.HashApiFinal_eq]
    exact ⟨Registry.Dispatch_not_maskless B _ _ _ _ i hz,
      Registry.Dispatch_not_maskless B _ _ _ _ i hz,
      Registry.Dispatch_not_maskless B _ _ _ _ i hz⟩
  · intro Hobs1 Caller1 HashHandle HashType DataToHash i hg
    have hz : GetApiHashMaskFromAlgo B
        ((Pei.RecordOr B Hobs1 Caller1).Registry.Ops.getD i ZeroInterface).HashGuid = 0 := by
      show GetApiHashMaskFromAlgo B
        ((Pei.RecordOr B Hobs1 Caller1).HashInterface.getD i ZeroInterface).HashGuid = 0
      rw [hg]; exact hMask
    rw [Pei.HashApiInit_on_record, Pei.HashApiUpdate_on_record, Pei.HashApiFinal_on_record]
    exact ⟨Registry.Dispatch_not_maskless B _ _ _ _ i hz,
      Registry.Dispatch_not_maskless B _ _ _ _ i hz,
      Registry.Dispatch_not_maskless B _ _ _ _ i hz⟩

/-- C23 at a concrete input: after the backend with mask `1`, a descriptor with the
GUID `999`, which the table does not hold, is registered; BaseHashLibDxe.c stores it at index
`1`, BaseHashLibPei.c returns `EFI_SUCCESS`, and in both `HashApiInit` with the hash
type `31`, which meets every mask of the table, does not select index `1`. -/
theorem C23_maskless_descriptor_witness :
    GetApiHashMaskFromAlgo Sample.Build5 Sample.Other.HashGuid = 0 ∧
      (Dxe.RegisterHashApiLib Sample.Build5
        (Dxe.Run Sample.Build5 (Dxe.Load Sample.Build5)
        [Dxe.Call.Constructor, Dxe.Call.Register Sample.Sha1]).1 Sample.Other).1.mHashOps.getD 1 ZeroInterface = Sample.Other ∧
      (Pei.RegisterHashApiLib Sample.Build5 7 false
        (Pei.Run Sample.Build5 []
        [Pei.Call.Constructor 7 true, Pei.Call.Register 7 true Sample.Sha1]).1 Sample.Other).2 = EFI_SUCCESS ∧
      (Dxe.HashApiInit Sample.Build5 Sample.Code
        (Dxe.RegisterHashApiLib Sample.Build5
          (Dxe.Run Sample.Build5 (Dxe.Load Sample.Build5)
        [Dxe.Call.Constructor, Dxe.Call.Register Sample.Sha1]).1 Sample.Other).1 31).Invoked ≠ some 1 ∧
      (Pei.HashApiInit Sample.Build5 Sample.Code 7
        (Pei.RegisterHashApiLib Sample.Build5 7 false
          (Pei.Run Sample.Build5 []
        [Pei.Call.Constructor 7 true, Pei.Call.Register 7 true Sample.Sha1]).1 Sample.Other).1 31).Invoked ≠ some 1 :=
  have T := C23_maskless_descriptor Sample.Build5 Sample.Code
    (Dxe.Run Sample.Build5 (Dxe.Load Sample.Build5)
        [Dxe.Call.Constructor, Dxe.Call.Register Sample.Sha1]).1 7 false
    (Pei.Run Sample.Build5 []
        [Pei.Call.Constructor 7 true, Pei.Call.Register 7 true Sample.Sha1]).1 Sample.Other (by decide)
  ⟨by decide, (T.1 (by decide) (by decide)).2,
    (T.2.1 (Or.inl (by decide)) (by decide) (by decide) (by decide)).1,
    (T.2.2.2.2.1 (Dxe.RegisterHashApiLib Sample.Build5
        (Dxe.Run Sample.Build5 (Dxe.Load Sample.Build5)
        [Dxe.Call.Constructor, Dxe.Call.Register Sample.Sha1]).1 Sample.Other).1 [] 31 [] 1 (by decide)).1,
    (T.2.2.2.2.2 (Pei.RegisterHashApiLib Sample.Build5 7 false
        (Pei.Run Sample.Build5 []
        [Pei.Call.Constructor 7 true, Pei.Call.Register 7 true Sample.Sha1]).1 Sample.Other).1 7 [] 31 [] 1 (by decide)).1⟩

end BaseHashLib
